import Mathlib

/-!
# STATS command of ircd-hybrid (`modules/m_stats.c`)

A shallow embedding of the STATS module: the category table `stats_tab`, the
lookup table built by `stats_init`, the dispatcher `do_stats`, the two command
handlers `m_stats` and `ms_stats`, and the report generators they dispatch to.

Conventions of the embedding

* A C string is a `String`; `*s` is its first character, or NUL when it is empty.
* A `dlink_list` is a `List`; `DLINK_FOREACH` visits it from the head.
* Everything the module sends is collected, in order, in a `List Effect`.
* `unsigned int` values are reduced modulo `2^32`, `size_t` and `uintmax_t`
  values modulo `2^64`.
* Functions of other compilation units that only produce text for a reply
  field (`time_dissect`, `get_client_name`, ...) appear as constructors of
  `Arg` that record the call and its inputs; functions of other compilation
  units that decide something (`hunt_server`, `match`, ...) are fields of
  `External`.
-/

namespace MStats

/-! ## Machine integers -/

/-- Value of an `unsigned int` expression. -/
def u32 (n : Nat) : Nat := n % 2 ^ 32

/-- Value of a `size_t` expression. -/
def size_t (n : Nat) : Nat := n % 2 ^ 64

/-- Value of a `uintmax_t` expression. -/
def uintmax_t (n : Nat) : Nat := n % 2 ^ 64

/-- The cast `(unsigned int)(a - b)` of a difference of two time values. -/
def u32_diff (a b : Nat) : Nat := (((a : Int) - (b : Int)) % (2 : Int) ^ 32).toNat

/-- The difference `a - b` of two time values as a `uintmax_t`. -/
def uintmax_diff (a b : Nat) : Nat := (((a : Int) - (b : Int)) % (2 : Int) ^ 64).toNat

/-- The cast `(int)(a - b)` of a difference of two time values. -/
def int_diff (a b : Nat) : Int :=
  let r := ((a : Int) - (b : Int)) % (2 : Int) ^ 32
  if r < (2 : Int) ^ 31 then r else r - (2 : Int) ^ 32

/-- The NUL character, which ends a C string. -/
def NUL : Char := Char.ofNat 0

/-- The first character `*s` of a C string: NUL for the empty string. -/
def deref (s : String) : Char :=
  match s.data with
  | [] => NUL
  | c :: _ => c

/-! ## User modes

The user mode bits are declared in `client.h`, outside this module. The spec
calls a required privilege a bitmask (none, operator or administrator); each
mode is one bit of `umodes`. The positions below are immaterial: the
development only uses that the bits are distinct. -/

/-- Modelled from the spec: the bit of `client.h` for operators who monitor
STATS requests. -/
def UMODE_SPY : Nat := 0x00000020

/-- Modelled from the spec: the bit of `client.h` for invisible users. -/
def UMODE_INVISIBLE : Nat := 0x00000200

/-- Modelled from the spec: the bit of `client.h` for operators hidden from
the operator roster. -/
def UMODE_HIDDEN : Nat := 0x00080000

/-- Modelled from the spec: the operator bit of `client.h`. -/
def UMODE_OPER : Nat := 0x00100000

/-- Modelled from the spec: the administrator bit of `client.h`. -/
def UMODE_ADMIN : Nat := 0x00200000

/-- Modelled from the spec: the bit of `client.h` for users who hide their
idle time. -/
def UMODE_HIDEIDLE : Nat := 0x04000000

/-- Connection state of a client (`client.h`: `IsServer`, `IsClient`, ...). -/
inductive Status
  | STAT_CONNECTING
  | STAT_HANDSHAKE
  | STAT_ME
  | STAT_UNKNOWN
  | STAT_SERVER
  | STAT_CLIENT
  deriving DecidableEq, Repr

/-- The `struct ListTask` of a connection running a LIST query. -/
structure ListTask where
  show_mask : List String
  hide_mask : List String
  deriving DecidableEq, Repr

/-- The parts of `struct Connection` the module reads. -/
structure Connection where
  send_messages : Nat
  send_bytes : Nat
  recv_messages : Nat
  recv_bytes : Nat
  firsttime : Nat
  since : Nat
  lasttime : Nat
  /-- The value of `dbuf_length(&buf_sendq)`. -/
  buf_sendq : Nat
  /-- The value of `dlink_list_length(&confs)`. -/
  confs : Nat
  /-- The value of `dlink_list_length(&watches)`. -/
  watches : Nat
  operflags : Nat
  list_task : ListTask
  ip : String
  aftype : Nat
  password : Option String
  deriving DecidableEq, Repr

/-- The parts of `struct Client` the module reads. `addr` stands for the
address of the structure: two clients are the same object iff their `addr`
agree. `connection` is `none` for a client that is not directly connected. -/
structure Client where
  addr : Nat
  name : String
  id : String
  username : String
  host : String
  away : String
  umodes : Nat
  status : Status
  /-- The flag `FLAGS_SERVICE` of `flags`. -/
  service : Bool
  connection : Option Connection
  /-- The field `servptr->name`. -/
  servptr_name : String
  /-- The field `serv->by` of a server. -/
  serv_by : String
  deriving DecidableEq, Repr

/-- Modelled from the spec: the macro `HasUMode(x, m)` of `client.h`, the test
`x->umodes & m` of a privilege bitmask. -/
def HasUMode (x : Client) (m : Nat) : Bool := x.umodes &&& m != 0

/-- Modelled from the spec: the macro `MyConnect` of `client.h`; a client is
directly connected (co-located) iff it has a connection structure. -/
def MyConnect (x : Client) : Bool := x.connection.isSome

/-- Modelled from the spec: the macro `IsServer` of `client.h`. -/
def IsServer (x : Client) : Bool := x.status = Status.STAT_SERVER

/-- Modelled from the spec: the macro `IsClient` of `client.h`. -/
def IsClient (x : Client) : Bool := x.status = Status.STAT_CLIENT

/-- Modelled from the spec: the macro `IsHandshake` of `client.h`. -/
def IsHandshake (x : Client) : Bool := x.status = Status.STAT_HANDSHAKE

/-- Modelled from the spec: the macro `IsConnecting` of `client.h`. -/
def IsConnecting (x : Client) : Bool := x.status = Status.STAT_CONNECTING

/-- The connection of a client taken from one of the lists of directly
connected clients (`target_p->connection->...`); such a client always has
one, so the default is never used on those lists. -/
def Client.conn (x : Client) : Connection :=
  x.connection.getD
    { send_messages := 0, send_bytes := 0, recv_messages := 0, recv_bytes := 0,
      firsttime := 0, since := 0, lasttime := 0, buf_sendq := 0, confs := 0,
      watches := 0, operflags := 0, list_task := { show_mask := [], hide_mask := [] },
      ip := "", aftype := 0, password := none }

/-! ## Replies -/

/-- The numerics the module sends (`numeric.h`). -/
inductive Numeric
  | RPL_STATSLINKINFO
  | RPL_STATSCOMMANDS
  | RPL_STATSCLINE
  | RPL_STATSILINE
  | RPL_STATSKLINE
  | RPL_STATSQLINE
  | RPL_STATSYLINE
  | RPL_ENDOFSTATS
  | RPL_STATSPLINE
  | RPL_STATSDLINE
  | RPL_STATSSERVICE
  | RPL_STATSALINE
  | RPL_STATSTLINE
  | RPL_STATSUPTIME
  | RPL_STATSOLINE
  | RPL_STATSHLINE
  | RPL_STATSLLINE
  | RPL_STATSULINE
  | RPL_STATSXLINE
  | RPL_STATSDEBUG
  | RPL_STATSCONN
  | RPL_LOAD2HI
  | ERR_NEEDMOREPARAMS
  | ERR_NOPRIVILEGES
  deriving DecidableEq, Repr

/-- Address display mode passed to `get_client_name`. -/
inductive ShowIP
  | SHOW_IP
  | HIDE_IP
  | MASK_IP
  deriving DecidableEq, Repr

/-- One argument of a variadic send call. Besides characters, strings and
integers, an argument can be the result of a call into another compilation
unit, or of a floating point macro, which is recorded with its inputs. -/
inductive Arg
  | chr (c : Char)
  | str (s : String)
  | num (n : Nat)
  | int (i : Int)
  /-- The string `time_dissect(n)`. -/
  | time_dissect (n : Nat)
  /-- The string `time_dissect(client_get_idle_time(source_p, target_p))`. -/
  | idle_time (source target : Nat)
  /-- The string `oper_privs_as_string(flags)`. -/
  | oper_privs_as_string (flags : Nat)
  /-- The string `get_client_name(target_p, mode)`. -/
  | get_client_name (target : Nat) (mode : ShowIP)
  /-- The string `show_capabilities(target_p)`. -/
  | show_capabilities (target : Nat)
  /-- The float `_GMKv(n)`. -/
  | GMKv (n : Nat)
  /-- The string `_GMKs(n)`. -/
  | GMKs (n : Nat)
  /-- The float `(float)kb / (float)uptime`. -/
  | rate (kb uptime : Nat)
  /-- The content of `ipaddr` after `getnameinfo` ran on `irc_nsaddr_list[i]`. -/
  | nsaddr (i : Nat)
  deriving DecidableEq, Repr

/-- Everything a handler can do to the outside world, in the order it does it.

* `sendto_one_numeric dest numeric explicit args`: a numeric reply to the client
  at address `dest`; `explicit` is the `SND_EXPLICIT` bit, in which case the
  first argument is the format.
* `sendto_realops_flags flags fmt args`: a notice (`L_ALL`, `SEND_NOTICE`) to
  the operators holding user mode `flags`.
* `hunt_server source command server parc parv`: the call of the routing
  primitive, with whatever it sends or forwards itself.
* `store_past_end index capacity`: a store through a pointer into an automatic
  array of `capacity` elements at an `index` that is not below `capacity`. The
  behaviour of the program is undefined from there on: what a list holds after
  such an effect is what the code goes on to do if the store does no harm. -/
inductive Effect
  | sendto_one_numeric (dest : Nat) (numeric : Numeric) (explicit : Bool) (args : List Arg)
  | sendto_realops_flags (flags : Nat) (fmt : String) (args : List Arg)
  | hunt_server (source : Nat) (command : String) (server : Nat) (parc : Nat)
      (parv : List String)
  | store_past_end (index capacity : Nat)
  deriving DecidableEq, Repr

/-- The call `sendto_one_numeric(source_p, &me, numeric, ...)`. -/
def reply (source_p : Client) (numeric : Numeric) (args : List Arg) : Effect :=
  Effect.sendto_one_numeric source_p.addr numeric false args

/-- The call `sendto_one_numeric(source_p, &me, RPL_STATSDEBUG | SND_EXPLICIT, fmt, ...)`. -/
def debug (source_p : Client) (fmt : String) (args : List Arg) : Effect :=
  Effect.sendto_one_numeric source_p.addr Numeric.RPL_STATSDEBUG true (Arg.str fmt :: args)

/-- The loop `DLINK_FOREACH(node, list.head) body` (macro of `list.h`: the
nodes of the list from its head on), for a body without local state:
`continue` is the empty list of effects. -/
def DLINK_FOREACH {α : Type} (list : List α) (body : α → List Effect) : List Effect :=
  match list with
  | [] => []
  | x :: rest => body x ++ DLINK_FOREACH rest body

/-- Result of `hunt_server` (`server.h`). -/
inductive Hunted
  | HUNTED_NOSUCH
  | HUNTED_ISME
  | HUNTED_PASS
  deriving DecidableEq, Repr

/-! ## Configuration and the collections of the collaborators -/

/-- The fields of `ConfigGeneral` the module reads. -/
structure config_general_entry where
  pace_wait : Nat
  stats_e_disabled : Bool
  stats_i_oper_only : Nat
  stats_k_oper_only : Nat
  stats_m_oper_only : Bool
  stats_o_oper_only : Bool
  stats_P_oper_only : Bool
  stats_u_oper_only : Bool
  deriving DecidableEq, Repr

/-- The fields of `ConfigServerHide` the module reads. -/
structure config_serverhide_entry where
  flatten_links : Bool
  hide_services : Bool
  hide_server_ips : Bool
  disable_remote_commands : Bool
  deriving DecidableEq, Repr

/-- The `enum maskitem_type` values the module mentions, and one for the rest. -/
inductive maskitem_type
  | CONF_CLIENT
  | CONF_SERVER
  | CONF_KLINE
  | CONF_DLINE
  | CONF_EXEMPT
  | CONF_OPER
  | CONF_OTHER
  deriving DecidableEq, Repr

/-- The parts of `struct MaskItem` the module reads. The `Bool` fields are the
tests `IsConf...(conf)` on `conf->flags`; `name` is `none` for a NULL pointer. -/
structure MaskItem where
  name : Option String
  user : String
  host : String
  reason : String
  class_name : String
  port : Nat
  until_ : Nat
  hub_list : List String
  leaf_list : List String
  IsConfAllowAutoConn : Bool
  IsConfSSL : Bool
  IsConfWebIRC : Bool
  IsNoTilde : Bool
  IsNeedIdentd : Bool
  IsNeedPassword : Bool
  IsConfExemptResv : Bool
  IsConfDoSpoofIp : Bool
  IsConfExemptKline : Bool
  IsConfExemptXline : Bool
  IsConfExemptLimits : Bool
  IsConfCanFlood : Bool
  deriving DecidableEq, Repr

/-- An entry of the address hash table `atable`. -/
structure AddressRec where
  type : maskitem_type
  conf : MaskItem
  deriving DecidableEq, Repr

structure SharedItem where
  type : Nat
  server : String
  user : String
  host : String
  deriving DecidableEq, Repr

structure ClusterItem where
  type : Nat
  server : String
  deriving DecidableEq, Repr

structure ServiceItem where
  name : String
  deriving DecidableEq, Repr

structure GecosItem where
  expire : Nat
  mask : String
  reason : String
  deriving DecidableEq, Repr

structure ResvItem where
  expire : Nat
  mask : String
  reason : String
  deriving DecidableEq, Repr

/-- The parts of `struct Channel` the module reads; the list fields hold
`dlink_list_length` of the list of that name. -/
structure Channel where
  topic : String
  members : Nat
  invites : Nat
  banlist : Nat
  exceptlist : Nat
  invexlist : Nat
  deriving DecidableEq, Repr

structure ClassItem where
  name : String
  ping_freq : Nat
  con_freq : Nat
  max_total : Nat
  max_sendq : Nat
  max_recvq : Nat
  ref_count : Nat
  number_per_cidr : Nat
  cidr_bitlen_ipv4 : Nat
  cidr_bitlen_ipv6 : Nat
  active : Bool
  deriving DecidableEq, Repr

/-- A scheduled task (`struct event`). -/
structure event where
  name : String
  next : Nat
  deriving DecidableEq, Repr

/-- Modelled from the spec: the secure-transport bit of `listener.h`; like the
next two, one bit of a listener's `flags`, the position being immaterial. -/
def LISTENER_SSL : Nat := 0x1

/-- Modelled from the spec: the hidden bit of `listener.h`. -/
def LISTENER_HIDDEN : Nat := 0x2

/-- Modelled from the spec: the server-only bit of `listener.h`. -/
def LISTENER_SERVER : Nat := 0x4

structure Listener where
  flags : Nat
  port : Nat
  name : String
  ref_count : Nat
  active : Bool
  deriving DecidableEq, Repr

/-- The counters of `struct ServerStatistics`. -/
structure ServerStatistics where
  is_cl : Nat
  is_sv : Nat
  is_ni : Nat
  is_cbs : Nat
  is_cbr : Nat
  is_sbs : Nat
  is_sbr : Nat
  is_cti : Nat
  is_sti : Nat
  is_ac : Nat
  is_ref : Nat
  is_unco : Nat
  is_wrdi : Nat
  is_unpf : Nat
  is_empt : Nat
  is_num : Nat
  is_kill : Nat
  is_asuc : Nat
  is_abad : Nat
  deriving DecidableEq, Repr

/-- The fields of `Count` the module reads. -/
structure Counter where
  max_loc_con : Nat
  max_loc_cli : Nat
  totalrestartcount : Nat
  deriving DecidableEq, Repr

/-- The values of `sizeof` and of `NICKNAMEHISTORYLENGTH` that `stats_memory`
uses; the structures are declared in headers outside this module. -/
structure Sizes where
  sizeof_Client : Nat
  sizeof_Connection : Nat
  sizeof_Channel : Nat
  sizeof_Ban : Nat
  sizeof_Membership : Nat
  sizeof_dlink_node : Nat
  sizeof_ListTask : Nat
  sizeof_ResvItem : Nat
  sizeof_ClassItem : Nat
  NICKNAMEHISTORYLENGTH : Nat
  deriving DecidableEq, Repr

/-- Functions of other compilation units whose result the module branches on.

* `hunt_server source_p command server parc parv`: where the request goes.
* `find_conf_by_address host ip type aftype username password do_match`.
* `irccmp a b`: zero iff the names are equal up to case.
* `match_ mask name`: zero iff the mask matches the name.
* `has_wildcards s`: non-zero iff the string contains a wildcard.
* `ID_or_name_me source_p`: the value of `ID_or_name(&me, source_p)`. -/
structure External where
  hunt_server : Client → String → Nat → Nat → List String → Hunted
  find_conf_by_address :
    String → Option String → maskitem_type → Nat → String → Option String → Nat →
      Option MaskItem
  irccmp : String → String → Int
  match_ : String → String → Int
  has_wildcards : String → Int
  ID_or_name_me : Client → String

/-- The process-wide data the module reads. `last_used` is the static local
of `m_stats`, the only component the module writes. The four fields after
`ipcache_get_stats` are the lines that report generators of other compilation
units send to the requester. -/
structure State where
  CurrentTime : Nat
  last_used : Nat
  ConfigGeneral : config_general_entry
  ConfigServerHide : config_serverhide_entry
  me : Client
  Count : Counter
  ServerStats : ServerStatistics
  sizes : Sizes
  global_client_list : List Client
  local_client_list : List Client
  local_server_list : List Client
  unknown_list : List Client
  oper_list : List Client
  listing_client_list : List Client
  channel_list : List Channel
  atable : List (List AddressRec)
  operator_items : List MaskItem
  server_items : List MaskItem
  shared_list : List SharedItem
  cluster_list : List ClusterItem
  service_list : List ServiceItem
  gecos_list : List GecosItem
  resv_chan_list : List ResvItem
  resv_nick_list : List ResvItem
  class_list : List ClassItem
  event_list : List event
  listener_list : List Listener
  irc_nscount : Nat
  /-- The pair `whowas_count_memory` stores through its two pointers. -/
  whowas_count_memory : Nat × Nat
  /-- The pair `watch_count_memory` stores through its two pointers. -/
  watch_count_memory : Nat × Nat
  /-- The pair `listener_count_memory` stores through its two pointers. -/
  listener_count_memory : Nat × Nat
  /-- The pair `ipcache_get_stats` stores through its two pointers. -/
  ipcache_get_stats : Nat × Nat
  motd_memory_count : List (List Arg)
  report_messages : List (List Arg)
  fd_dump : List (List Arg)
  motd_report : List (List Arg)
  ext : External

/-! ## Report generators of other compilation units -/

/-- Modelled from the spec: `motd_memory_count` (motd.c) is not part of this
module. It is a report generator: it sends the requester report lines, here
the debug lines whose arguments the state holds, and nothing else. -/
def motd_memory_count (st : State) (source_p : Client) : List Effect :=
  st.motd_memory_count.map fun args =>
    Effect.sendto_one_numeric source_p.addr Numeric.RPL_STATSDEBUG true args

/-- Modelled from the spec: `report_messages` (parse.c) is not part of this
module. It is a report generator: it sends the requester one report line per
registered command, with the arguments the state holds, and nothing else. -/
def report_messages (st : State) (source_p : Client) : List Effect :=
  st.report_messages.map fun args => reply source_p Numeric.RPL_STATSCOMMANDS args

/-- Modelled from the spec: `fd_dump` (fdlist.c) is not part of this module. It
is a report generator: it sends the requester one debug line per open
descriptor, with the arguments the state holds, and nothing else. -/
def fd_dump (st : State) (source_p : Client) (_parc : Nat) (_parv : List String) :
    List Effect :=
  st.fd_dump.map fun args =>
    Effect.sendto_one_numeric source_p.addr Numeric.RPL_STATSDEBUG true args

/-- Modelled from the spec: `motd_report` (motd.c) is not part of this module.
It is a report generator: it sends the requester one report line per
conditional MOTD, with the arguments the state holds, and nothing else. -/
def motd_report (st : State) (source_p : Client) (_parc : Nat) (_parv : List String) :
    List Effect :=
  st.motd_report.map fun args => reply source_p Numeric.RPL_STATSTLINE args

/-! ## Shared and cluster permissions -/

/-- A row of the two `flag_table`s. -/
structure flag_types where
  type : Nat
  letter : Char
  deriving DecidableEq, Repr

/-- Modelled from the spec: the permission bits of `conf_shared.h` and
`conf_cluster.h` are not part of this module; each of the nine permissions of
a shared or cluster entry is one non-zero bit of its `type`. -/
def SHARED_KLINE : Nat := 0x001
def SHARED_UNKLINE : Nat := 0x002
def SHARED_XLINE : Nat := 0x004
def SHARED_UNXLINE : Nat := 0x008
def SHARED_RESV : Nat := 0x010
def SHARED_UNRESV : Nat := 0x020
def SHARED_LOCOPS : Nat := 0x040
def SHARED_DLINE : Nat := 0x080
def SHARED_UNDLINE : Nat := 0x100

def CLUSTER_KLINE : Nat := 0x001
def CLUSTER_UNKLINE : Nat := 0x002
def CLUSTER_XLINE : Nat := 0x004
def CLUSTER_UNXLINE : Nat := 0x008
def CLUSTER_RESV : Nat := 0x010
def CLUSTER_UNRESV : Nat := 0x020
def CLUSTER_LOCOPS : Nat := 0x040
def CLUSTER_DLINE : Nat := 0x080
def CLUSTER_UNDLINE : Nat := 0x100

/-- The `flag_table` of `report_shared`, sentinel row included. -/
def shared_flag_table : List flag_types :=
  [ ⟨SHARED_KLINE, 'K'⟩, ⟨SHARED_UNKLINE, 'U'⟩, ⟨SHARED_XLINE, 'X'⟩,
    ⟨SHARED_UNXLINE, 'Y'⟩, ⟨SHARED_RESV, 'Q'⟩, ⟨SHARED_UNRESV, 'R'⟩,
    ⟨SHARED_LOCOPS, 'L'⟩, ⟨SHARED_DLINE, 'D'⟩, ⟨SHARED_UNDLINE, 'E'⟩,
    ⟨0, NUL⟩ ]

/-- The `flag_table` of `report_cluster`, sentinel row included. -/
def cluster_flag_table : List flag_types :=
  [ ⟨CLUSTER_KLINE, 'K'⟩, ⟨CLUSTER_UNKLINE, 'U'⟩, ⟨CLUSTER_XLINE, 'X'⟩,
    ⟨CLUSTER_UNXLINE, 'Y'⟩, ⟨CLUSTER_RESV, 'Q'⟩, ⟨CLUSTER_UNRESV, 'R'⟩,
    ⟨CLUSTER_LOCOPS, 'L'⟩, ⟨CLUSTER_DLINE, 'D'⟩, ⟨CLUSTER_UNDLINE, 'E'⟩,
    ⟨0, NUL⟩ ]

/-- Modelled from the spec: the macro `ToLower` of `irc_string.h`, on the
letters of the flag tables. -/
def ToLower (c : Char) : Char := c.toLower

/-- The loop `for (tab = flag_table; tab->type; ++tab)` of `report_shared` and
`report_cluster`: the characters stored through `p`, in order. -/
def flag_loop (type : Nat) : List flag_types → List Char
  | [] => []
  | tab :: rest =>
    if tab.type = 0 then []
    else (if tab.type &&& type != 0 then tab.letter else ToLower tab.letter) ::
      flag_loop type rest

/-- The characters stored in `buf` before the terminating NUL: the first
character, then what the loop stores. -/
def flag_buf (first : Char) (table : List flag_types) (type : Nat) : List Char :=
  first :: flag_loop type table

/-- The capacity of `buf` in `report_shared` and `report_cluster`:
`sizeof(flag_table) / sizeof(entry)`, the number of rows of the table, the
sentinel row included. -/
def flag_buf_capacity (table : List flag_types) : Nat := table.length

/-- The stores through `p` of the loop `for (tab = flag_table; tab->type; ++tab)`
entered with `p = buf + i`, and the store `*p = '\0'` after it: the index and
the character of each store, in order. Both tables end with the sentinel row,
at which the loop stops. -/
def flag_stores_loop (type : Nat) : List flag_types → Nat → List (Nat × Char)
  | [], i => [(i, NUL)]
  | tab :: rest, i =>
    if tab.type = 0 then [(i, NUL)]
    else (i, if tab.type &&& type != 0 then tab.letter else ToLower tab.letter) ::
      flag_stores_loop type rest (i + 1)

/-- All stores to `buf` for one entry: `*p++ = first`, the loop, and the
terminating NUL. -/
def flag_stores (first : Char) (table : List flag_types) (type : Nat) : List (Nat × Char) :=
  (0, first) :: flag_stores_loop type table 1

/-- The stores of a list that do not fall within an array of `capacity`
elements, as effects, in the order of the stores. -/
def stores_past_end (stores : List (Nat × Char)) (capacity : Nat) : List Effect :=
  (stores.filter fun s => decide (capacity ≤ s.1)).map fun s =>
    Effect.store_past_end s.1 capacity

/-- The function `report_shared`. For every entry the stores to the automatic
array `buf` come first: those that fall outside its
`sizeof(flag_table) / sizeof(struct shared_types)` elements are effects. The
line that follows carries the characters stored before the terminating NUL. -/
def report_shared (st : State) (source_p : Client) : List Effect :=
  DLINK_FOREACH st.shared_list fun shared =>
    stores_past_end (flag_stores 'c' shared_flag_table shared.type)
      (flag_buf_capacity shared_flag_table) ++
    [reply source_p Numeric.RPL_STATSULINE
      [Arg.str shared.server, Arg.str shared.user, Arg.str shared.host,
       Arg.str (String.mk (flag_buf 'c' shared_flag_table shared.type))]]

/-- The function `report_cluster`, with the stores to its `buf` as in
`report_shared`. -/
def report_cluster (st : State) (source_p : Client) : List Effect :=
  DLINK_FOREACH st.cluster_list fun cluster =>
    stores_past_end (flag_stores 'C' cluster_flag_table cluster.type)
      (flag_buf_capacity cluster_flag_table) ++
    [reply source_p Numeric.RPL_STATSULINE
      [Arg.str cluster.server, Arg.str "*", Arg.str "*",
       Arg.str (String.mk (flag_buf 'C' cluster_flag_table cluster.type))]]

def report_service (st : State) (source_p : Client) : List Effect :=
  DLINK_FOREACH st.service_list fun service =>
    [reply source_p Numeric.RPL_STATSSERVICE
      [Arg.chr 'S', Arg.str "*", Arg.str service.name, Arg.num 0, Arg.num 0]]

def report_gecos (st : State) (source_p : Client) : List Effect :=
  DLINK_FOREACH st.gecos_list fun gecos =>
    [reply source_p Numeric.RPL_STATSXLINE
      [Arg.chr (if gecos.expire != 0 then 'x' else 'X'), Arg.str gecos.mask,
       Arg.str gecos.reason]]

/-! ## Operator and server-link blocks, reservations -/

/-- The flag buffer `buf` that the `CONF_SERVER` case builds for one entry. -/
def server_flags_buf (conf : MaskItem) : List Char :=
  let b := (if conf.IsConfAllowAutoConn then ['A'] else []) ++
    (if conf.IsConfSSL then ['S'] else [])
  if b.head? = none then b ++ ['*'] else b

def report_confitem_types (st : State) (source_p : Client) (type : maskitem_type) :
    List Effect :=
  match type with
  | maskitem_type.CONF_OPER =>
    DLINK_FOREACH st.operator_items fun conf =>
      if HasUMode source_p UMODE_OPER then
        [reply source_p Numeric.RPL_STATSOLINE
          [Arg.chr 'O', Arg.str conf.user, Arg.str conf.host,
           Arg.str (conf.name.getD ""), Arg.oper_privs_as_string conf.port,
           Arg.str conf.class_name]]
      else
        [reply source_p Numeric.RPL_STATSOLINE
          [Arg.chr 'O', Arg.str conf.user, Arg.str conf.host,
           Arg.str (conf.name.getD ""), Arg.str "0", Arg.str conf.class_name]]
  | maskitem_type.CONF_SERVER =>
    DLINK_FOREACH st.server_items fun conf =>
      if !st.ConfigServerHide.hide_server_ips && HasUMode source_p UMODE_ADMIN then
        [reply source_p Numeric.RPL_STATSCLINE
          [Arg.chr 'C', Arg.str conf.host, Arg.str (String.mk (server_flags_buf conf)),
           Arg.str (conf.name.getD ""), Arg.num conf.port, Arg.str conf.class_name]]
      else
        [reply source_p Numeric.RPL_STATSCLINE
          [Arg.chr 'C', Arg.str "*@127.0.0.1", Arg.str (String.mk (server_flags_buf conf)),
           Arg.str (conf.name.getD ""), Arg.num conf.port, Arg.str conf.class_name]]
  | _ => []

def report_resv (st : State) (source_p : Client) : List Effect :=
  (DLINK_FOREACH st.resv_chan_list fun resv =>
    [reply source_p Numeric.RPL_STATSQLINE
      [Arg.chr (if resv.expire != 0 then 'q' else 'Q'), Arg.str resv.mask,
       Arg.str resv.reason]]) ++
  (DLINK_FOREACH st.resv_nick_list fun resv =>
    [reply source_p Numeric.RPL_STATSQLINE
      [Arg.chr (if resv.expire != 0 then 'q' else 'Q'), Arg.str resv.mask,
       Arg.str resv.reason]])

/-! ## Memory usage -/

/-- The counters the first loop of `stats_memory` maintains. -/
structure ClientCounts where
  local_client_count : Nat
  local_client_conf_count : Nat
  watch_list_entries : Nat
  remote_client_count : Nat
  users_counted : Nat
  aways_counted : Nat
  deriving DecidableEq, Repr

/-- The loop of `stats_memory` over `global_client_list`. -/
def count_clients : List Client → ClientCounts → ClientCounts
  | [], c => c
  | target_p :: rest, c =>
    let c1 : ClientCounts :=
      if MyConnect target_p then
        { c with
          local_client_count := u32 (c.local_client_count + 1)
          local_client_conf_count := u32 (c.local_client_conf_count + target_p.conn.confs)
          watch_list_entries := u32 (c.watch_list_entries + target_p.conn.watches) }
      else
        { c with remote_client_count := u32 (c.remote_client_count + 1) }
    let c2 : ClientCounts :=
      if IsClient target_p then
        let c3 := { c1 with users_counted := u32 (c1.users_counted + 1) }
        if deref target_p.away != NUL then
          { c3 with aways_counted := u32 (c3.aways_counted + 1) }
        else c3
      else c1
    count_clients rest c2

/-- The counters the loop of `stats_memory` over `channel_list` maintains. -/
structure ChannelCounts where
  channel_members : Nat
  channel_invites : Nat
  channel_topics : Nat
  channel_bans : Nat
  channel_ban_memory : Nat
  channel_except : Nat
  channel_except_memory : Nat
  channel_invex : Nat
  channel_invex_memory : Nat
  deriving DecidableEq, Repr

/-- The loop of `stats_memory` over `channel_list`. -/
def count_channels (sz : Sizes) : List Channel → ChannelCounts → ChannelCounts
  | [], c => c
  | chptr :: rest, c =>
    count_channels sz rest
      { channel_members := u32 (c.channel_members + chptr.members)
        channel_invites := u32 (c.channel_invites + chptr.invites)
        channel_topics :=
          if deref chptr.topic != NUL then u32 (c.channel_topics + 1)
          else c.channel_topics
        channel_bans := u32 (c.channel_bans + chptr.banlist)
        channel_ban_memory := size_t (c.channel_ban_memory + chptr.banlist * sz.sizeof_Ban)
        channel_except := u32 (c.channel_except + chptr.exceptlist)
        channel_except_memory :=
          size_t (c.channel_except_memory + chptr.exceptlist * sz.sizeof_Ban)
        channel_invex := u32 (c.channel_invex + chptr.invexlist)
        channel_invex_memory :=
          size_t (c.channel_invex_memory + chptr.invexlist * sz.sizeof_Ban) }

/-- The inner loops `safelist_memory += strlen(dlink->data)` over one mask list. -/
def add_strlen : List String → Nat → Nat
  | [], m => m
  | mask :: rest, m => add_strlen rest (size_t (m + mask.length))

/-- The loop of `stats_memory` over `listing_client_list`. -/
def count_safelist : List Client → Nat → Nat
  | [], m => m
  | acptr :: rest, m =>
    count_safelist rest
      (add_strlen acptr.conn.list_task.hide_mask (add_strlen acptr.conn.list_task.show_mask m))

/-- Modelled from the spec: the macro `dlink_list_length` of `list.h`, the
count a collection exposes, an `unsigned int`. -/
def dlink_list_length {α : Type} (list : List α) : Nat := u32 list.length

/-- Modelled from the spec: the value of the enumerator `RPL_STATSDEBUG` of
`numeric.h`. -/
def RPL_STATSDEBUG_value : Nat := 249

/-- The locals of `stats_memory` that end up in its replies, with the values
they have when the last reply is sent. -/
structure MemoryVars where
  clients : ClientCounts
  channels : ChannelCounts
  channel_memory : Nat
  safelist_count : Nat
  safelist_memory : Nat
  class_count : Nat
  wwu : Nat
  wwm : Nat
  watch_list_headers : Nat
  watch_list_memory : Nat
  listener_count : Nat
  listener_memory : Nat
  total_channel_memory : Nat
  totww : Nat
  number_ips_stored : Nat
  mem_ips_stored : Nat
  conf_memory : Nat
  local_client_memory_used : Nat
  remote_client_memory_used : Nat
  total_memory : Nat
  deriving DecidableEq, Repr

/-- The computations of `stats_memory`, in source order. -/
def stats_memory_vars (st : State) : MemoryVars :=
  let sz := st.sizes
  let clients := count_clients st.global_client_list
    { local_client_count := 0, local_client_conf_count := 0, watch_list_entries := 0,
      remote_client_count := 0, users_counted := 0, aways_counted := 0 }
  let channel_memory := size_t (dlink_list_length st.channel_list * sz.sizeof_Channel)
  let channels := count_channels sz st.channel_list
    { channel_members := 0, channel_invites := 0, channel_topics := 0, channel_bans := 0,
      channel_ban_memory := 0, channel_except := 0, channel_except_memory := 0,
      channel_invex := 0, channel_invex_memory := 0 }
  let safelist_count := dlink_list_length st.listing_client_list
  let safelist_memory :=
    if safelist_count != 0 then
      count_safelist st.listing_client_list (size_t (safelist_count * sz.sizeof_ListTask))
    else 0
  let conf_memory := 0
  let class_count := dlink_list_length st.class_list
  let wwu := st.whowas_count_memory.1
  let wwm := st.whowas_count_memory.2
  let watch_list_headers := st.watch_count_memory.1
  let watch_list_memory := st.watch_count_memory.2
  let listener_count := st.listener_count_memory.1
  let listener_memory := st.listener_count_memory.2
  let total_channel_memory :=
    size_t (channel_memory + channels.channel_ban_memory +
      channels.channel_members * sz.sizeof_Membership +
      channels.channel_invites * sz.sizeof_dlink_node * 2)
  let totww := size_t (wwu * sz.sizeof_Client + wwm)
  let number_ips_stored := st.ipcache_get_stats.1
  let mem_ips_stored := st.ipcache_get_stats.2
  let total_memory0 :=
    size_t (totww + total_channel_memory + conf_memory + class_count * sz.sizeof_ClassItem)
  let local_client_memory_used :=
    size_t (clients.local_client_count * (sz.sizeof_Client + sz.sizeof_Connection))
  let total_memory1 := size_t (total_memory0 + local_client_memory_used)
  let remote_client_memory_used := size_t (clients.remote_client_count * sz.sizeof_Client)
  let total_memory2 := size_t (total_memory1 + remote_client_memory_used)
  { clients := clients, channels := channels, channel_memory := channel_memory,
    safelist_count := safelist_count, safelist_memory := safelist_memory,
    class_count := class_count, wwu := wwu, wwm := wwm,
    watch_list_headers := watch_list_headers, watch_list_memory := watch_list_memory,
    listener_count := listener_count, listener_memory := listener_memory,
    total_channel_memory := total_channel_memory, totww := totww,
    number_ips_stored := number_ips_stored, mem_ips_stored := mem_ips_stored,
    conf_memory := conf_memory, local_client_memory_used := local_client_memory_used,
    remote_client_memory_used := remote_client_memory_used,
    total_memory := total_memory2 }

def stats_memory (st : State) (source_p : Client) (_parc : Nat) (_parv : List String) :
    List Effect :=
  let sz := st.sizes
  let v := stats_memory_vars st
  [ debug source_p "z :WATCH headers %u(%zu) entries %u(%u)"
      [Arg.num v.watch_list_headers, Arg.num v.watch_list_memory,
       Arg.num v.clients.watch_list_entries,
       Arg.num (size_t (v.clients.watch_list_entries * sz.sizeof_dlink_node * 2))],
    debug source_p "z :Clients %u(%u)"
      [Arg.num v.clients.users_counted,
       Arg.num (size_t (v.clients.users_counted * sz.sizeof_Client))],
    debug source_p "z :User aways %u" [Arg.num v.clients.aways_counted],
    debug source_p "z :Attached confs %u(%zu)"
      [Arg.num v.clients.local_client_conf_count,
       Arg.num (size_t (v.clients.local_client_conf_count * sz.sizeof_dlink_node))],
    debug source_p "z :Resv channels %u(%zu) nicks %u(%zu)"
      [Arg.num (dlink_list_length st.resv_chan_list),
       Arg.num (size_t (dlink_list_length st.resv_chan_list * sz.sizeof_ResvItem)),
       Arg.num (dlink_list_length st.resv_nick_list),
       Arg.num (size_t (dlink_list_length st.resv_nick_list * sz.sizeof_ResvItem))],
    debug source_p "z :Listeners allocated %u(%zu)"
      [Arg.num v.listener_count, Arg.num v.listener_memory],
    debug source_p "z :Classes %u(%zu)"
      [Arg.num v.class_count, Arg.num (size_t (v.class_count * sz.sizeof_ClassItem))],
    debug source_p "z :Channels %u(%zu) Topics %u"
      [Arg.num (dlink_list_length st.channel_list), Arg.num v.channel_memory,
       Arg.num v.channels.channel_topics],
    debug source_p "z :Bans %u(%zu)"
      [Arg.num v.channels.channel_bans, Arg.num v.channels.channel_ban_memory],
    debug source_p "z :Exceptions %u(%zu)"
      [Arg.num v.channels.channel_except, Arg.num v.channels.channel_except_memory],
    debug source_p "z :Invex %u(%zu)"
      [Arg.num v.channels.channel_invex, Arg.num v.channels.channel_invex_memory],
    debug source_p "z :Channel members %u(%zu) invites %u(%zu)"
      [Arg.num v.channels.channel_members,
       Arg.num (size_t (v.channels.channel_members * sz.sizeof_Membership)),
       Arg.num v.channels.channel_invites,
       Arg.num (size_t (v.channels.channel_invites * sz.sizeof_dlink_node * 2))],
    debug source_p "z :Safelist %u(%zu)"
      [Arg.num v.safelist_count, Arg.num v.safelist_memory],
    debug source_p "z :Whowas users %u(%zu)"
      [Arg.num v.wwu, Arg.num (size_t (v.wwu * sz.sizeof_Client))],
    debug source_p "z :Whowas array %u(%zu)"
      [Arg.num sz.NICKNAMEHISTORYLENGTH, Arg.num v.wwm] ] ++
  motd_memory_count st source_p ++
  [ debug source_p "z :iphash %u(%zu)"
      [Arg.num v.number_ips_stored, Arg.num v.mem_ips_stored],
    debug source_p "z :Total: whowas %zu channel %zu conf %zu"
      [Arg.num v.totww, Arg.num v.total_channel_memory, Arg.num v.conf_memory],
    debug source_p "z :Local client Memory in use: %u(%zu)"
      [Arg.num v.clients.local_client_count, Arg.num v.local_client_memory_used],
    debug source_p "z :Remote client Memory in use: %u(%zu)"
      [Arg.num v.clients.remote_client_count, Arg.num v.remote_client_memory_used],
    debug source_p "z :TOTAL: %zu"
      [Arg.str st.me.name, Arg.num RPL_STATSDEBUG_value, Arg.str source_p.name,
       Arg.num v.total_memory] ]

/-! ## Name servers, address table reports, events, hubs and leaves -/

def stats_dns_servers (st : State) (source_p : Client) (_parc : Nat) (_parv : List String) :
    List Effect :=
  (List.range st.irc_nscount).map fun i => reply source_p Numeric.RPL_STATSALINE [Arg.nsaddr i]

def stats_connect (st : State) (source_p : Client) (_parc : Nat) (_parv : List String) :
    List Effect :=
  report_confitem_types st source_p maskitem_type.CONF_SERVER

/-- The loop `for (i = 0; i < ATABLE_SIZE; ++i) DLINK_FOREACH(node, atable[i].head)`
over the buckets of the address table. -/
def ATABLE_FOREACH (atable : List (List AddressRec)) (body : AddressRec → List Effect) :
    List Effect :=
  match atable with
  | [] => []
  | bucket :: rest => DLINK_FOREACH bucket body ++ ATABLE_FOREACH rest body

def stats_deny (st : State) (source_p : Client) (_parc : Nat) (_parv : List String) :
    List Effect :=
  ATABLE_FOREACH st.atable fun arec =>
    if arec.type != maskitem_type.CONF_DLINE then []
    else
      let conf := arec.conf
      if conf.until_ != 0 then []
      else [reply source_p Numeric.RPL_STATSDLINE
              [Arg.chr 'D', Arg.str conf.host, Arg.str conf.reason]]

def stats_tdeny (st : State) (source_p : Client) (_parc : Nat) (_parv : List String) :
    List Effect :=
  ATABLE_FOREACH st.atable fun arec =>
    if arec.type != maskitem_type.CONF_DLINE then []
    else
      let conf := arec.conf
      if conf.until_ = 0 then []
      else [reply source_p Numeric.RPL_STATSDLINE
              [Arg.chr 'd', Arg.str conf.host, Arg.str conf.reason]]

def stats_exempt (st : State) (source_p : Client) (_parc : Nat) (_parv : List String) :
    List Effect :=
  if st.ConfigGeneral.stats_e_disabled then
    [reply source_p Numeric.ERR_NOPRIVILEGES []]
  else
    ATABLE_FOREACH st.atable fun arec =>
      if arec.type != maskitem_type.CONF_EXEMPT then []
      else
        let conf := arec.conf
        [reply source_p Numeric.RPL_STATSDLINE [Arg.chr 'e', Arg.str conf.host, Arg.str ""]]

def stats_events (st : State) (source_p : Client) (_parc : Nat) (_parv : List String) :
    List Effect :=
  [ debug source_p "E :Operation                      Next Execution" [],
    debug source_p "E :---------------------------------------------" [] ] ++
  DLINK_FOREACH st.event_list fun ev =>
    [debug source_p "E :%-30s %-4d seconds"
      [Arg.str ev.name, Arg.int (int_diff ev.next st.CurrentTime)]]

def stats_hubleaf (st : State) (source_p : Client) (_parc : Nat) (_parv : List String) :
    List Effect :=
  (DLINK_FOREACH st.server_items fun conf =>
    DLINK_FOREACH conf.hub_list fun data =>
      [reply source_p Numeric.RPL_STATSHLINE
        [Arg.chr 'H', Arg.str data, Arg.str (conf.name.getD ""), Arg.num 0, Arg.str "*"]]) ++
  (DLINK_FOREACH st.server_items fun conf =>
    DLINK_FOREACH conf.leaf_list fun data =>
      [reply source_p Numeric.RPL_STATSLLINE
        [Arg.chr 'L', Arg.str data, Arg.str (conf.name.getD ""), Arg.num 0, Arg.str "*"]])

/-! ## Auth blocks and K-lines -/

/-- Modelled from the spec: the constant `USERLEN` of `ircd_defs.h`. -/
def USERLEN : Nat := 10

/-- The string `show_iline_prefix` leaves in `prefix_of_host`: the flag
characters, then `conf->user` cut by `strlcpy` to `USERLEN` characters. -/
def show_iline_prefix (source_p : Client) (conf : MaskItem) : String :=
  String.mk
    ((if conf.IsConfWebIRC then ['<'] else []) ++
     (if conf.IsNoTilde then ['-'] else []) ++
     (if conf.IsNeedIdentd then ['+'] else []) ++
     (if !conf.IsNeedPassword then ['&'] else []) ++
     (if conf.IsConfExemptResv then ['$'] else []) ++
     (if conf.IsConfDoSpoofIp then ['='] else []) ++
     (if HasUMode source_p UMODE_OPER then
        (if conf.IsConfExemptKline then ['^'] else []) ++
        (if conf.IsConfExemptXline then ['!'] else []) ++
        (if conf.IsConfExemptLimits then ['>'] else [])
      else []) ++
     (if conf.IsConfCanFlood then ['|'] else []) ++
     conf.user.data.take USERLEN)

def report_auth (st : State) (source_p : Client) (_parc : Nat) (_parv : List String) :
    List Effect :=
  ATABLE_FOREACH st.atable fun arec =>
    if arec.type != maskitem_type.CONF_CLIENT then []
    else
      let conf := arec.conf
      if !HasUMode source_p UMODE_OPER && conf.IsConfDoSpoofIp then []
      else
        [reply source_p Numeric.RPL_STATSILINE
          [Arg.chr 'I', Arg.str (if conf.name = none then "*" else conf.name.getD ""),
           Arg.str ( show_iline_prefix source_p conf), Arg.str conf.host, Arg.num conf.port,
           Arg.str conf.class_name]]

def stats_auth (st : State) (source_p : Client) (_parc : Nat) (_parv : List String) :
    List Effect :=
  if st.ConfigGeneral.stats_i_oper_only = 2 && !HasUMode source_p UMODE_OPER then
    [reply source_p Numeric.ERR_NOPRIVILEGES []]
  else if st.ConfigGeneral.stats_i_oper_only = 1 && !HasUMode source_p UMODE_OPER then
    let conf :=
      if MyConnect source_p then
        st.ext.find_conf_by_address source_p.host (some source_p.conn.ip)
          maskitem_type.CONF_CLIENT source_p.conn.aftype source_p.username
          source_p.conn.password 1
      else
        st.ext.find_conf_by_address source_p.host none maskitem_type.CONF_CLIENT 0
          source_p.username none 1
    match conf with
    | none => []
    | some conf =>
      [reply source_p Numeric.RPL_STATSILINE
        [Arg.chr 'I', Arg.str "*", Arg.str ( show_iline_prefix source_p conf),
         Arg.str conf.host, Arg.num conf.port, Arg.str conf.class_name]]
  else
    report_auth st source_p 0 []

def report_Klines (st : State) (source_p : Client) (tkline : Nat) : List Effect :=
  let c := if tkline != 0 then 'k' else 'K'
  ATABLE_FOREACH st.atable fun arec =>
    if arec.type != maskitem_type.CONF_KLINE then []
    else
      let conf := arec.conf
      if (tkline = 0 && conf.until_ != 0) || (tkline != 0 && conf.until_ = 0) then []
      else
        [reply source_p Numeric.RPL_STATSKLINE
          [Arg.chr c, Arg.str conf.host, Arg.str conf.user, Arg.str conf.reason]]

def stats_tklines (st : State) (source_p : Client) (_parc : Nat) (_parv : List String) :
    List Effect :=
  if st.ConfigGeneral.stats_k_oper_only = 2 && !HasUMode source_p UMODE_OPER then
    [reply source_p Numeric.ERR_NOPRIVILEGES []]
  else if st.ConfigGeneral.stats_k_oper_only = 1 && !HasUMode source_p UMODE_OPER then
    let conf :=
      if MyConnect source_p then
        st.ext.find_conf_by_address source_p.host (some source_p.conn.ip)
          maskitem_type.CONF_KLINE source_p.conn.aftype source_p.username none 1
      else
        st.ext.find_conf_by_address source_p.host none maskitem_type.CONF_KLINE 0
          source_p.username none 1
    match conf with
    | none => []
    | some conf =>
      if conf.until_ = 0 then []
      else
        [reply source_p Numeric.RPL_STATSKLINE
          [Arg.chr 'k', Arg.str conf.host, Arg.str conf.user, Arg.str conf.reason]]
  else
    report_Klines st source_p 1

def stats_klines (st : State) (source_p : Client) (_parc : Nat) (_parv : List String) :
    List Effect :=
  if st.ConfigGeneral.stats_k_oper_only = 2 && !HasUMode source_p UMODE_OPER then
    [reply source_p Numeric.ERR_NOPRIVILEGES []]
  else if st.ConfigGeneral.stats_k_oper_only = 1 && !HasUMode source_p UMODE_OPER then
    let conf :=
      if MyConnect source_p then
        st.ext.find_conf_by_address source_p.host (some source_p.conn.ip)
          maskitem_type.CONF_KLINE source_p.conn.aftype source_p.username none 0
      else
        st.ext.find_conf_by_address source_p.host none maskitem_type.CONF_KLINE 0
          source_p.username none 0
    match conf with
    | none => []
    | some conf =>
      if conf.until_ != 0 then []
      else
        [reply source_p Numeric.RPL_STATSKLINE
          [Arg.chr 'K', Arg.str conf.host, Arg.str conf.user, Arg.str conf.reason]]
  else
    report_Klines st source_p 0

def stats_messages (st : State) (source_p : Client) (_parc : Nat) (_parv : List String) :
    List Effect :=
  if !HasUMode source_p UMODE_OPER && st.ConfigGeneral.stats_m_oper_only then
    [reply source_p Numeric.ERR_NOPRIVILEGES []]
  else
    report_messages st source_p

def stats_oper (st : State) (source_p : Client) (_parc : Nat) (_parv : List String) :
    List Effect :=
  if !HasUMode source_p UMODE_OPER && st.ConfigGeneral.stats_o_oper_only then
    [reply source_p Numeric.ERR_NOPRIVILEGES []]
  else
    report_confitem_types st source_p maskitem_type.CONF_OPER

/-! ## Operators online, listeners, simple wrappers -/

/-- The loop of `stats_operedup` over `oper_list`, started with `opercount`:
the final `opercount` and the lines sent. -/
def stats_operedup_loop (source_p : Client) : List Client → Nat → Nat × List Effect
  | [], opercount => (opercount, [])
  | target_p :: rest, opercount =>
    if HasUMode target_p UMODE_HIDDEN && !HasUMode source_p UMODE_OPER then
      stats_operedup_loop source_p rest opercount
    else
      let buf : Arg :=
        if HasUMode source_p UMODE_OPER || !HasUMode target_p UMODE_HIDEIDLE then
          Arg.idle_time source_p.addr target_p.addr
        else Arg.str "n/a"
      let line : Effect :=
        if MyConnect source_p && HasUMode source_p UMODE_OPER then
          debug source_p "p :[%c][%s] %s (%s@%s) Idle: %s"
            [Arg.chr (if HasUMode target_p UMODE_ADMIN then 'A' else 'O'),
             Arg.oper_privs_as_string target_p.conn.operflags,
             Arg.str target_p.name, Arg.str target_p.username, Arg.str target_p.host, buf]
        else
          debug source_p "p :[%c] %s (%s@%s) Idle: %s"
            [Arg.chr (if HasUMode target_p UMODE_ADMIN then 'A' else 'O'),
             Arg.str target_p.name, Arg.str target_p.username, Arg.str target_p.host, buf]
      let r := stats_operedup_loop source_p rest (u32 (opercount + 1))
      (r.1, line :: r.2)

def stats_operedup (st : State) (source_p : Client) (_parc : Nat) (_parv : List String) :
    List Effect :=
  let r := stats_operedup_loop source_p st.oper_list 0
  r.2 ++ [debug source_p "p :%u OPER(s)" [Arg.num r.1]]

def show_ports (st : State) (source_p : Client) : List Effect :=
  DLINK_FOREACH st.listener_list fun listener =>
    if listener.flags &&& LISTENER_HIDDEN != 0 && !HasUMode source_p UMODE_ADMIN then []
    else
      let buf : List Char :=
        (if listener.flags &&& LISTENER_HIDDEN != 0 then ['H'] else []) ++
        (if listener.flags &&& LISTENER_SERVER != 0 then ['S'] else []) ++
        (if listener.flags &&& LISTENER_SSL != 0 then ['s'] else [])
      if HasUMode source_p UMODE_ADMIN &&
          (MyConnect source_p || !st.ConfigServerHide.hide_server_ips) then
        [reply source_p Numeric.RPL_STATSPLINE
          [Arg.chr 'P', Arg.num listener.port, Arg.str listener.name,
           Arg.num listener.ref_count, Arg.str (String.mk buf),
           Arg.str (if listener.active then "active" else "disabled")]]
      else
        [reply source_p Numeric.RPL_STATSPLINE
          [Arg.chr 'P', Arg.num listener.port, Arg.str st.me.name,
           Arg.num listener.ref_count, Arg.str (String.mk buf),
           Arg.str (if listener.active then "active" else "disabled")]]

def stats_ports (st : State) (source_p : Client) (_parc : Nat) (_parv : List String) :
    List Effect :=
  if !HasUMode source_p UMODE_OPER && st.ConfigGeneral.stats_P_oper_only then
    [reply source_p Numeric.ERR_NOPRIVILEGES []]
  else
    show_ports st source_p

def stats_resv (st : State) (source_p : Client) (_parc : Nat) (_parv : List String) :
    List Effect :=
  report_resv st source_p

def stats_service (st : State) (source_p : Client) (_parc : Nat) (_parv : List String) :
    List Effect :=
  report_service st source_p

/-! ## Traffic statistics -/

/-- The loop of `stats_tstats` over `local_server_list`. -/
def tstats_servers (now : Nat) : List Client → ServerStatistics → ServerStatistics
  | [], sp => sp
  | target_p :: rest, sp =>
    tstats_servers now rest
      { sp with
        is_sbs := uintmax_t (sp.is_sbs + target_p.conn.send_bytes)
        is_sbr := uintmax_t (sp.is_sbr + target_p.conn.recv_bytes)
        is_sti := uintmax_t (sp.is_sti + uintmax_diff now target_p.conn.firsttime) }

/-- The loop of `stats_tstats` over `local_client_list`. -/
def tstats_clients (now : Nat) : List Client → ServerStatistics → ServerStatistics
  | [], sp => sp
  | target_p :: rest, sp =>
    tstats_clients now rest
      { sp with
        is_cbs := uintmax_t (sp.is_cbs + target_p.conn.send_bytes)
        is_cbr := uintmax_t (sp.is_cbr + target_p.conn.recv_bytes)
        is_cti := uintmax_t (sp.is_cti + uintmax_diff now target_p.conn.firsttime) }

/-- The local copy `tmp` of `ServerStats` after the live figures were added. -/
def stats_tstats_tmp (st : State) : ServerStatistics :=
  let sp := st.ServerStats
  let sp := { sp with is_sv := u32 (sp.is_sv + dlink_list_length st.local_server_list) }
  let sp := tstats_servers st.CurrentTime st.local_server_list sp
  let sp := { sp with is_cl := u32 (sp.is_cl + dlink_list_length st.local_client_list) }
  let sp := tstats_clients st.CurrentTime st.local_client_list sp
  { sp with is_ni := u32 (sp.is_ni + dlink_list_length st.unknown_list) }

def stats_tstats (st : State) (source_p : Client) (_parc : Nat) (_parv : List String) :
    List Effect :=
  let sp := stats_tstats_tmp st
  [ debug source_p "t :accepts %u refused %u" [Arg.num sp.is_ac, Arg.num sp.is_ref],
    debug source_p "t :unknown commands %u prefixes %u" [Arg.num sp.is_unco, Arg.num sp.is_unpf],
    debug source_p "t :nick collisions %u unknown closes %u"
      [Arg.num sp.is_kill, Arg.num sp.is_ni],
    debug source_p "t :wrong direction %u empty %u" [Arg.num sp.is_wrdi, Arg.num sp.is_empt],
    debug source_p "t :numerics seen %u" [Arg.num sp.is_num],
    debug source_p "t :auth successes %u fails %u" [Arg.num sp.is_asuc, Arg.num sp.is_abad],
    debug source_p "t :Client Server" [],
    debug source_p "t :connected %u %u" [Arg.num sp.is_cl, Arg.num sp.is_sv],
    debug source_p "t :bytes sent %ju %ju" [Arg.num sp.is_cbs, Arg.num sp.is_sbs],
    debug source_p "t :bytes recv %ju %ju" [Arg.num sp.is_cbr, Arg.num sp.is_sbr],
    debug source_p "t :time connected %ju %ju" [Arg.num sp.is_cti, Arg.num sp.is_sti] ]

def stats_uptime (st : State) (source_p : Client) (_parc : Nat) (_parv : List String) :
    List Effect :=
  if !HasUMode source_p UMODE_OPER && st.ConfigGeneral.stats_u_oper_only then
    [reply source_p Numeric.ERR_NOPRIVILEGES []]
  else
    [reply source_p Numeric.RPL_STATSUPTIME
      [Arg.time_dissect (uintmax_diff st.CurrentTime st.me.conn.since)]] ++
    (if !st.ConfigServerHide.disable_remote_commands || HasUMode source_p UMODE_OPER then
      [reply source_p Numeric.RPL_STATSCONN
        [Arg.num st.Count.max_loc_con, Arg.num st.Count.max_loc_cli,
         Arg.num st.Count.totalrestartcount]]
     else [])

def stats_shared (st : State) (source_p : Client) (_parc : Nat) (_parv : List String) :
    List Effect :=
  report_shared st source_p ++ report_cluster st source_p

def stats_servers (st : State) (source_p : Client) (_parc : Nat) (_parv : List String) :
    List Effect :=
  (DLINK_FOREACH st.local_server_list fun target_p =>
    [debug source_p "v :%s (%s!%s@%s) Idle: %s"
      [Arg.str target_p.name,
       Arg.str (if deref target_p.serv_by != NUL then target_p.serv_by else "Remote."),
       Arg.str "*", Arg.str "*",
       Arg.time_dissect (uintmax_diff st.CurrentTime target_p.conn.lasttime)]]) ++
  [debug source_p "v :%u Server(s)" [Arg.num (dlink_list_length st.local_server_list)]]

def stats_gecos (st : State) (source_p : Client) (_parc : Nat) (_parv : List String) :
    List Effect :=
  report_gecos st source_p

def stats_class (st : State) (source_p : Client) (_parc : Nat) (_parv : List String) :
    List Effect :=
  DLINK_FOREACH st.class_list fun cls =>
    [reply source_p Numeric.RPL_STATSYLINE
      [Arg.chr 'Y', Arg.str cls.name, Arg.num cls.ping_freq, Arg.num cls.con_freq,
       Arg.num cls.max_total, Arg.num cls.max_sendq, Arg.num cls.max_recvq,
       Arg.num cls.ref_count, Arg.num cls.number_per_cidr, Arg.num cls.cidr_bitlen_ipv4,
       Arg.num cls.number_per_cidr, Arg.num cls.cidr_bitlen_ipv6,
       Arg.str (if cls.active then "active" else "disabled")]]

/-! ## Server links -/

/-- The time fields every `RPL_STATSLINKINFO` line carries after the counters:
connection age and time since the last state change. -/
def link_times (st : State) (target_p : Client) : List Arg :=
  [Arg.num (u32_diff st.CurrentTime target_p.conn.firsttime),
   Arg.num (if st.CurrentTime > target_p.conn.since then
     u32_diff st.CurrentTime target_p.conn.since else 0)]

/-- The loop of `stats_servlinks` over `local_server_list`, started with
`sendB` and `recvB`: their final values and the lines sent. -/
def stats_servlinks_loop (st : State) (source_p : Client) :
    List Client → Nat → Nat → Nat × Nat × List Effect
  | [], sendB, recvB => (sendB, recvB, [])
  | target_p :: rest, sendB, recvB =>
    if target_p.service && st.ConfigServerHide.hide_services &&
        !HasUMode source_p UMODE_OPER then
      stats_servlinks_loop st source_p rest sendB recvB
    else
      let line : Effect :=
        reply source_p Numeric.RPL_STATSLINKINFO
          ([Arg.get_client_name target_p.addr
              (if HasUMode source_p UMODE_ADMIN then ShowIP.SHOW_IP else ShowIP.MASK_IP),
            Arg.num target_p.conn.buf_sendq,
            Arg.num target_p.conn.send_messages,
            Arg.num (target_p.conn.send_bytes >>> 10),
            Arg.num target_p.conn.recv_messages,
            Arg.num (target_p.conn.recv_bytes >>> 10)] ++
           link_times st target_p ++
           [if HasUMode source_p UMODE_OPER then Arg.show_capabilities target_p.addr
            else Arg.str "TS"])
      let r := stats_servlinks_loop st source_p rest
        (uintmax_t (sendB + target_p.conn.send_bytes))
        (uintmax_t (recvB + target_p.conn.recv_bytes))
      (r.1, r.2.1, line :: r.2.2)

def stats_servlinks (st : State) (source_p : Client) (_parc : Nat) (_parv : List String) :
    List Effect :=
  if st.ConfigServerHide.flatten_links && !HasUMode source_p UMODE_OPER then
    [reply source_p Numeric.ERR_NOPRIVILEGES []]
  else
    let r := stats_servlinks_loop st source_p st.local_server_list 0 0
    let sendB := r.1 >>> 10
    let recvB := r.2.1 >>> 10
    let uptime := uintmax_diff st.CurrentTime st.me.conn.since
    r.2.2 ++
    [ debug source_p "? :%u total server(s)"
        [Arg.num (dlink_list_length st.local_server_list)],
      debug source_p "? :Sent total: %7.2f %s" [Arg.GMKv sendB, Arg.GMKs sendB],
      debug source_p "? :Recv total: %7.2f %s" [Arg.GMKv recvB, Arg.GMKs recvB],
      debug source_p "? :Server send: %7.2f %s (%4.1f K/s)"
        [Arg.GMKv (st.me.conn.send_bytes >>> 10), Arg.GMKs (st.me.conn.send_bytes >>> 10),
         Arg.rate (st.me.conn.send_bytes >>> 10) uptime],
      debug source_p "? :Server recv: %7.2f %s (%4.1f K/s)"
        [Arg.GMKv (st.me.conn.recv_bytes >>> 10), Arg.GMKs (st.me.conn.recv_bytes >>> 10),
         Arg.rate (st.me.conn.recv_bytes >>> 10) uptime] ]

/-! ## Connection list -/

/-- The result of `parse_stats_args` for `doall` and `wilds` both zero on
entry (as `stats_ltrace` calls it): the returned name, or `none` for NULL,
with the values left in `*doall` and `*wilds`. -/
def parse_stats_args (st : State) (source_p : Client) (parc : Nat) (parv : List String) :
    Option String × Int × Int :=
  if parc > 2 then
    let name := parv.getD 2 ""
    let doall : Int :=
      if st.ext.irccmp name (st.ext.ID_or_name_me source_p) = 0 then 2
      else if st.ext.match_ name (st.ext.ID_or_name_me source_p) = 0 then 1
      else 0
    (some name, doall, st.ext.has_wildcards name)
  else
    (none, 0, 0)

/-- Modelled from the spec: the macro `IsUpper` of `irc_string.h`, on the
letters registered for the connection list. -/
def IsUpper (c : Char) : Bool := c.isUpper

/-- The body of the loop of `stats_L_list` for one `target_p`. -/
def stats_L_entry (st : State) (source_p : Client) (name : String) (doall wilds : Int)
    (statchar : Char) (target_p : Client) : List Effect :=
  if HasUMode target_p UMODE_INVISIBLE && (doall != 0 || wilds != 0) &&
      !(MyConnect source_p && HasUMode source_p UMODE_OPER) &&
      !HasUMode target_p UMODE_OPER && (target_p.addr != source_p.addr) then []
  else if doall = 0 && wilds != 0 && st.ext.match_ name target_p.name != 0 then []
  else if !(doall != 0 || wilds != 0) && st.ext.irccmp name target_p.name != 0 then []
  else
    let counters : List Arg :=
      [Arg.num target_p.conn.buf_sendq,
       Arg.num target_p.conn.send_messages,
       Arg.num (target_p.conn.send_bytes >>> 10),
       Arg.num target_p.conn.recv_messages,
       Arg.num (target_p.conn.recv_bytes >>> 10)] ++
      link_times st target_p ++
      [if IsServer target_p then Arg.show_capabilities target_p.addr else Arg.str "-"]
    if MyConnect source_p && HasUMode source_p UMODE_OPER &&
        (HasUMode source_p UMODE_ADMIN ||
          (!IsServer target_p && !HasUMode target_p UMODE_ADMIN &&
            !IsHandshake target_p && !IsConnecting target_p)) then
      [reply source_p Numeric.RPL_STATSLINKINFO
        (Arg.get_client_name target_p.addr
          (if IsUpper statchar then ShowIP.SHOW_IP else ShowIP.HIDE_IP) :: counters)]
    else if IsServer target_p || IsHandshake target_p || IsConnecting target_p then
      [reply source_p Numeric.RPL_STATSLINKINFO
        (Arg.get_client_name target_p.addr ShowIP.MASK_IP :: counters)]
    else
      [reply source_p Numeric.RPL_STATSLINKINFO
        (Arg.get_client_name target_p.addr
          (if IsUpper statchar then ShowIP.SHOW_IP else ShowIP.HIDE_IP) :: counters)]

def stats_L_list (st : State) (source_p : Client) (name : String) (doall wilds : Int)
    (list : List Client) (statchar : Char) : List Effect :=
  DLINK_FOREACH list (stats_L_entry st source_p name doall wilds statchar)

def stats_L (st : State) (source_p : Client) (name : String) (doall wilds : Int)
    (statchar : Char) : List Effect :=
  stats_L_list st source_p name doall wilds st.unknown_list statchar ++
  stats_L_list st source_p name doall wilds st.local_client_list statchar ++
  stats_L_list st source_p name doall wilds st.local_server_list statchar

def stats_ltrace (st : State) (source_p : Client) (parc : Nat) (parv : List String) :
    List Effect :=
  match parse_stats_args st source_p parc parv with
  | (some name, doall, wilds) =>
    let statchar := deref (parv.getD 1 "")
    stats_L st source_p name doall wilds statchar
  | (none, _, _) => [reply source_p Numeric.ERR_NEEDMOREPARAMS [Arg.str "STATS"]]

/-! ## The category table and the dispatcher -/

/-- The functions `stats_tab` points to. -/
inductive Handler
  | stats_dns_servers
  | stats_connect
  | stats_tdeny
  | stats_deny
  | stats_exempt
  | stats_events
  | fd_dump
  | stats_hubleaf
  | stats_auth
  | stats_tklines
  | stats_klines
  | stats_ltrace
  | stats_messages
  | stats_oper
  | stats_operedup
  | stats_ports
  | stats_resv
  | stats_service
  | stats_tstats
  | motd_report
  | stats_uptime
  | stats_shared
  | stats_servers
  | stats_gecos
  | stats_class
  | stats_memory
  | stats_servlinks
  deriving DecidableEq, Repr

/-- The indirect call `handler(source_p, parc, parv)`. -/
def call_handler (h : Handler) (st : State) (source_p : Client) (parc : Nat)
    (parv : List String) : List Effect :=
  match h with
  | Handler.stats_dns_servers => stats_dns_servers st source_p parc parv
  | Handler.stats_connect => stats_connect st source_p parc parv
  | Handler.stats_tdeny => stats_tdeny st source_p parc parv
  | Handler.stats_deny => stats_deny st source_p parc parv
  | Handler.stats_exempt => stats_exempt st source_p parc parv
  | Handler.stats_events => stats_events st source_p parc parv
  | Handler.fd_dump => fd_dump st source_p parc parv
  | Handler.stats_hubleaf => stats_hubleaf st source_p parc parv
  | Handler.stats_auth => stats_auth st source_p parc parv
  | Handler.stats_tklines => stats_tklines st source_p parc parv
  | Handler.stats_klines => stats_klines st source_p parc parv
  | Handler.stats_ltrace => stats_ltrace st source_p parc parv
  | Handler.stats_messages => stats_messages st source_p parc parv
  | Handler.stats_oper => stats_oper st source_p parc parv
  | Handler.stats_operedup => stats_operedup st source_p parc parv
  | Handler.stats_ports => stats_ports st source_p parc parv
  | Handler.stats_resv => stats_resv st source_p parc parv
  | Handler.stats_service => stats_service st source_p parc parv
  | Handler.stats_tstats => stats_tstats st source_p parc parv
  | Handler.motd_report => motd_report st source_p parc parv
  | Handler.stats_uptime => stats_uptime st source_p parc parv
  | Handler.stats_shared => stats_shared st source_p parc parv
  | Handler.stats_servers => stats_servers st source_p parc parv
  | Handler.stats_gecos => stats_gecos st source_p parc parv
  | Handler.stats_class => stats_class st source_p parc parv
  | Handler.stats_memory => stats_memory st source_p parc parv
  | Handler.stats_servlinks => stats_servlinks st source_p parc parv

/-- A row of `stats_tab`; `handler` is `none` for the NULL of the last row. -/
structure StatsStruct where
  letter : Char
  handler : Option Handler
  required_modes : Nat
  deriving DecidableEq, Repr

def stats_tab : List StatsStruct :=
  [ ⟨'a', some Handler.stats_dns_servers, UMODE_ADMIN⟩,
    ⟨'A', some Handler.stats_dns_servers, UMODE_ADMIN⟩,
    ⟨'c', some Handler.stats_connect, UMODE_OPER⟩,
    ⟨'C', some Handler.stats_connect, UMODE_OPER⟩,
    ⟨'d', some Handler.stats_tdeny, UMODE_OPER⟩,
    ⟨'D', some Handler.stats_deny, UMODE_OPER⟩,
    ⟨'e', some Handler.stats_exempt, UMODE_OPER⟩,
    ⟨'E', some Handler.stats_events, UMODE_ADMIN⟩,
    ⟨'f', some Handler.fd_dump, UMODE_ADMIN⟩,
    ⟨'F', some Handler.fd_dump, UMODE_ADMIN⟩,
    ⟨'h', some Handler.stats_hubleaf, UMODE_OPER⟩,
    ⟨'H', some Handler.stats_hubleaf, UMODE_OPER⟩,
    ⟨'i', some Handler.stats_auth, 0⟩,
    ⟨'I', some Handler.stats_auth, 0⟩,
    ⟨'k', some Handler.stats_tklines, 0⟩,
    ⟨'K', some Handler.stats_klines, 0⟩,
    ⟨'l', some Handler.stats_ltrace, UMODE_OPER⟩,
    ⟨'L', some Handler.stats_ltrace, UMODE_OPER⟩,
    ⟨'m', some Handler.stats_messages, 0⟩,
    ⟨'M', some Handler.stats_messages, 0⟩,
    ⟨'o', some Handler.stats_oper, 0⟩,
    ⟨'O', some Handler.stats_oper, 0⟩,
    ⟨'p', some Handler.stats_operedup, 0⟩,
    ⟨'P', some Handler.stats_ports, 0⟩,
    ⟨'q', some Handler.stats_resv, UMODE_OPER⟩,
    ⟨'Q', some Handler.stats_resv, UMODE_OPER⟩,
    ⟨'s', some Handler.stats_service, UMODE_OPER⟩,
    ⟨'S', some Handler.stats_service, UMODE_OPER⟩,
    ⟨'t', some Handler.stats_tstats, UMODE_OPER⟩,
    ⟨'T', some Handler.motd_report, UMODE_OPER⟩,
    ⟨'u', some Handler.stats_uptime, 0⟩,
    ⟨'U', some Handler.stats_shared, UMODE_OPER⟩,
    ⟨'v', some Handler.stats_servers, UMODE_OPER⟩,
    ⟨'x', some Handler.stats_gecos, UMODE_OPER⟩,
    ⟨'X', some Handler.stats_gecos, UMODE_OPER⟩,
    ⟨'y', some Handler.stats_class, UMODE_OPER⟩,
    ⟨'Y', some Handler.stats_class, UMODE_OPER⟩,
    ⟨'z', some Handler.stats_memory, UMODE_OPER⟩,
    ⟨'?', some Handler.stats_servlinks, 0⟩,
    ⟨NUL, none, 0⟩ ]

/-- The array `stats_map[256]` as static storage starts out: all NULL. -/
def stats_map_zero : List (Option StatsStruct) := List.replicate 256 none

/-- The loop `for (tab = stats_tab; tab->letter; ++tab) stats_map[tab->letter] = tab`
of `stats_init`, from row `tab` on. -/
def stats_init_loop : List StatsStruct → List (Option StatsStruct) → List (Option StatsStruct)
  | [], map => map
  | tab :: rest, map =>
    if tab.letter = NUL then map
    else stats_init_loop rest (map.set tab.letter.toNat (some tab))

def stats_init (map : List (Option StatsStruct)) : List (Option StatsStruct) :=
  stats_init_loop stats_tab map

/-- The array `stats_map` while the command is registered: `module_init` runs
`stats_init` on the zeroed array before it registers the command, and nothing
else writes to the array. -/
def stats_map : List (Option StatsStruct) := stats_init stats_map_zero

/-- The element `stats_map[c]` for an `unsigned char` index. -/
def stats_map_at (c : Char) : Option StatsStruct := (stats_map.getD c.toNat none)

/-- The notice `do_stats` sends to the operators with user mode `UMODE_SPY`. -/
def spy_notice (source_p : Client) (statchar : Char) : Effect :=
  Effect.sendto_realops_flags UMODE_SPY "STATS %c requested by %s (%s@%s) [%s]"
    [Arg.chr statchar, Arg.str source_p.name, Arg.str source_p.username,
     Arg.str source_p.host, Arg.str source_p.servptr_name]

/-- The function `do_stats`. `parv[1]` exists because the command is registered
with `args_min = 2`. -/
def do_stats (st : State) (source_p : Client) (parc : Nat) (parv : List String) :
    List Effect :=
  let statchar := deref (parv.getD 1 "")
  if statchar = NUL then
    [reply source_p Numeric.RPL_ENDOFSTATS [Arg.chr '*']]
  else
    (match stats_map_at statchar with
     | some tab =>
       (if tab.required_modes = 0 || HasUMode source_p tab.required_modes then
          match tab.handler with
          | some handler => call_handler handler st source_p parc parv
          | none => []
        else
          [reply source_p Numeric.ERR_NOPRIVILEGES []]) ++
       [spy_notice source_p statchar]
     | none => []) ++
    [reply source_p Numeric.RPL_ENDOFSTATS [Arg.chr statchar]]

/-- The format `hunt_server` is called with by both command handlers. -/
def hunt_command : String := ":%s STATS %s :%s"

/-- The function `m_stats`: the state it leaves (only `last_used` can differ)
and what it sends. Its return value is always 0. -/
def m_stats (st : State) (source_p : Client) (parc : Nat) (parv : List String) :
    State × List Effect :=
  if uintmax_t (st.last_used + st.ConfigGeneral.pace_wait) > uintmax_t st.CurrentTime then
    (st, [reply source_p Numeric.RPL_LOAD2HI [Arg.str "STATS"]])
  else
    let st1 := { st with last_used := uintmax_t st.CurrentTime }
    if !st1.ConfigServerHide.disable_remote_commands then
      if st1.ext.hunt_server source_p hunt_command 2 parc parv != Hunted.HUNTED_ISME then
        (st1, [Effect.hunt_server source_p.addr hunt_command 2 parc parv])
      else
        (st1, Effect.hunt_server source_p.addr hunt_command 2 parc parv ::
          do_stats st1 source_p parc parv)
    else
      (st1, do_stats st1 source_p parc parv)

/-- The function `ms_stats`: the state it leaves (it writes nothing) and what
it sends. Its return value is always 0. -/
def ms_stats (st : State) (source_p : Client) (parc : Nat) (parv : List String) :
    State × List Effect :=
  if st.ext.hunt_server source_p hunt_command 2 parc parv != Hunted.HUNTED_ISME then
    (st, [Effect.hunt_server source_p.addr hunt_command 2 parc parv])
  else
    (st, Effect.hunt_server source_p.addr hunt_command 2 parc parv ::
      do_stats st source_p parc parv)

/-- The handler slots of `stats_msgtab`. -/
inductive HandlerSlot
  | UNREGISTERED_HANDLER
  | CLIENT_HANDLER
  | SERVER_HANDLER
  | ENCAP_HANDLER
  | OPER_HANDLER
  deriving DecidableEq, Repr

/-- The functions `stats_msgtab` registers. -/
inductive MessageHandler
  | m_unregistered
  | m_stats
  | ms_stats
  | m_ignore
  deriving DecidableEq, Repr

/-- The `handlers` array of `stats_msgtab`. -/
def stats_msgtab_handlers : HandlerSlot → MessageHandler
  | HandlerSlot.UNREGISTERED_HANDLER => MessageHandler.m_unregistered
  | HandlerSlot.CLIENT_HANDLER => MessageHandler.m_stats
  | HandlerSlot.SERVER_HANDLER => MessageHandler.ms_stats
  | HandlerSlot.ENCAP_HANDLER => MessageHandler.m_ignore
  | HandlerSlot.OPER_HANDLER => MessageHandler.ms_stats

/-! ## A concrete server, used to evaluate the definitions -/

namespace Sample

def conn0 : Connection :=
  { send_messages := 7, send_bytes := 4096, recv_messages := 5, recv_bytes := 2050,
    firsttime := 900, since := 950, lasttime := 990, buf_sendq := 0, confs := 1,
    watches := 2, operflags := 3, list_task := { show_mask := [], hide_mask := [] },
    ip := "192.0.2.7", aftype := 2, password := none }

/-- A directly connected user without privileges. -/
def alice : Client :=
  { addr := 1, name := "alice", id := "0AAAAAAAB", username := "al", host := "a.example",
    away := "", umodes := UMODE_INVISIBLE, status := Status.STAT_CLIENT, service := false,
    connection := some conn0, servptr_name := "irc.example", serv_by := "" }

/-- A directly connected operator (not an administrator). -/
def oscar : Client :=
  { addr := 2, name := "oscar", id := "0AAAAAAAC", username := "os", host := "o.example",
    away := "lunch", umodes := UMODE_OPER, status := Status.STAT_CLIENT, service := false,
    connection := some conn0, servptr_name := "irc.example", serv_by := "" }

/-- A directly connected administrator. -/
def adam : Client :=
  { addr := 3, name := "adam", id := "0AAAAAAAD", username := "ad", host := "d.example",
    away := "", umodes := UMODE_OPER ||| UMODE_ADMIN, status := Status.STAT_CLIENT,
    service := false, connection := some conn0, servptr_name := "irc.example",
    serv_by := "" }

/-- A user on another server. -/
def remy : Client :=
  { addr := 4, name := "remy", id := "1BBBBBBBB", username := "re", host := "r.example",
    away := "", umodes := 0, status := Status.STAT_CLIENT, service := false,
    connection := none, servptr_name := "hub.example", serv_by := "" }

/-- A linked server. -/
def hub : Client :=
  { addr := 5, name := "hub.example", id := "1BB", username := "", host := "hub.example",
    away := "", umodes := 0, status := Status.STAT_SERVER, service := false,
    connection := some conn0, servptr_name := "irc.example", serv_by := "oscar" }

def me : Client :=
  { addr := 0, name := "irc.example", id := "0AA", username := "", host := "irc.example",
    away := "", umodes := 0, status := Status.STAT_ME, service := false,
    connection := some { conn0 with since := 100 }, servptr_name := "irc.example",
    serv_by := "" }

def kline : MaskItem :=
  { name := none, user := "*", host := "bad.example", reason := "spam",
    class_name := "", port := 0, until_ := 0, hub_list := [], leaf_list := [],
    IsConfAllowAutoConn := false, IsConfSSL := false, IsConfWebIRC := false,
    IsNoTilde := false, IsNeedIdentd := false, IsNeedPassword := false,
    IsConfExemptResv := false, IsConfDoSpoofIp := false, IsConfExemptKline := false,
    IsConfExemptXline := false, IsConfExemptLimits := false, IsConfCanFlood := false }

def link : MaskItem :=
  { kline with name := some "hub.example", host := "198.51.100.1", class_name := "server",
               port := 6667, hub_list := ["*"], IsConfAllowAutoConn := true }

/-- The collaborators: a request is for this server iff it names no target or
names `irc.example`; names are compared literally; `*` is the only wildcard
mask and matches everything. -/
def ext : External :=
  { hunt_server := fun _ _ server _ parv =>
      if parv.getD server "" = "" || parv.getD server "" = "irc.example" then
        Hunted.HUNTED_ISME
      else if parv.getD server "" = "hub.example" then Hunted.HUNTED_PASS
      else Hunted.HUNTED_NOSUCH
    find_conf_by_address := fun _ _ _ _ _ _ _ => none
    irccmp := fun a b => if a = b then 0 else 1
    match_ := fun mask name => if mask = "*" || mask = name then 0 else 1
    has_wildcards := fun s => if s = "*" then 1 else 0
    ID_or_name_me := fun _ => "irc.example" }

def state : State :=
  { CurrentTime := 1000, last_used := 0,
    ConfigGeneral :=
      { pace_wait := 10, stats_e_disabled := false, stats_i_oper_only := 1,
        stats_k_oper_only := 1, stats_m_oper_only := true, stats_o_oper_only := true,
        stats_P_oper_only := false, stats_u_oper_only := false },
    ConfigServerHide :=
      { flatten_links := false, hide_services := false, hide_server_ips := true,
        disable_remote_commands := false },
    me := me,
    Count := { max_loc_con := 4, max_loc_cli := 3, totalrestartcount := 12 },
    ServerStats :=
      { is_cl := 1, is_sv := 0, is_ni := 0, is_cbs := 10, is_cbr := 20, is_sbs := 0,
        is_sbr := 0, is_cti := 5, is_sti := 0, is_ac := 9, is_ref := 1, is_unco := 0,
        is_wrdi := 0, is_unpf := 0, is_empt := 0, is_num := 0, is_kill := 0, is_asuc := 2,
        is_abad := 0 },
    sizes :=
      { sizeof_Client := 600, sizeof_Connection := 800, sizeof_Channel := 500,
        sizeof_Ban := 300, sizeof_Membership := 56, sizeof_dlink_node := 24,
        sizeof_ListTask := 64, sizeof_ResvItem := 96, sizeof_ClassItem := 120,
        NICKNAMEHISTORYLENGTH := 32768 },
    global_client_list := [alice, oscar, adam, remy, hub],
    local_client_list := [alice, oscar, adam],
    local_server_list := [hub],
    unknown_list := [],
    oper_list := [oscar, adam],
    listing_client_list := [],
    channel_list :=
      [{ topic := "hello", members := 3, invites := 0, banlist := 1, exceptlist := 0,
         invexlist := 0 }],
    atable := [[{ type := maskitem_type.CONF_KLINE, conf := kline }], []],
    operator_items := [],
    server_items := [link],
    shared_list := [{ type := SHARED_KLINE, server := "*", user := "*", host := "*" }],
    cluster_list := [],
    service_list := [],
    gecos_list := [],
    resv_chan_list := [],
    resv_nick_list := [],
    class_list := [],
    event_list := [{ name := "check_pings", next := 1005 }],
    listener_list := [{ flags := LISTENER_SSL, port := 6697, name := "192.0.2.1",
                        ref_count := 3, active := true }],
    irc_nscount := 1,
    whowas_count_memory := (2, 1000),
    watch_count_memory := (0, 0),
    listener_count_memory := (1, 200),
    ipcache_get_stats := (3, 300),
    motd_memory_count := [[Arg.str "z :Motds %u(%zu)", Arg.num 0, Arg.num 0]],
    report_messages := [[Arg.str "STATS", Arg.num 1, Arg.num 10, Arg.num 0]],
    fd_dump := [[Arg.str "F :fd %-5d desc '%s'", Arg.int 3, Arg.str "listener"]],
    motd_report := [],
    ext := ext }

/-- The same server with `disable_remote_commands` switched on. -/
def state_local : State :=
  { state with
    ConfigServerHide := { state.ConfigServerHide with disable_remote_commands := true } }

end Sample

/-! ## Observations on what a request sends -/

/-- The effects of a list that are numeric replies to `source_p`, in order. -/
def sent_to (source_p : Client) (effects : List Effect) : List Effect :=
  effects.filter fun e =>
    match e with
    | Effect.sendto_one_numeric dest _ _ _ => dest = source_p.addr
    | _ => false

/-- The notices to operators among the effects of a list, in order. -/
def audit_notices (effects : List Effect) : List Effect :=
  effects.filter fun e =>
    match e with
    | Effect.sendto_realops_flags _ _ _ => true
    | _ => false

/-- The calls of `hunt_server` among the effects of a list, in order. -/
def hunt_calls (effects : List Effect) : List Effect :=
  effects.filter fun e =>
    match e with
    | Effect.hunt_server _ _ _ _ _ => true
    | _ => false

/-- A completion marker: a reply with numeric `RPL_ENDOFSTATS`. -/
def is_end_of_stats : Effect → Bool
  | Effect.sendto_one_numeric _ Numeric.RPL_ENDOFSTATS _ _ => true
  | _ => false

/-- A rate-limit notice: a reply with numeric `RPL_LOAD2HI`. -/
def is_load2hi : Effect → Bool
  | Effect.sendto_one_numeric _ Numeric.RPL_LOAD2HI _ _ => true
  | _ => false

/-- A report line for `source_p`: a numeric reply to `source_p` that is neither
a completion marker nor a rate-limit notice. -/
def is_report (source_p : Client) : Effect → Bool
  | Effect.sendto_one_numeric dest numeric _ _ =>
    dest = source_p.addr && numeric != Numeric.RPL_ENDOFSTATS &&
      numeric != Numeric.RPL_LOAD2HI
  | _ => false

/-- A store past the end of an array. -/
def is_store_past_end : Effect → Bool
  | Effect.store_past_end _ _ => true
  | _ => false

/-- What a handler can do: send a report line to `source_p`, or store past the
end of an array. -/
def is_handler_effect (source_p : Client) (e : Effect) : Bool :=
  is_report source_p e || is_store_past_end e

/-- What a run is guaranteed to do: its effects when none of them is a store
past the end of an array, and nothing (`none`) when one is, since the
behaviour of the program is then undefined. -/
def guaranteed (effects : List Effect) : Option (List Effect) :=
  if effects.any is_store_past_end then none else some effects

/-- The request makes `do_stats` run the shared and cluster report over at
least one entry: the category code is `U`, the requester is an operator, and
one of the two lists is not empty. -/
def overruns_flag_buf (st : State) (source_p : Client) (parv : List String) : Prop :=
  deref (parv.getD 1 "") = 'U' ∧ HasUMode source_p UMODE_OPER = true ∧
    (st.shared_list ≠ [] ∨ st.cluster_list ≠ [])

instance (st : State) (source_p : Client) (parv : List String) :
    Decidable (overruns_flag_buf st source_p parv) := by
  unfold overruns_flag_buf; infer_instance

/-- The completion marker `do_stats` ends with for the category argument `arg`. -/
def end_of_stats (source_p : Client) (arg : String) : Effect :=
  reply source_p Numeric.RPL_ENDOFSTATS [Arg.chr (if deref arg = NUL then '*' else deref arg)]

/-- The test of the flood gate as `m_stats` evaluates it, in `uintmax_t`. -/
def rate_limited (st : State) : Prop :=
  uintmax_t (st.last_used + st.ConfigGeneral.pace_wait) > uintmax_t st.CurrentTime

instance (st : State) : Decidable (rate_limited st) := by unfold rate_limited; infer_instance

/-- The test of the flood gate on the mathematical values: the clock is
strictly below `last_used + pace_wait`. -/
def paced (st : State) : Prop := st.CurrentTime < st.last_used + st.ConfigGeneral.pace_wait

instance (st : State) : Decidable (paced st) := by unfold paced; infer_instance

/-- The time values of the state are values of `uintmax_t` and the sum the
flood gate computes does not wrap around. -/
def no_wrap (st : State) : Prop :=
  st.CurrentTime < 2 ^ 64 ∧ st.last_used + st.ConfigGeneral.pace_wait < 2 ^ 64

instance (st : State) : Decidable (no_wrap st) := by unfold no_wrap; infer_instance

/-- The rows of `stats_tab` before the sentinel row. -/
def stats_rows : List StatsStruct := stats_tab.dropLast

/-- The sentinel row that ends `stats_tab`. -/
def stats_sentinel : StatsStruct := ⟨NUL, none, 0⟩

/-- The category code `c` is registered: it is the letter of a row of
`stats_tab` before the sentinel. -/
def registered (c : Char) : Prop := ∃ tab ∈ stats_rows, tab.letter = c

instance (c : Char) : Decidable (registered c) := by unfold registered; infer_instance

/-! ## Observations on the connection list -/

/-- The invisibility rule in the words of the spec: the target is invisible,
the query is match-all or has a wildcard, and the requester is neither a
directly connected operator nor the target itself, nor is the target an
operator. -/
def hidden_by_invisibility (source_p : Client) (doall wilds : Int) (target_p : Client) :
    Prop :=
  HasUMode target_p UMODE_INVISIBLE = true ∧ (doall ≠ 0 ∨ wilds ≠ 0) ∧
    ¬ (MyConnect source_p = true ∧ HasUMode source_p UMODE_OPER = true) ∧
    target_p.addr ≠ source_p.addr ∧ HasUMode target_p UMODE_OPER = false

instance (source_p : Client) (doall wilds : Int) (target_p : Client) :
    Decidable (hidden_by_invisibility source_p doall wilds target_p) := by
  unfold hidden_by_invisibility; infer_instance

/-- The selection rule in the words of the spec: the query is match-all, or
the mask has wildcards and matches the name, or the mask has no wildcards and
equals the name up to case. -/
def selected_by_query (st : State) (name : String) (doall wilds : Int) (target_p : Client) :
    Prop :=
  doall ≠ 0 ∨ (wilds ≠ 0 ∧ st.ext.match_ name target_p.name = 0) ∨
    (wilds = 0 ∧ st.ext.irccmp name target_p.name = 0)

instance (st : State) (name : String) (doall wilds : Int) (target_p : Client) :
    Decidable (selected_by_query st name doall wilds target_p) := by
  unfold selected_by_query; infer_instance

/-- A connection is rendered, in the words of the spec: it is not hidden by
the invisibility rule and the query selects it. -/
def rendered (st : State) (source_p : Client) (name : String) (doall wilds : Int)
    (target_p : Client) : Prop :=
  ¬ hidden_by_invisibility source_p doall wilds target_p ∧
    selected_by_query st name doall wilds target_p

instance (st : State) (source_p : Client) (name : String) (doall wilds : Int)
    (target_p : Client) : Decidable (rendered st source_p name doall wilds target_p) := by
  unfold rendered; infer_instance

/-- The address display mode the loop body of `stats_L_list` passes to
`get_client_name` for a target that passed the skip rules: its three-way
branch. -/
def L_mode (source_p : Client) (statchar : Char) (target_p : Client) : ShowIP :=
  if MyConnect source_p && HasUMode source_p UMODE_OPER &&
      (HasUMode source_p UMODE_ADMIN ||
        (!IsServer target_p && !HasUMode target_p UMODE_ADMIN &&
          !IsHandshake target_p && !IsConnecting target_p)) then
    (if IsUpper statchar then ShowIP.SHOW_IP else ShowIP.HIDE_IP)
  else if IsServer target_p || IsHandshake target_p || IsConnecting target_p then
    ShowIP.MASK_IP
  else
    (if IsUpper statchar then ShowIP.SHOW_IP else ShowIP.HIDE_IP)

/-- The `RPL_STATSLINKINFO` line of `stats_L_list` for `target_p`, with the
address display mode `mode`. -/
def L_line (st : State) (source_p : Client) (target_p : Client) (mode : ShowIP) : Effect :=
  reply source_p Numeric.RPL_STATSLINKINFO
    (Arg.get_client_name target_p.addr mode ::
      ([Arg.num target_p.conn.buf_sendq,
        Arg.num target_p.conn.send_messages,
        Arg.num (target_p.conn.send_bytes >>> 10),
        Arg.num target_p.conn.recv_messages,
        Arg.num (target_p.conn.recv_bytes >>> 10)] ++
       link_times st target_p ++
       [if IsServer target_p then Arg.show_capabilities target_p.addr else Arg.str "-"]))

/-- The requester is a directly connected (co-located) operator. -/
def local_oper (source_p : Client) : Prop :=
  MyConnect source_p = true ∧ HasUMode source_p UMODE_OPER = true

instance (source_p : Client) : Decidable (local_oper source_p) := by
  unfold local_oper; infer_instance

/-- The target is a server, or a peer that is handshaking or connecting. -/
def is_peer (target_p : Client) : Prop :=
  IsServer target_p = true ∨ IsHandshake target_p = true ∨ IsConnecting target_p = true

instance (target_p : Client) : Decidable (is_peer target_p) := by
  unfold is_peer; infer_instance

namespace Sample

/-- An operator on another server. -/
def olga : Client :=
  { addr := 6, name := "olga", id := "1BBBBBBBC", username := "ol", host := "g.example",
    away := "", umodes := UMODE_OPER, status := Status.STAT_CLIENT, service := false,
    connection := none, servptr_name := "hub.example", serv_by := "" }

end Sample

/-! ## Observations on the memory report -/

/-- The memory figures `stats_memory` prints before its grand total, each
under the name of its category, in the order of the lines. -/
def memory_figures (st : State) : List (String × Nat) :=
  let sz := st.sizes
  let v := stats_memory_vars st
  [ ("WATCH headers", v.watch_list_memory),
    ("WATCH entries", size_t (v.clients.watch_list_entries * sz.sizeof_dlink_node * 2)),
    ("Clients", size_t (v.clients.users_counted * sz.sizeof_Client)),
    ("Attached confs", size_t (v.clients.local_client_conf_count * sz.sizeof_dlink_node)),
    ("Resv channels", size_t (dlink_list_length st.resv_chan_list * sz.sizeof_ResvItem)),
    ("Resv nicks", size_t (dlink_list_length st.resv_nick_list * sz.sizeof_ResvItem)),
    ("Listeners", v.listener_memory),
    ("Classes", size_t (v.class_count * sz.sizeof_ClassItem)),
    ("Channels", v.channel_memory),
    ("Bans", v.channels.channel_ban_memory),
    ("Exceptions", v.channels.channel_except_memory),
    ("Invex", v.channels.channel_invex_memory),
    ("Channel members", size_t (v.channels.channel_members * sz.sizeof_Membership)),
    ("Channel invites", size_t (v.channels.channel_invites * sz.sizeof_dlink_node * 2)),
    ("Safelist", v.safelist_memory),
    ("Whowas users", size_t (v.wwu * sz.sizeof_Client)),
    ("Whowas array", v.wwm),
    ("iphash", v.mem_ips_stored),
    ("Local clients", v.local_client_memory_used),
    ("Remote clients", v.remote_client_memory_used) ]

/-- The categories whose figure is part of the grand total. -/
def counted_categories : List String :=
  ["Classes", "Channels", "Bans", "Channel members", "Channel invites", "Whowas users",
   "Whowas array", "Local clients", "Remote clients"]

/-- The unsigned integers among the arguments of the replies of a list. -/
def printed_numbers (effects : List Effect) : List Nat :=
  effects.flatMap fun e =>
    match e with
    | Effect.sendto_one_numeric _ _ _ args =>
      args.filterMap fun a =>
        match a with
        | Arg.num n => some n
        | _ => none
    | _ => []

/-- One round of the loop of `stats_memory` over `global_client_list`: the
counters after `target_p`. -/
def count_client (target_p : Client) (c : ClientCounts) : ClientCounts :=
  let c1 : ClientCounts :=
    if MyConnect target_p then
      { c with
        local_client_count := u32 (c.local_client_count + 1)
        local_client_conf_count := u32 (c.local_client_conf_count + target_p.conn.confs)
        watch_list_entries := u32 (c.watch_list_entries + target_p.conn.watches) }
    else
      { c with remote_client_count := u32 (c.remote_client_count + 1) }
  if IsClient target_p then
    let c3 := { c1 with users_counted := u32 (c1.users_counted + 1) }
    if deref target_p.away != NUL then
      { c3 with aways_counted := u32 (c3.aways_counted + 1) }
    else c3
  else c1

/-- The sum `stats_memory` computes for its grand total, without the
reductions modulo `2^64`. -/
def raw_total_memory (st : State) : Nat :=
  let sz := st.sizes
  let v := stats_memory_vars st
  v.wwu * sz.sizeof_Client + v.wwm +
    (dlink_list_length st.channel_list * sz.sizeof_Channel + v.channels.channel_ban_memory +
      v.channels.channel_members * sz.sizeof_Membership +
      v.channels.channel_invites * sz.sizeof_dlink_node * 2) +
    v.conf_memory + v.class_count * sz.sizeof_ClassItem +
    v.clients.local_client_count * (sz.sizeof_Client + sz.sizeof_Connection) +
    v.clients.remote_client_count * sz.sizeof_Client

/-- The arithmetic of the grand total does not overflow: the two list lengths
fit an `unsigned int` and the sum fits a `size_t`. -/
def memory_no_overflow (st : State) : Prop :=
  st.global_client_list.length < 2 ^ 32 ∧ st.channel_list.length < 2 ^ 32 ∧
    raw_total_memory st < 2 ^ 64

instance (st : State) : Decidable (memory_no_overflow st) := by
  unfold memory_no_overflow; infer_instance

/-- The number of conversions in a `printf` format: each `%` starts one,
except in `%%`. -/
def count_conversions : List Char → Nat
  | [] => 0
  | '%' :: '%' :: rest => count_conversions rest
  | '%' :: rest => count_conversions rest + 1
  | _ :: rest => count_conversions rest

/-- The arguments the format of a reply sent with `SND_EXPLICIT` consumes: one
per conversion, starting with the first argument after the format. -/
def formatted_args : Effect → List Arg
  | Effect.sendto_one_numeric _ _ true (Arg.str fmt :: args) =>
    args.take (count_conversions fmt.data)
  | _ => []

/-- The arguments passed after the format of a reply sent with `SND_EXPLICIT`. -/
def args_after_format : Effect → List Arg
  | Effect.sendto_one_numeric _ _ true (Arg.str _ :: args) => args
  | _ => []

namespace Sample

/-- The server with ten local users and two channels. -/
def state_ten : State :=
  { state with
    global_client_list := (List.range 10).map fun i => { alice with addr := 100 + i },
    local_client_list := (List.range 10).map fun i => { alice with addr := 100 + i },
    local_server_list := [],
    oper_list := [],
    channel_list :=
      [{ topic := "", members := 6, invites := 0, banlist := 0, exceptlist := 2,
         invexlist := 0 },
       { topic := "news", members := 4, invites := 1, banlist := 3, exceptlist := 0,
         invexlist := 1 }] }

end Sample

/-! ## Observations on the configuration reports -/

/-- The `RPL_STATSCLINE` line of the server-link report for `conf`, with `host`
in the host field. -/
def server_link_line (source_p : Client) (conf : MaskItem) (host : String) : Effect :=
  reply source_p Numeric.RPL_STATSCLINE
    [Arg.chr 'C', Arg.str host, Arg.str (String.mk (server_flags_buf conf)),
     Arg.str (conf.name.getD ""), Arg.num conf.port, Arg.str conf.class_name]

/-- The entries of the address table, bucket after bucket. -/
def atable_entries (st : State) : List AddressRec := st.atable.flatten

/-- The `RPL_STATSKLINE` line for `conf` with the marker `c`. -/
def kline_line (source_p : Client) (c : Char) (conf : MaskItem) : Effect :=
  reply source_p Numeric.RPL_STATSKLINE
    [Arg.chr c, Arg.str conf.host, Arg.str conf.user, Arg.str conf.reason]

/-- The `RPL_STATSDLINE` line for `conf` with the marker `c`. -/
def dline_line (source_p : Client) (c : Char) (conf : MaskItem) : Effect :=
  reply source_p Numeric.RPL_STATSDLINE [Arg.chr c, Arg.str conf.host, Arg.str conf.reason]

/-- The `RPL_STATSILINE` line `stats_auth` sends for the one auth block that
matches the requester. -/
def own_auth_line (source_p : Client) (conf : MaskItem) : Effect :=
  reply source_p Numeric.RPL_STATSILINE
    [Arg.chr 'I', Arg.str "*", Arg.str ( show_iline_prefix source_p conf), Arg.str conf.host,
     Arg.num conf.port, Arg.str conf.class_name]

/-- The call of `find_conf_by_address` for the requester's own host and
username in `stats_auth`, `stats_tklines` and `stats_klines`: with the address
of a directly connected requester, without one otherwise. `password` is the
password argument of the first call. -/
def find_own_conf (st : State) (source_p : Client) (type : maskitem_type)
    (password : Option String) (do_match : Nat) : Option MaskItem :=
  if MyConnect source_p then
    st.ext.find_conf_by_address source_p.host (some source_p.conn.ip) type
      source_p.conn.aftype source_p.username password do_match
  else
    st.ext.find_conf_by_address source_p.host none type 0 source_p.username none do_match

/-- The `RPL_STATSILINE` line `report_auth` sends for the auth block `conf`. -/
def auth_line (source_p : Client) (conf : MaskItem) : Effect :=
  reply source_p Numeric.RPL_STATSILINE
    [Arg.chr 'I', Arg.str (if conf.name = none then "*" else conf.name.getD ""),
     Arg.str ( show_iline_prefix source_p conf), Arg.str conf.host, Arg.num conf.port,
     Arg.str conf.class_name]

/-- A no-privileges notice: a reply with numeric `ERR_NOPRIVILEGES`. -/
def is_no_privileges : Effect → Bool
  | Effect.sendto_one_numeric _ Numeric.ERR_NOPRIVILEGES _ _ => true
  | _ => false

namespace Sample

/-- A temporary K-line that matches `alice`. -/
def tkline : MaskItem :=
  { kline with user := "al", host := "a.example", reason := "flood", until_ := 2000 }

/-- A permanent and a temporary D-line. -/
def dline : MaskItem := { kline with host := "203.0.113.0/24", reason := "abuse" }

def tdline : MaskItem := { kline with host := "203.0.113.9", reason := "scan", until_ := 1500 }

/-- The auth block that matches `alice`. -/
def auth : MaskItem :=
  { kline with name := none, user := "*", host := "*.example", reason := "",
               class_name := "users", IsNeedPassword := true }

/-- The collaborators of `ext`, with a lookup that finds the temporary K-line
and the auth block for the host `a.example`. -/
def ext_own : External :=
  { ext with
    find_conf_by_address := fun host _ type _ _ _ _ =>
      if host = "a.example" then
        (if type = maskitem_type.CONF_KLINE then some tkline
         else if type = maskitem_type.CONF_CLIENT then some auth
         else none)
      else none }

/-- The server with K-lines, D-lines, an exemption and an auth block in its
address table. -/
def state_bans : State :=
  { state with
    atable :=
      [[{ type := maskitem_type.CONF_KLINE, conf := kline },
        { type := maskitem_type.CONF_DLINE, conf := tdline }],
       [],
       [{ type := maskitem_type.CONF_CLIENT, conf := auth },
        { type := maskitem_type.CONF_KLINE, conf := tkline },
        { type := maskitem_type.CONF_EXEMPT, conf := dline },
        { type := maskitem_type.CONF_DLINE, conf := dline }]],
    ext := ext_own }

/-- An auth block with a spoof. -/
def spoof_auth : MaskItem :=
  { auth with name := some "staff.example", host := "10.0.0.0/8", class_name := "staff",
              IsConfDoSpoofIp := true }

/-- The server with two auth blocks, one of them with a spoof, and the auth
report open to everybody. -/
def state_spoof : State :=
  { state with
    ConfigGeneral := { state.ConfigGeneral with stats_i_oper_only := 0 },
    atable :=
      [[{ type := maskitem_type.CONF_CLIENT, conf := auth },
        { type := maskitem_type.CONF_KLINE, conf := kline }],
       [{ type := maskitem_type.CONF_CLIENT, conf := spoof_auth }]] }

/-- The same server with address hiding switched off. -/
def state_open : State :=
  { state with
    ConfigServerHide := { state.ConfigServerHide with hide_server_ips := false } }

end Sample

/-! ## Observations on the operator roster and the listeners -/

/-- The content of `buf` in `stats_operedup` when the line for `target_p` is
sent: the idle field. -/
def operedup_idle (source_p target_p : Client) : Arg :=
  if HasUMode source_p UMODE_OPER || !HasUMode target_p UMODE_HIDEIDLE then
    Arg.idle_time source_p.addr target_p.addr
  else Arg.str "n/a"

/-- The line `stats_operedup` sends for an entry it does not skip, with `idle`
in the idle field. -/
def operedup_line (source_p target_p : Client) (idle : Arg) : Effect :=
  if MyConnect source_p && HasUMode source_p UMODE_OPER then
    debug source_p "p :[%c][%s] %s (%s@%s) Idle: %s"
      [Arg.chr (if HasUMode target_p UMODE_ADMIN then 'A' else 'O'),
       Arg.oper_privs_as_string target_p.conn.operflags,
       Arg.str target_p.name, Arg.str target_p.username, Arg.str target_p.host, idle]
  else
    debug source_p "p :[%c] %s (%s@%s) Idle: %s"
      [Arg.chr (if HasUMode target_p UMODE_ADMIN then 'A' else 'O'),
       Arg.str target_p.name, Arg.str target_p.username, Arg.str target_p.host, idle]

/-- The roster rule in the words of the spec: the entry is not flagged hidden,
or the requester is an operator. -/
def roster_shown (source_p target_p : Client) : Prop :=
  HasUMode target_p UMODE_HIDDEN = false ∨ HasUMode source_p UMODE_OPER = true

instance (source_p target_p : Client) : Decidable (roster_shown source_p target_p) := by
  unfold roster_shown; infer_instance

/-- The trailing line of `stats_operedup` with the number `n`. -/
def operedup_count_line (source_p : Client) (n : Nat) : Effect :=
  debug source_p "p :%u OPER(s)" [Arg.num n]

/-- The content of `buf` in `show_ports` when the line for `listener` is sent:
the flag string. -/
def port_flags (listener : Listener) : List Char :=
  (if listener.flags &&& LISTENER_HIDDEN != 0 then ['H'] else []) ++
  (if listener.flags &&& LISTENER_SERVER != 0 then ['S'] else []) ++
  (if listener.flags &&& LISTENER_SSL != 0 then ['s'] else [])

/-- The `RPL_STATSPLINE` line of `show_ports` for `listener`, with `address` in
the address field. -/
def port_line (source_p : Client) (listener : Listener) (address : String) : Effect :=
  reply source_p Numeric.RPL_STATSPLINE
    [Arg.chr 'P', Arg.num listener.port, Arg.str address,
     Arg.num listener.ref_count, Arg.str (String.mk (port_flags listener)),
     Arg.str (if listener.active then "active" else "disabled")]

/-- The listener rule in the words of the spec: the listener is not flagged
hidden, or the requester is an administrator. -/
def port_shown (source_p : Client) (listener : Listener) : Prop :=
  listener.flags &&& LISTENER_HIDDEN = 0 ∨ HasUMode source_p UMODE_ADMIN = true

instance (source_p : Client) (listener : Listener) : Decidable (port_shown source_p listener) := by
  unfold port_shown; infer_instance

/-- The address field `show_ports` sends for `listener`: its two-way branch. -/
def port_address (st : State) (source_p : Client) (listener : Listener) : String :=
  if HasUMode source_p UMODE_ADMIN &&
      (MyConnect source_p || !st.ConfigServerHide.hide_server_ips) then listener.name
  else st.me.name

namespace Sample

/-- A directly connected operator who is hidden from the roster and hides the
idle time. -/
def holly : Client :=
  { oscar with addr := 7, name := "holly", username := "ho", host := "h.example",
               umodes := UMODE_OPER ||| UMODE_HIDDEN ||| UMODE_HIDEIDLE }

/-- A directly connected operator who hides the idle time. -/
def ida : Client :=
  { oscar with addr := 8, name := "ida", username := "id", host := "i.example",
               umodes := UMODE_OPER ||| UMODE_HIDEIDLE }

/-- An administrator on another server. -/
def rada : Client :=
  { olga with addr := 9, name := "rada", username := "ra",
              umodes := UMODE_OPER ||| UMODE_ADMIN }

/-- The server with four operators online, one of them hidden. -/
def state_roster : State := { state with oper_list := [oscar, holly, ida, adam] }

/-- A hidden listener for servers, and a plain one. -/
def hidden_port : Listener :=
  { flags := LISTENER_HIDDEN ||| LISTENER_SERVER ||| LISTENER_SSL, port := 7000,
    name := "192.0.2.2", ref_count := 1, active := false }

def plain_port : Listener :=
  { flags := 0, port := 6667, name := "192.0.2.1", ref_count := 3, active := true }

/-- The server with both listeners and address hiding on. -/
def state_ports : State := { state with listener_list := [hidden_port, plain_port] }

/-- The server with both listeners and address hiding off. -/
def state_ports_open : State := { state_open with listener_list := [hidden_port, plain_port] }

end Sample

/-! ## Observations on the server links -/

/-- The hidden-services rule in the words of the spec: the peer is
service-flagged, `hide_services` is set and the requester is not an operator. -/
def servlink_skipped (st : State) (source_p target_p : Client) : Prop :=
  target_p.service = true ∧ st.ConfigServerHide.hide_services = true ∧
    HasUMode source_p UMODE_OPER = false

instance (st : State) (source_p target_p : Client) :
    Decidable (servlink_skipped st source_p target_p) := by
  unfold servlink_skipped; infer_instance

/-- The peers of `local_server_list` the hidden-services rule does not skip,
in list order. -/
def servlink_shown (st : State) (source_p : Client) : List Client :=
  st.local_server_list.filter fun t => decide (¬ servlink_skipped st source_p t)

/-- The `RPL_STATSLINKINFO` line of `stats_servlinks` for the peer `target_p`. -/
def servlink_line (st : State) (source_p target_p : Client) : Effect :=
  reply source_p Numeric.RPL_STATSLINKINFO
    ([Arg.get_client_name target_p.addr
        (if HasUMode source_p UMODE_ADMIN then ShowIP.SHOW_IP else ShowIP.MASK_IP),
      Arg.num target_p.conn.buf_sendq,
      Arg.num target_p.conn.send_messages,
      Arg.num (target_p.conn.send_bytes >>> 10),
      Arg.num target_p.conn.recv_messages,
      Arg.num (target_p.conn.recv_bytes >>> 10)] ++
     link_times st target_p ++
     [if HasUMode source_p UMODE_OPER then Arg.show_capabilities target_p.addr
      else Arg.str "TS"])

/-- The five summary lines of `stats_servlinks`, for `n` on the first line and
the values `sendB` and `recvB` of the two totals after the shift. -/
def servlinks_summary (st : State) (source_p : Client) (n sendB recvB : Nat) : List Effect :=
  [ debug source_p "? :%u total server(s)" [Arg.num n],
    debug source_p "? :Sent total: %7.2f %s" [Arg.GMKv sendB, Arg.GMKs sendB],
    debug source_p "? :Recv total: %7.2f %s" [Arg.GMKv recvB, Arg.GMKs recvB],
    debug source_p "? :Server send: %7.2f %s (%4.1f K/s)"
      [Arg.GMKv (st.me.conn.send_bytes >>> 10), Arg.GMKs (st.me.conn.send_bytes >>> 10),
       Arg.rate (st.me.conn.send_bytes >>> 10) (uintmax_diff st.CurrentTime st.me.conn.since)],
    debug source_p "? :Server recv: %7.2f %s (%4.1f K/s)"
      [Arg.GMKv (st.me.conn.recv_bytes >>> 10), Arg.GMKs (st.me.conn.recv_bytes >>> 10),
       Arg.rate (st.me.conn.recv_bytes >>> 10) (uintmax_diff st.CurrentTime st.me.conn.since)] ]

/-- The sum of `send.bytes` over a list of peers, without reduction. -/
def sum_send_bytes (list : List Client) : Nat := (list.map fun t => t.conn.send_bytes).sum

/-- The sum of `recv.bytes` over a list of peers, without reduction. -/
def sum_recv_bytes (list : List Client) : Nat := (list.map fun t => t.conn.recv_bytes).sum

/-- The request is denied by the flattened-links rule. -/
def servlinks_denied (st : State) (source_p : Client) : Prop :=
  st.ConfigServerHide.flatten_links = true ∧ HasUMode source_p UMODE_OPER = false

instance (st : State) (source_p : Client) : Decidable (servlinks_denied st source_p) := by
  unfold servlinks_denied; infer_instance

namespace Sample

/-- A linked services server. -/
def services : Client :=
  { hub with addr := 10, name := "services.example", host := "services.example",
             service := true,
             connection := some { conn0 with send_bytes := 9000, recv_bytes := 7000 } }

/-- A second linked server. -/
def leaf : Client :=
  { hub with addr := 11, name := "leaf.example", host := "leaf.example",
             connection := some { conn0 with send_bytes := 1500, recv_bytes := 1000 } }

/-- The server with three links, one to services, and `hide_services` on. -/
def state_links : State :=
  { state with
    ConfigServerHide := { state.ConfigServerHide with hide_services := true },
    local_server_list := [hub, services, leaf] }

/-- The server with `flatten_links` on. -/
def state_flat : State :=
  { state with
    ConfigServerHide := { state.ConfigServerHide with flatten_links := true } }

end Sample

/-! ## Observations on events, on the connection trace and on the operator blocks -/

/-- The line of `stats_events` for the event `ev`. -/
def event_line (st : State) (source_p : Client) (ev : event) : Effect :=
  debug source_p "E :%-30s %-4d seconds"
    [Arg.str ev.name, Arg.int (int_diff ev.next st.CurrentTime)]

/-- A need-more-parameters notice: a reply with numeric `ERR_NEEDMOREPARAMS`. -/
def is_need_more_params : Effect → Bool
  | Effect.sendto_one_numeric _ Numeric.ERR_NEEDMOREPARAMS _ _ => true
  | _ => false

/-- A connection line: a reply with numeric `RPL_STATSLINKINFO`. -/
def is_link_info : Effect → Bool
  | Effect.sendto_one_numeric _ Numeric.RPL_STATSLINKINFO _ _ => true
  | _ => false

/-- The `RPL_STATSOLINE` line of the operator-block report for `conf`, with
`privs` in the privilege-flags field. -/
def oper_block_line (source_p : Client) (conf : MaskItem) (privs : Arg) : Effect :=
  reply source_p Numeric.RPL_STATSOLINE
    [Arg.chr 'O', Arg.str conf.user, Arg.str conf.host, Arg.str (conf.name.getD ""), privs,
     Arg.str conf.class_name]

namespace Sample

/-- Two operator blocks. -/
def oper_block : MaskItem :=
  { kline with name := some "oscar", user := "os", host := "*.example", reason := "",
               class_name := "opers", port := 255 }

def admin_block : MaskItem :=
  { kline with name := some "adam", user := "ad", host := "d.example", reason := "",
               class_name := "opers", port := 4095 }

/-- The server with two operator blocks, and the operator-block report open to
everybody. -/
def state_opers : State :=
  { state with
    ConfigGeneral := { state.ConfigGeneral with stats_o_oper_only := false },
    operator_items := [oper_block, admin_block] }

/-- The server with three scheduled events, one of them overdue. -/
def state_events : State :=
  { state with
    event_list :=
      [{ name := "check_pings", next := 1005 },
       { name := "try_connections", next := 1000 },
       { name := "comm_checktimeouts", next := 998 }] }

end Sample

/-! ## The writes of the module

The code of the module assigns to automatic variables, with these exceptions:
`m_stats` assigns to its static `last_used`; `stats_tstats` assigns through the
pointer `sp` to a `struct ServerStatistics`; `show_iline_prefix`, which
`stats_auth` and `report_auth` call, fills its static array `prefix_of_host`;
`report_shared` and `report_cluster` store past the end of their automatic
array `buf`; and `stats_init` fills the static `stats_map` once, when the
module is loaded, before any request. The definitions below make the objects a
request can write explicit and thread them through `do_stats`. What functions
of other compilation units write is outside the model. -/

namespace Sample

end Sample

/-! ## Observations on the letter case of the category code -/

/-- The address display rule in the words of the spec: the mode is `MASK_IP`
iff the target is a server, handshaking or connecting peer and the requester
is not a directly connected operator with administrator status; in every
other case it is `SHOW_IP` for an upper-case category letter and `HIDE_IP`
otherwise. -/
def L_mode_rule (source_p : Client) (statchar : Char) (target_p : Client) : ShowIP :=
  if is_peer target_p ∧ ¬ (local_oper source_p ∧ HasUMode source_p UMODE_ADMIN = true) then
    ShowIP.MASK_IP
  else if IsUpper statchar = true then ShowIP.SHOW_IP
  else ShowIP.HIDE_IP

/-! ## Observations on the formula of the grand total -/

/-- The formula of the grand total in the words of the spec, without
reduction modulo `2^64`; the counts are the values the lines print. -/
def memory_formula (st : State) : Nat :=
  let sz := st.sizes
  let v := stats_memory_vars st
  v.wwu * sz.sizeof_Client + v.wwm +
    dlink_list_length st.channel_list * sz.sizeof_Channel +
    v.channels.channel_ban_memory +
    v.channels.channel_members * sz.sizeof_Membership +
    v.channels.channel_invites * 2 * sz.sizeof_dlink_node +
    v.class_count * sz.sizeof_ClassItem +
    v.clients.local_client_count * (sz.sizeof_Client + sz.sizeof_Connection) +
    v.clients.remote_client_count * sz.sizeof_Client

/-- The state with other content in everything the grand total does not
count: the exception and invite-exception lists of the channels, the watch
lists and attached confs of the connections, the watch, listener and address
cache statistics, the clients running a LIST query and the reservations. -/
def with_uncounted (st : State) (except invex : Channel → Nat) (watches confs : Client → Nat)
    (watch listener ipcache : Nat × Nat) (listing : List Client)
    (resv_chan resv_nick : List ResvItem) : State :=
  { st with
    channel_list := st.channel_list.map fun ch =>
      { ch with exceptlist := except ch, invexlist := invex ch },
    global_client_list := st.global_client_list.map fun t =>
      { t with connection := t.connection.map fun c =>
          { c with watches := watches t, confs := confs t } },
    watch_count_memory := watch,
    listener_count_memory := listener,
    ipcache_get_stats := ipcache,
    listing_client_list := listing,
    resv_chan_list := resv_chan,
    resv_nick_list := resv_nick }

/-! ## Observations on the kilobyte figures and on the count of the server links -/

/-- The arguments of a numeric reply. -/
def reply_args : Effect → List Arg
  | Effect.sendto_one_numeric _ _ _ args => args
  | _ => []

/-- The sum of the kilobyte fields `send.bytes >> 10` of the lines of a list
of peers. -/
def sum_send_kilobytes (list : List Client) : Nat :=
  (list.map fun t => t.conn.send_bytes >>> 10).sum

/-- The sum of the kilobyte fields `recv.bytes >> 10` of the lines of a list
of peers. -/
def sum_recv_kilobytes (list : List Client) : Nat :=
  (list.map fun t => t.conn.recv_bytes >>> 10).sum

/-- The peers of `local_server_list` the hidden-services rule skips. -/
def servlink_hidden (st : State) (source_p : Client) : List Client :=
  st.local_server_list.filter fun t => decide (servlink_skipped st source_p t)

/-! ## Every handler only sends report lines to the requester -/

theorem all_DLINK_FOREACH {α : Type} (p : Effect → Bool) (body : α → List Effect)
    (list : List α) (h : ∀ x, (body x).all p = true) :
    (DLINK_FOREACH list body).all p = true := by
  induction list with
  | nil => simp [DLINK_FOREACH]
  | cons x rest ih =>
    rw [DLINK_FOREACH, List.all_append, h x, ih]
    rfl

theorem all_ATABLE_FOREACH (p : Effect → Bool) (body : AddressRec → List Effect)
    (atable : List (List AddressRec)) (h : ∀ x, (body x).all p = true) :
    (ATABLE_FOREACH atable body).all p = true := by
  induction atable with
  | nil => simp [ATABLE_FOREACH]
  | cons b rest ih =>
    rw [ATABLE_FOREACH, List.all_append, all_DLINK_FOREACH p body b h, ih]
    rfl

theorem is_report_reply (source_p : Client) (numeric : Numeric) (args : List Arg)
    (h1 : numeric ≠ Numeric.RPL_ENDOFSTATS) (h2 : numeric ≠ Numeric.RPL_LOAD2HI) :
    is_report source_p (reply source_p numeric args) = true := by
  simp [is_report, reply, h1, h2]

theorem is_report_debug (source_p : Client) (fmt : String) (args : List Arg) :
    is_report source_p (debug source_p fmt args) = true := by
  simp [is_report, debug]

/-- A report line is something a handler can do. -/
theorem is_handler_effect_of_report (source_p : Client) (body : List Effect)
    (h : body.all (is_report source_p) = true) :
    body.all (is_handler_effect source_p) = true := by
  rw [List.all_eq_true] at h ⊢
  intro e he
  unfold is_handler_effect
  rw [h e he]
  rfl

/-- For every shared entry exactly one store falls outside `buf`: the store at
index 10 of the array of 10 elements. -/
theorem stores_past_end_shared (type : Nat) :
    stores_past_end (flag_stores 'c' shared_flag_table type)
      (flag_buf_capacity shared_flag_table) = [Effect.store_past_end 10 10] := rfl

/-- For every cluster entry exactly one store falls outside `buf`: the store
at index 10 of the array of 10 elements. -/
theorem stores_past_end_cluster (type : Nat) :
    stores_past_end (flag_stores 'C' cluster_flag_table type)
      (flag_buf_capacity cluster_flag_table) = [Effect.store_past_end 10 10] := rfl

theorem report_shared_all (st : State) (source_p : Client) :
    (report_shared st source_p).all (is_handler_effect source_p) = true := by
  unfold report_shared
  apply all_DLINK_FOREACH
  intro x
  rw [stores_past_end_shared]
  simp [is_handler_effect, is_store_past_end, is_report_reply]

theorem report_cluster_all (st : State) (source_p : Client) :
    (report_cluster st source_p).all (is_handler_effect source_p) = true := by
  unfold report_cluster
  apply all_DLINK_FOREACH
  intro x
  rw [stores_past_end_cluster]
  simp [is_handler_effect, is_store_past_end, is_report_reply]

theorem report_service_all (st : State) (source_p : Client) :
    (report_service st source_p).all (is_report source_p) = true := by
  unfold report_service
  apply all_DLINK_FOREACH
  intro x
  simp [is_report_reply]

theorem report_gecos_all (st : State) (source_p : Client) :
    (report_gecos st source_p).all (is_report source_p) = true := by
  unfold report_gecos
  apply all_DLINK_FOREACH
  intro x
  simp [is_report_reply]

theorem report_confitem_types_all (st : State) (source_p : Client) (type : maskitem_type) :
    (report_confitem_types st source_p type).all (is_report source_p) = true := by
  unfold report_confitem_types
  split
  · apply all_DLINK_FOREACH
    intro x
    split <;> simp [is_report_reply]
  · apply all_DLINK_FOREACH
    intro x
    split <;> simp [is_report_reply]
  · rfl

theorem report_resv_all (st : State) (source_p : Client) :
    (report_resv st source_p).all (is_report source_p) = true := by
  unfold report_resv
  rw [List.all_append, all_DLINK_FOREACH, all_DLINK_FOREACH]
  · rfl
  · intro x
    simp [is_report_reply]
  · intro x
    simp [is_report_reply]

theorem motd_memory_count_all (st : State) (source_p : Client) :
    (motd_memory_count st source_p).all (is_report source_p) = true := by
  simp [motd_memory_count, is_report]

theorem stats_memory_all (st : State) (source_p : Client) (parc : Nat) (parv : List String) :
    (stats_memory st source_p parc parv).all (is_report source_p) = true := by
  simp [stats_memory, is_report_debug, motd_memory_count_all]

theorem report_messages_all (st : State) (source_p : Client) :
    (report_messages st source_p).all (is_report source_p) = true := by
  simp [report_messages, is_report, reply]

theorem fd_dump_all (st : State) (source_p : Client) (parc : Nat) (parv : List String) :
    (fd_dump st source_p parc parv).all (is_report source_p) = true := by
  simp [fd_dump, is_report]

theorem motd_report_all (st : State) (source_p : Client) (parc : Nat) (parv : List String) :
    (motd_report st source_p parc parv).all (is_report source_p) = true := by
  simp [motd_report, is_report, reply]

theorem stats_dns_servers_all (st : State) (source_p : Client) (parc : Nat)
    (parv : List String) :
    (stats_dns_servers st source_p parc parv).all (is_report source_p) = true := by
  simp [stats_dns_servers, is_report, reply]

theorem stats_deny_all (st : State) (source_p : Client) (parc : Nat) (parv : List String) :
    (stats_deny st source_p parc parv).all (is_report source_p) = true := by
  unfold stats_deny
  apply all_ATABLE_FOREACH
  intro x
  dsimp only
  split_ifs <;> simp [is_report_reply]

theorem stats_tdeny_all (st : State) (source_p : Client) (parc : Nat) (parv : List String) :
    (stats_tdeny st source_p parc parv).all (is_report source_p) = true := by
  unfold stats_tdeny
  apply all_ATABLE_FOREACH
  intro x
  dsimp only
  split_ifs <;> simp [is_report_reply]

theorem stats_exempt_all (st : State) (source_p : Client) (parc : Nat) (parv : List String) :
    (stats_exempt st source_p parc parv).all (is_report source_p) = true := by
  unfold stats_exempt
  split
  · simp [is_report_reply]
  · apply all_ATABLE_FOREACH
    intro x
    split <;> simp [is_report_reply]

theorem stats_events_all (st : State) (source_p : Client) (parc : Nat) (parv : List String) :
    (stats_events st source_p parc parv).all (is_report source_p) = true := by
  unfold stats_events
  rw [List.all_append, all_DLINK_FOREACH]
  · simp [is_report_debug]
  · intro x
    simp [is_report_debug]

theorem stats_hubleaf_all (st : State) (source_p : Client) (parc : Nat) (parv : List String) :
    (stats_hubleaf st source_p parc parv).all (is_report source_p) = true := by
  unfold stats_hubleaf
  rw [List.all_append, all_DLINK_FOREACH, all_DLINK_FOREACH]
  · rfl
  · intro conf
    apply all_DLINK_FOREACH
    intro x
    simp [is_report_reply]
  · intro conf
    apply all_DLINK_FOREACH
    intro x
    simp [is_report_reply]

theorem report_auth_all (st : State) (source_p : Client) (parc : Nat) (parv : List String) :
    (report_auth st source_p parc parv).all (is_report source_p) = true := by
  unfold report_auth
  apply all_ATABLE_FOREACH
  intro x
  dsimp only
  split_ifs <;> simp [is_report_reply]

theorem stats_auth_all (st : State) (source_p : Client) (parc : Nat) (parv : List String) :
    (stats_auth st source_p parc parv).all (is_report source_p) = true := by
  unfold stats_auth
  split
  · simp [is_report_reply]
  · split
    · dsimp only
      split <;> simp [is_report_reply]
    · exact report_auth_all st source_p 0 []

theorem report_Klines_all (st : State) (source_p : Client) (tkline : Nat) :
    (report_Klines st source_p tkline).all (is_report source_p) = true := by
  unfold report_Klines
  apply all_ATABLE_FOREACH
  intro x
  dsimp only
  split_ifs <;> simp [is_report_reply]

theorem stats_tklines_all (st : State) (source_p : Client) (parc : Nat) (parv : List String) :
    (stats_tklines st source_p parc parv).all (is_report source_p) = true := by
  unfold stats_tklines
  split
  · simp [is_report_reply]
  · split
    · dsimp only
      split
      · rfl
      · split <;> simp [is_report_reply]
    · exact report_Klines_all st source_p 1

theorem stats_klines_all (st : State) (source_p : Client) (parc : Nat) (parv : List String) :
    (stats_klines st source_p parc parv).all (is_report source_p) = true := by
  unfold stats_klines
  split
  · simp [is_report_reply]
  · split
    · dsimp only
      split
      · rfl
      · split <;> simp [is_report_reply]
    · exact report_Klines_all st source_p 0

theorem stats_messages_all (st : State) (source_p : Client) (parc : Nat) (parv : List String) :
    (stats_messages st source_p parc parv).all (is_report source_p) = true := by
  unfold stats_messages
  split_ifs
  · simp [is_report_reply]
  · exact report_messages_all st source_p

theorem stats_oper_all (st : State) (source_p : Client) (parc : Nat) (parv : List String) :
    (stats_oper st source_p parc parv).all (is_report source_p) = true := by
  unfold stats_oper
  split_ifs
  · simp [is_report_reply]
  · exact report_confitem_types_all st source_p _

theorem stats_operedup_loop_all (source_p : Client) (list : List Client) (opercount : Nat) :
    (stats_operedup_loop source_p list opercount).2.all (is_report source_p) = true := by
  induction list generalizing opercount with
  | nil => rfl
  | cons target_p rest ih =>
    unfold stats_operedup_loop
    split
    · exact ih opercount
    · dsimp only
      rw [List.all_cons, ih]
      split <;> simp [is_report_debug]

theorem stats_operedup_all (st : State) (source_p : Client) (parc : Nat) (parv : List String) :
    (stats_operedup st source_p parc parv).all (is_report source_p) = true := by
  simp [stats_operedup, stats_operedup_loop_all, is_report_debug]

theorem show_ports_all (st : State) (source_p : Client) :
    (show_ports st source_p).all (is_report source_p) = true := by
  unfold show_ports
  apply all_DLINK_FOREACH
  intro x
  dsimp only
  split_ifs <;> simp [is_report_reply]

theorem stats_ports_all (st : State) (source_p : Client) (parc : Nat) (parv : List String) :
    (stats_ports st source_p parc parv).all (is_report source_p) = true := by
  unfold stats_ports
  split_ifs
  · simp [is_report_reply]
  · exact show_ports_all st source_p

theorem stats_tstats_all (st : State) (source_p : Client) (parc : Nat) (parv : List String) :
    (stats_tstats st source_p parc parv).all (is_report source_p) = true := by
  simp [stats_tstats, is_report_debug]

theorem stats_uptime_all (st : State) (source_p : Client) (parc : Nat) (parv : List String) :
    (stats_uptime st source_p parc parv).all (is_report source_p) = true := by
  unfold stats_uptime
  split_ifs <;> simp [is_report_reply]

theorem stats_shared_all (st : State) (source_p : Client) (parc : Nat) (parv : List String) :
    (stats_shared st source_p parc parv).all (is_handler_effect source_p) = true := by
  unfold stats_shared
  rw [List.all_append, report_shared_all, report_cluster_all]
  rfl

theorem stats_servers_all (st : State) (source_p : Client) (parc : Nat) (parv : List String) :
    (stats_servers st source_p parc parv).all (is_report source_p) = true := by
  unfold stats_servers
  rw [List.all_append, all_DLINK_FOREACH]
  · simp [is_report_debug]
  · intro x
    simp [is_report_debug]

theorem stats_class_all (st : State) (source_p : Client) (parc : Nat) (parv : List String) :
    (stats_class st source_p parc parv).all (is_report source_p) = true := by
  unfold stats_class
  apply all_DLINK_FOREACH
  intro x
  simp [is_report_reply]

theorem stats_servlinks_loop_all (st : State) (source_p : Client) (list : List Client)
    (sendB recvB : Nat) :
    (stats_servlinks_loop st source_p list sendB recvB).2.2.all (is_report source_p) = true := by
  induction list generalizing sendB recvB with
  | nil => rfl
  | cons target_p rest ih =>
    unfold stats_servlinks_loop
    split
    · exact ih sendB recvB
    · dsimp only
      rw [List.all_cons, ih]
      simp [is_report_reply]

theorem stats_servlinks_all (st : State) (source_p : Client) (parc : Nat)
    (parv : List String) :
    (stats_servlinks st source_p parc parv).all (is_report source_p) = true := by
  unfold stats_servlinks
  split_ifs
  · simp [is_report_reply]
  · simp [stats_servlinks_loop_all, is_report_debug]

theorem stats_L_entry_all (st : State) (source_p : Client) (name : String) (doall wilds : Int)
    (statchar : Char) (target_p : Client) :
    (stats_L_entry st source_p name doall wilds statchar target_p).all (is_report source_p) =
      true := by
  unfold stats_L_entry
  dsimp only
  split_ifs <;> simp [is_report_reply]

theorem stats_L_all (st : State) (source_p : Client) (name : String) (doall wilds : Int)
    (statchar : Char) :
    (stats_L st source_p name doall wilds statchar).all (is_report source_p) = true := by
  unfold stats_L stats_L_list
  rw [List.all_append, List.all_append, all_DLINK_FOREACH, all_DLINK_FOREACH,
    all_DLINK_FOREACH]
  · rfl
  all_goals exact stats_L_entry_all st source_p name doall wilds statchar

theorem stats_ltrace_all (st : State) (source_p : Client) (parc : Nat) (parv : List String) :
    (stats_ltrace st source_p parc parv).all (is_report source_p) = true := by
  unfold stats_ltrace
  split
  · exact stats_L_all st source_p _ _ _ _
  · simp [is_report_reply]

/-- Whatever handler `do_stats` calls, everything it does is to send report
lines to the requester, or to store past the end of an array: no completion
marker, no rate-limit notice, no notice to operators, no routing. -/
theorem call_handler_all (h : Handler) (st : State) (source_p : Client) (parc : Nat)
    (parv : List String) :
    (call_handler h st source_p parc parv).all (is_handler_effect source_p) = true := by
  cases h <;> unfold call_handler <;> dsimp only
  case stats_shared => exact stats_shared_all st source_p parc parv
  all_goals apply is_handler_effect_of_report
  · exact stats_dns_servers_all st source_p parc parv
  · exact report_confitem_types_all st source_p _
  · exact stats_tdeny_all st source_p parc parv
  · exact stats_deny_all st source_p parc parv
  · exact stats_exempt_all st source_p parc parv
  · exact stats_events_all st source_p parc parv
  · exact fd_dump_all st source_p parc parv
  · exact stats_hubleaf_all st source_p parc parv
  · exact stats_auth_all st source_p parc parv
  · exact stats_tklines_all st source_p parc parv
  · exact stats_klines_all st source_p parc parv
  · exact stats_ltrace_all st source_p parc parv
  · exact stats_messages_all st source_p parc parv
  · exact stats_oper_all st source_p parc parv
  · exact stats_operedup_all st source_p parc parv
  · exact stats_ports_all st source_p parc parv
  · exact report_resv_all st source_p
  · exact report_service_all st source_p
  · exact stats_tstats_all st source_p parc parv
  · exact motd_report_all st source_p parc parv
  · exact stats_uptime_all st source_p parc parv
  · exact stats_servers_all st source_p parc parv
  · exact report_gecos_all st source_p
  · exact stats_class_all st source_p parc parv
  · exact stats_memory_all st source_p parc parv
  · exact stats_servlinks_all st source_p parc parv

/-- The handlers other than `stats_shared` only send report lines to the
requester. -/
theorem call_handler_reports (h : Handler) (hne : h ≠ Handler.stats_shared) (st : State)
    (source_p : Client) (parc : Nat) (parv : List String) :
    (call_handler h st source_p parc parv).all (is_report source_p) = true := by
  cases h <;> unfold call_handler <;> dsimp only
  case stats_shared => exact absurd rfl hne
  · exact stats_dns_servers_all st source_p parc parv
  · exact report_confitem_types_all st source_p _
  · exact stats_tdeny_all st source_p parc parv
  · exact stats_deny_all st source_p parc parv
  · exact stats_exempt_all st source_p parc parv
  · exact stats_events_all st source_p parc parv
  · exact fd_dump_all st source_p parc parv
  · exact stats_hubleaf_all st source_p parc parv
  · exact stats_auth_all st source_p parc parv
  · exact stats_tklines_all st source_p parc parv
  · exact stats_klines_all st source_p parc parv
  · exact stats_ltrace_all st source_p parc parv
  · exact stats_messages_all st source_p parc parv
  · exact stats_oper_all st source_p parc parv
  · exact stats_operedup_all st source_p parc parv
  · exact stats_ports_all st source_p parc parv
  · exact report_resv_all st source_p
  · exact report_service_all st source_p
  · exact stats_tstats_all st source_p parc parv
  · exact motd_report_all st source_p parc parv
  · exact stats_uptime_all st source_p parc parv
  · exact stats_servers_all st source_p parc parv
  · exact report_gecos_all st source_p
  · exact stats_class_all st source_p parc parv
  · exact stats_memory_all st source_p parc parv
  · exact stats_servlinks_all st source_p parc parv

/-! ## The lookup table -/

theorem char_toNat_inj {a b : Char} (h : a.toNat = b.toNat) : a = b := by
  have ha := Char.ofNat_toNat a
  have hb := Char.ofNat_toNat b
  rw [← ha, ← hb, h]

set_option maxRecDepth 100000 in
theorem stats_map_length : stats_map.length = 256 := by decide

set_option maxRecDepth 100000 in
theorem stats_map_rows : ∀ tab ∈ stats_rows,
    tab.letter ≠ NUL ∧ tab.letter.toNat < 256 ∧ stats_map_at tab.letter = some tab := by
  decide

set_option maxRecDepth 100000 in
theorem stats_map_other : ∀ i < 256,
    (∀ tab ∈ stats_rows, tab.letter.toNat ≠ i) → stats_map.getD i none = none := by
  decide

theorem stats_map_at_registered (tab : StatsStruct) (h : tab ∈ stats_rows) :
    stats_map_at tab.letter = some tab :=
  (stats_map_rows tab h).2.2

theorem stats_map_at_unregistered (c : Char) (h : ¬ registered c) : stats_map_at c = none := by
  unfold stats_map_at
  by_cases hc : c.toNat < 256
  · apply stats_map_other c.toNat hc
    intro tab htab heq
    exact h ⟨tab, htab, char_toNat_inj heq⟩
  · apply List.getD_eq_default
    rw [stats_map_length]
    omega

theorem not_registered_NUL : ¬ registered NUL := by decide

/-- Of what a handler does, the lines sent to the requester are report
lines. -/
theorem sent_to_reports (source_p : Client) (body : List Effect)
    (h : body.all (is_handler_effect source_p) = true) :
    (sent_to source_p body).all (is_report source_p) = true := by
  rw [List.all_eq_true]
  intro e he
  unfold sent_to at he
  rw [List.mem_filter] at he
  have := List.all_eq_true.mp h e he.1
  cases e <;> simp_all [is_handler_effect, is_report, is_store_past_end]

theorem no_end_of_stats_reports (source_p : Client) (body : List Effect)
    (h : body.all (is_handler_effect source_p) = true) :
    body.filter is_end_of_stats = [] := by
  rw [List.filter_eq_nil_iff]
  intro e he
  have := List.all_eq_true.mp h e he
  cases e with
  | sendto_one_numeric dest numeric explicit args =>
    cases numeric <;> simp_all [is_handler_effect, is_report, is_end_of_stats, is_store_past_end]
  | sendto_realops_flags _ _ _ => simp [is_end_of_stats]
  | hunt_server _ _ _ _ _ => simp [is_end_of_stats]
  | store_past_end _ _ => simp [is_end_of_stats]

theorem no_load2hi_reports (source_p : Client) (body : List Effect)
    (h : body.all (is_handler_effect source_p) = true) : body.filter is_load2hi = [] := by
  rw [List.filter_eq_nil_iff]
  intro e he
  have := List.all_eq_true.mp h e he
  cases e with
  | sendto_one_numeric dest numeric explicit args =>
    cases numeric <;> simp_all [is_handler_effect, is_report, is_load2hi, is_store_past_end]
  | sendto_realops_flags _ _ _ => simp [is_load2hi]
  | hunt_server _ _ _ _ _ => simp [is_load2hi]
  | store_past_end _ _ => simp [is_load2hi]

theorem no_audit_reports (source_p : Client) (body : List Effect)
    (h : body.all (is_handler_effect source_p) = true) : audit_notices body = [] := by
  unfold audit_notices
  rw [List.filter_eq_nil_iff]
  intro e he
  have := List.all_eq_true.mp h e he
  cases e <;> simp_all [is_handler_effect, is_report, is_store_past_end]

theorem no_hunt_reports (source_p : Client) (body : List Effect)
    (h : body.all (is_handler_effect source_p) = true) : hunt_calls body = [] := by
  unfold hunt_calls
  rw [List.filter_eq_nil_iff]
  intro e he
  have := List.all_eq_true.mp h e he
  cases e <;> simp_all [is_handler_effect, is_report, is_store_past_end]

theorem do_stats_empty (st : State) (source_p : Client) (parc : Nat) (parv : List String)
    (h : deref (parv.getD 1 "") = NUL) :
    do_stats st source_p parc parv = [end_of_stats source_p (parv.getD 1 "")] := by
  unfold do_stats end_of_stats
  dsimp only
  rw [if_pos h, if_pos h]

theorem do_stats_unregistered (st : State) (source_p : Client) (parc : Nat)
    (parv : List String) (h0 : deref (parv.getD 1 "") ≠ NUL)
    (h : ¬ registered (deref (parv.getD 1 ""))) :
    do_stats st source_p parc parv = [end_of_stats source_p (parv.getD 1 "")] := by
  unfold do_stats end_of_stats
  dsimp only
  rw [if_neg h0, if_neg h0, stats_map_at_unregistered _ h]
  rfl

/-- What `do_stats` does for a registered code: the handler's report or the
no-privileges notice, then the notice to the operators, then the marker. -/
theorem do_stats_registered (st : State) (source_p : Client) (parc : Nat)
    (parv : List String) (h : registered (deref (parv.getD 1 ""))) :
    ∃ body : List Effect, body.all (is_handler_effect source_p) = true ∧
      do_stats st source_p parc parv =
        body ++ [spy_notice source_p (deref (parv.getD 1 "")),
                 end_of_stats source_p (parv.getD 1 "")] := by
  obtain ⟨tab, hmem, hl⟩ := h
  have hmap := stats_map_at_registered tab hmem
  have h0 : deref (parv.getD 1 "") ≠ NUL := hl ▸ (stats_map_rows tab hmem).1
  rw [hl] at hmap
  refine ⟨if tab.required_modes = 0 || HasUMode source_p tab.required_modes then
      match tab.handler with
      | some handler => call_handler handler st source_p parc parv
      | none => []
    else [reply source_p Numeric.ERR_NOPRIVILEGES []], ?_, ?_⟩
  · split
    · split
      · exact call_handler_all _ st source_p parc parv
      · rfl
    · simp [is_handler_effect, is_report_reply]
  · unfold do_stats end_of_stats
    dsimp only
    rw [if_neg h0, if_neg h0, hmap]
    dsimp only
    rw [List.append_assoc]
    rfl

/-- A run without a store past the end of an array is guaranteed to do what
its effects say. -/
theorem guaranteed_of_reports (source_p : Client) (body : List Effect)
    (h : body.all (is_report source_p) = true) : body.any is_store_past_end = false := by
  rw [Bool.eq_false_iff]
  intro hany
  rw [List.any_eq_true] at hany
  obtain ⟨e, he, hs⟩ := hany
  have := List.all_eq_true.mp h e he
  cases e <;> simp_all [is_report, is_store_past_end]

/-- The shared and cluster report stores past the end of `buf` iff one of the
two lists has an entry. -/
theorem stats_shared_overruns (st : State) (source_p : Client) (parc : Nat)
    (parv : List String) :
    (stats_shared st source_p parc parv).any is_store_past_end = true ↔
      (st.shared_list ≠ [] ∨ st.cluster_list ≠ []) := by
  unfold stats_shared report_shared report_cluster
  rw [List.any_append, Bool.or_eq_true]
  constructor
  · rintro (h | h)
    · left
      intro hnil
      rw [hnil] at h
      cases h
    · right
      intro hnil
      rw [hnil] at h
      cases h
  · rintro (h | h)
    · left
      cases hl : st.shared_list with
      | nil => exact absurd hl h
      | cons x rest => rfl
    · right
      cases hl : st.cluster_list with
      | nil => exact absurd hl h
      | cons x rest => rfl

set_option maxRecDepth 100000 in
/-- The one row of the table with the handler `stats_shared` is the row of the
code `U`, which requires operator status. -/
theorem stats_shared_row : ∀ tab ∈ stats_rows,
    (tab.handler = some Handler.stats_shared ↔ tab.letter = 'U') ∧
    (tab.letter = 'U' → tab.required_modes = UMODE_OPER) ∧
    tab.handler ≠ none := by
  decide

/-- What `do_stats` does for the code of a row of the table. -/
theorem do_stats_of_row (st : State) (source_p : Client) (parc : Nat) (parv : List String)
    (tab : StatsStruct) (hmem : tab ∈ stats_rows) (hl : tab.letter = deref (parv.getD 1 "")) :
    do_stats st source_p parc parv =
      (if tab.required_modes = 0 || HasUMode source_p tab.required_modes then
        match tab.handler with
        | some handler => call_handler handler st source_p parc parv
        | none => []
       else [reply source_p Numeric.ERR_NOPRIVILEGES []]) ++
      [spy_notice source_p (deref (parv.getD 1 "")), end_of_stats source_p (parv.getD 1 "")] := by
  have hmap := stats_map_at_registered tab hmem
  have h0 : deref (parv.getD 1 "") ≠ NUL := hl ▸ (stats_map_rows tab hmem).1
  rw [hl] at hmap
  unfold do_stats end_of_stats
  dsimp only
  rw [if_neg h0, if_neg h0, hmap]
  dsimp only
  rw [List.append_assoc]
  rfl

/-- A run of `do_stats` stores past the end of an array iff the request makes
it run the shared and cluster report over at least one entry. -/
theorem do_stats_overruns (st : State) (source_p : Client) (parc : Nat)
    (parv : List String) :
    (do_stats st source_p parc parv).any is_store_past_end = true ↔
      overruns_flag_buf st source_p parv := by
  by_cases hr : registered (deref (parv.getD 1 ""))
  · obtain ⟨tab, hmem, hl⟩ := hr
    obtain ⟨hsh, hmode, hsome⟩ := stats_shared_row tab hmem
    rw [do_stats_of_row st source_p parc parv tab hmem hl, List.any_append]
    have htail : ([spy_notice source_p (deref (parv.getD 1 "")),
        end_of_stats source_p (parv.getD 1 "")]).any is_store_past_end = false := rfl
    rw [htail, Bool.or_false]
    unfold overruns_flag_buf
    rw [← hl]
    by_cases hU : tab.letter = 'U'
    · have hh := hsh.mpr hU
      rw [hh, hmode hU]
      have hz : UMODE_OPER ≠ 0 := by decide
      by_cases ho : HasUMode source_p UMODE_OPER = true
      · simp only [ho, Bool.or_true, if_true, hU, true_and]
        exact stats_shared_overruns st source_p parc parv
      · simp [ho, hz, hU, is_store_past_end, reply]
    · have hne : tab.handler ≠ some Handler.stats_shared := fun h => hU (hsh.mp h)
      constructor
      · intro hany
        exfalso
        split at hany
        · cases hh : tab.handler with
          | none => exact hsome hh
          | some handler =>
            rw [hh] at hany hne
            dsimp only at hany
            have hrep := call_handler_reports handler (fun h => hne (by rw [h])) st source_p
              parc parv
            rw [guaranteed_of_reports source_p _ hrep] at hany
            cases hany
        · simp [is_store_past_end, reply] at hany
      · rintro ⟨hu, _⟩
        exact absurd hu hU
  · have hnU : deref (parv.getD 1 "") ≠ 'U' := by
      intro h
      apply hr
      rw [h]
      decide
    constructor
    · intro hany
      exfalso
      by_cases h0 : deref (parv.getD 1 "") = NUL
      · rw [do_stats_empty st source_p parc parv h0] at hany
        simp [end_of_stats, reply, is_store_past_end] at hany
      · rw [do_stats_unregistered st source_p parc parv h0 hr] at hany
        simp [end_of_stats, reply, is_store_past_end] at hany
    · rintro ⟨hu, _⟩
      exact absurd hu hnU

/-- What a run of `do_stats` is guaranteed to do: nothing when the request
overruns the flag buffer, its effects otherwise. -/
theorem guaranteed_do_stats (st : State) (source_p : Client) (parc : Nat)
    (parv : List String) :
    (overruns_flag_buf st source_p parv → guaranteed (do_stats st source_p parc parv) = none) ∧
    (¬ overruns_flag_buf st source_p parv →
      guaranteed (do_stats st source_p parc parv) = some (do_stats st source_p parc parv)) := by
  unfold guaranteed
  constructor
  · intro h
    rw [if_pos ((do_stats_overruns st source_p parc parv).mpr h)]
  · intro h
    rw [if_neg (fun hany => h ((do_stats_overruns st source_p parc parv).mp hany))]


/-! ## Claims on `do_stats` -/

/-- C1: for a registered category whose `required_modes` is non-zero and not
held by the requester, `do_stats` does exactly three things: it sends the
requester the no-privileges notice, it notifies the operators, and it sends the
requester the completion marker. So the requester gets exactly two lines, and
the handler is not called: the result is the same in every state. -/
theorem do_stats_no_privileges (st : State) (source_p : Client) (parc : Nat)
    (parv : List String) (tab : StatsStruct) (hreg : tab ∈ stats_rows)
    (hcode : deref (parv.getD 1 "") = tab.letter) (hreq : tab.required_modes ≠ 0)
    (hmode : HasUMode source_p tab.required_modes = false) :
    do_stats st source_p parc parv =
      [reply source_p Numeric.ERR_NOPRIVILEGES [], spy_notice source_p tab.letter,
       reply source_p Numeric.RPL_ENDOFSTATS [Arg.chr tab.letter]] ∧
    sent_to source_p (do_stats st source_p parc parv) =
      [reply source_p Numeric.ERR_NOPRIVILEGES [],
       reply source_p Numeric.RPL_ENDOFSTATS [Arg.chr tab.letter]] ∧
    ∀ st' : State, do_stats st' source_p parc parv = do_stats st source_p parc parv := by
  have h0 : tab.letter ≠ NUL := (stats_map_rows tab hreg).1
  have hmap := stats_map_at_registered tab hreg
  have key : ∀ s : State, do_stats s source_p parc parv =
      [reply source_p Numeric.ERR_NOPRIVILEGES [], spy_notice source_p tab.letter,
       reply source_p Numeric.RPL_ENDOFSTATS [Arg.chr tab.letter]] := by
    intro s
    unfold do_stats
    dsimp only
    rw [hcode, if_neg h0, hmap]
    dsimp only
    rw [if_neg (by simp [hreq, hmode])]
    rfl
  refine ⟨key st, ?_, fun s => (key s).trans (key st).symm⟩
  rw [key st]
  simp [sent_to, reply, spy_notice]

/-- C1 at a concrete input: a user without privileges asks for category `z`. -/
theorem do_stats_no_privileges_witness :
    do_stats Sample.state Sample.alice 2 ["STATS", "z"] =
      [reply Sample.alice Numeric.ERR_NOPRIVILEGES [], spy_notice Sample.alice 'z',
       reply Sample.alice Numeric.RPL_ENDOFSTATS [Arg.chr 'z']] ∧
    sent_to Sample.alice (do_stats Sample.state Sample.alice 2 ["STATS", "z"]) =
      [reply Sample.alice Numeric.ERR_NOPRIVILEGES [],
       reply Sample.alice Numeric.RPL_ENDOFSTATS [Arg.chr 'z']] ∧
    ∀ st' : State, do_stats st' Sample.alice 2 ["STATS", "z"] =
      do_stats Sample.state Sample.alice 2 ["STATS", "z"] :=
  do_stats_no_privileges Sample.state Sample.alice 2 ["STATS", "z"]
    ⟨'z', some Handler.stats_memory, UMODE_OPER⟩ (by decide) (by decide) (by decide)
    (by decide)

/-- C2: for a code that is not NUL and not the letter of a row of `stats_tab`,
`do_stats` does exactly one thing: it sends the requester the completion
marker. In particular no notice goes to the operators. -/
theorem do_stats_unknown_code (st : State) (source_p : Client) (parc : Nat)
    (parv : List String) (h0 : deref (parv.getD 1 "") ≠ NUL)
    (hun : ∀ tab ∈ stats_tab, tab.letter ≠ deref (parv.getD 1 "")) :
    do_stats st source_p parc parv =
      [reply source_p Numeric.RPL_ENDOFSTATS [Arg.chr (deref (parv.getD 1 ""))]] ∧
    sent_to source_p (do_stats st source_p parc parv) =
      [reply source_p Numeric.RPL_ENDOFSTATS [Arg.chr (deref (parv.getD 1 ""))]] ∧
    audit_notices (do_stats st source_p parc parv) = [] := by
  have hnr : ¬ registered (deref (parv.getD 1 "")) := by
    rintro ⟨tab, hmem, hl⟩
    exact hun tab (List.dropLast_subset _ hmem) hl
  have key := do_stats_unregistered st source_p parc parv h0 hnr
  unfold end_of_stats at key
  rw [if_neg h0] at key
  rw [key]
  refine ⟨rfl, ?_, ?_⟩
  · simp [sent_to, reply]
  · simp [audit_notices, reply]

/-- C2 at a concrete input: category `!` is not in the table. -/
theorem do_stats_unknown_code_witness :
    do_stats Sample.state Sample.alice 2 ["STATS", "!"] =
      [reply Sample.alice Numeric.RPL_ENDOFSTATS [Arg.chr '!']] ∧
    sent_to Sample.alice (do_stats Sample.state Sample.alice 2 ["STATS", "!"]) =
      [reply Sample.alice Numeric.RPL_ENDOFSTATS [Arg.chr '!']] ∧
    audit_notices (do_stats Sample.state Sample.alice 2 ["STATS", "!"]) = [] :=
  do_stats_unknown_code Sample.state Sample.alice 2 ["STATS", "!"] (by decide) (by decide)

theorem sent_to_append (source_p : Client) (a b : List Effect) :
    sent_to source_p (a ++ b) = sent_to source_p a ++ sent_to source_p b := by
  simp [sent_to]

theorem audit_notices_append (a b : List Effect) :
    audit_notices (a ++ b) = audit_notices a ++ audit_notices b := by
  simp [audit_notices]

theorem hunt_calls_append (a b : List Effect) :
    hunt_calls (a ++ b) = hunt_calls a ++ hunt_calls b := by
  simp [hunt_calls]

theorem registered_iff_stats_map_at (c : Char) :
    registered c ↔ (stats_map_at c).isSome = true := by
  constructor
  · rintro ⟨tab, hmem, hl⟩
    rw [← hl, stats_map_at_registered tab hmem]
    rfl
  · intro h
    by_contra hr
    rw [stats_map_at_unregistered c hr] at h
    cases h

/-- The lines `do_stats` sends to the requester: report lines, then the marker. -/
theorem sent_to_do_stats (st : State) (source_p : Client) (parc : Nat) (parv : List String) :
    ∃ body : List Effect, body.all (is_report source_p) = true ∧
      sent_to source_p (do_stats st source_p parc parv) =
        body ++ [end_of_stats source_p (parv.getD 1 "")] := by
  by_cases hr : registered (deref (parv.getD 1 ""))
  · obtain ⟨body, hall, heq⟩ := do_stats_registered st source_p parc parv hr
    refine ⟨sent_to source_p body, sent_to_reports source_p body hall, ?_⟩
    rw [heq, sent_to_append]
    simp [sent_to, spy_notice, end_of_stats, reply]
  · refine ⟨[], rfl, ?_⟩
    by_cases h0 : deref (parv.getD 1 "") = NUL
    · rw [do_stats_empty st source_p parc parv h0]
      simp [sent_to, end_of_stats, reply]
    · rw [do_stats_unregistered st source_p parc parv h0 hr]
      simp [sent_to, end_of_stats, reply]

/-- The marker is the last line `do_stats` sends to the requester, and the only
completion marker among them. -/
theorem sent_to_do_stats_marker (st : State) (source_p : Client) (parc : Nat)
    (parv : List String) :
    (sent_to source_p (do_stats st source_p parc parv)).getLast? =
      some (end_of_stats source_p (parv.getD 1 "")) ∧
    (sent_to source_p (do_stats st source_p parc parv)).filter is_end_of_stats =
      [end_of_stats source_p (parv.getD 1 "")] := by
  obtain ⟨body, hall, heq⟩ := sent_to_do_stats st source_p parc parv
  rw [heq]
  refine ⟨by simp, ?_⟩
  rw [List.filter_append,
    no_end_of_stats_reports source_p body (is_handler_effect_of_report source_p body hall)]
  simp [end_of_stats, reply, is_end_of_stats]

/-- C5, what the code does: a request that makes `do_stats` run the shared and
cluster report over at least one entry (code `U`, an operator, a list that is
not empty) stores past the end of `buf` before anything is sent, so nothing is
guaranteed, the completion marker included. For every other requester,
argument vector and state, whether the handler runs, the privilege check fails
or the code is unknown, the lines `do_stats` sends to the requester contain
exactly one completion marker, it is the last line, and it carries the first
character of the category argument, or `*` when the argument is empty. -/
theorem do_stats_completion_marker (st : State) (source_p : Client) (parc : Nat)
    (parv : List String) :
    (overruns_flag_buf st source_p parv →
      guaranteed (do_stats st source_p parc parv) = none) ∧
    (¬ overruns_flag_buf st source_p parv →
      guaranteed (do_stats st source_p parc parv) = some (do_stats st source_p parc parv) ∧
      (sent_to source_p (do_stats st source_p parc parv)).getLast? =
        some (end_of_stats source_p (parv.getD 1 "")) ∧
      (sent_to source_p (do_stats st source_p parc parv)).filter is_end_of_stats =
        [end_of_stats source_p (parv.getD 1 "")]) ∧
    end_of_stats source_p (parv.getD 1 "") =
      Effect.sendto_one_numeric source_p.addr Numeric.RPL_ENDOFSTATS false
        [Arg.chr (if deref (parv.getD 1 "") = NUL then '*' else deref (parv.getD 1 ""))] := by
  refine ⟨(guaranteed_do_stats st source_p parc parv).1, fun h => ⟨?_, ?_, ?_⟩, rfl⟩
  · exact (guaranteed_do_stats st source_p parc parv).2 h
  · exact (sent_to_do_stats_marker st source_p parc parv).1
  · exact (sent_to_do_stats_marker st source_p parc parv).2

set_option maxRecDepth 100000 in
/-- C5 at concrete inputs: the operator `oscar` asks for category `U` on the
sample server, which has one shared entry: the first thing `do_stats` does is
the store at index 10 of the array of 10 elements, and nothing is guaranteed.
The user `alice` asks for category `u`: the marker ends the reply. -/
theorem do_stats_completion_marker_witness :
    (do_stats Sample.state Sample.oscar 2 ["STATS", "U"]).head? =
      some (Effect.store_past_end 10 10) ∧
    guaranteed (do_stats Sample.state Sample.oscar 2 ["STATS", "U"]) = none ∧
    guaranteed (do_stats Sample.state Sample.alice 2 ["STATS", "u"]) =
      some (do_stats Sample.state Sample.alice 2 ["STATS", "u"]) ∧
    (sent_to Sample.alice (do_stats Sample.state Sample.alice 2 ["STATS", "u"])).getLast? =
      some (end_of_stats Sample.alice "u") :=
  ⟨by decide,
   (do_stats_completion_marker Sample.state Sample.oscar 2 ["STATS", "U"]).1 (by decide),
   ((do_stats_completion_marker Sample.state Sample.alice 2 ["STATS", "u"]).2.1
      (by decide)).1,
   ((do_stats_completion_marker Sample.state Sample.alice 2 ["STATS", "u"]).2.1
      (by decide)).2.1⟩

/-- C7, what the code does: a request that makes `do_stats` run the shared and
cluster report over at least one entry stores past the end of `buf` in the
handler, before the notice to the operators, so the notice is not guaranteed.
For every other request `do_stats` sends exactly one notice to the operators,
naming the code and the requester, when the code is registered, also when the
requester lacks the privilege; it sends none when the code is empty or not
registered. -/
theorem do_stats_audit_notice (st : State) (source_p : Client) (parc : Nat)
    (parv : List String) :
    (overruns_flag_buf st source_p parv →
      guaranteed (do_stats st source_p parc parv) = none) ∧
    (¬ overruns_flag_buf st source_p parv →
      guaranteed (do_stats st source_p parc parv) = some (do_stats st source_p parc parv) ∧
      audit_notices (do_stats st source_p parc parv) =
        (if registered (deref (parv.getD 1 "")) then
          [Effect.sendto_realops_flags UMODE_SPY "STATS %c requested by %s (%s@%s) [%s]"
            [Arg.chr (deref (parv.getD 1 "")), Arg.str source_p.name,
             Arg.str source_p.username, Arg.str source_p.host,
             Arg.str source_p.servptr_name]]
         else [])) ∧
    (registered (deref (parv.getD 1 "")) ↔
      (stats_map_at (deref (parv.getD 1 ""))).isSome = true) ∧
    ¬ registered NUL := by
  refine ⟨(guaranteed_do_stats st source_p parc parv).1,
    fun h => ⟨(guaranteed_do_stats st source_p parc parv).2 h, ?_⟩,
    registered_iff_stats_map_at _, not_registered_NUL⟩
  by_cases hr : registered (deref (parv.getD 1 ""))
  · obtain ⟨body, hall, heq⟩ := do_stats_registered st source_p parc parv hr
    rw [if_pos hr, heq, audit_notices_append, no_audit_reports source_p body hall]
    simp [audit_notices, spy_notice, end_of_stats, reply]
  · rw [if_neg hr]
    by_cases h0 : deref (parv.getD 1 "") = NUL
    · rw [do_stats_empty st source_p parc parv h0]
      simp [audit_notices, end_of_stats, reply]
    · rw [do_stats_unregistered st source_p parc parv h0 hr]
      simp [audit_notices, end_of_stats, reply]

set_option maxRecDepth 100000 in
/-- C7 at concrete inputs: for `oscar` and category `U` on the sample server
the store past the end of `buf` comes before the notice, and nothing is
guaranteed; `alice` is denied category `z` and the operators are notified; the
code `!` is not registered and they are not. -/
theorem do_stats_audit_notice_witness :
    do_stats Sample.state Sample.oscar 2 ["STATS", "U"] =
      [Effect.store_past_end 10 10,
       reply Sample.oscar Numeric.RPL_STATSULINE
         [Arg.str "*", Arg.str "*", Arg.str "*", Arg.str "cKuxyqrlde"],
       spy_notice Sample.oscar 'U',
       reply Sample.oscar Numeric.RPL_ENDOFSTATS [Arg.chr 'U']] ∧
    guaranteed (do_stats Sample.state Sample.oscar 2 ["STATS", "U"]) = none ∧
    audit_notices (do_stats Sample.state Sample.alice 2 ["STATS", "z"]) =
      [spy_notice Sample.alice 'z'] ∧
    audit_notices (do_stats Sample.state Sample.alice 2 ["STATS", "!"]) = [] :=
  ⟨by decide,
   (do_stats_audit_notice Sample.state Sample.oscar 2 ["STATS", "U"]).1 (by decide),
   (((do_stats_audit_notice Sample.state Sample.alice 2 ["STATS", "z"]).2.1
      (by decide)).2).trans (by decide),
   (((do_stats_audit_notice Sample.state Sample.alice 2 ["STATS", "!"]).2.1
      (by decide)).2).trans (by decide)⟩

/-! ## Claims on `stats_init` -/

theorem stats_init_loop_eq_foldl (rows : List StatsStruct) (map : List (Option StatsStruct))
    (h : ∀ tab ∈ rows, tab.letter ≠ NUL) :
    stats_init_loop (rows ++ [stats_sentinel]) map =
      rows.foldl (fun m tab => m.set tab.letter.toNat (some tab)) map := by
  induction rows generalizing map with
  | nil => simp [stats_init_loop, stats_sentinel]
  | cons tab rest ih =>
    have h1 : tab.letter ≠ NUL := h tab (List.mem_cons_self _ _)
    have h2 : ∀ t ∈ rest, t.letter ≠ NUL := fun t ht => h t (List.mem_cons_of_mem _ ht)
    rw [List.cons_append, stats_init_loop, if_neg h1, ih _ h2]
    rfl

theorem stats_tab_split : stats_tab = stats_rows ++ [stats_sentinel] := by decide

theorem stats_rows_nodup : (stats_rows.map (fun tab => tab.letter)).Nodup := by decide

theorem stats_init_perm (rows : List StatsStruct) (h : rows.Perm stats_rows) :
    stats_init_loop (rows ++ [stats_sentinel]) stats_map_zero = stats_map := by
  have hne : ∀ tab ∈ rows, tab.letter ≠ NUL := fun tab ht =>
    (stats_map_rows tab (h.mem_iff.mp ht)).1
  have hne' : ∀ tab ∈ stats_rows, tab.letter ≠ NUL := fun tab ht => (stats_map_rows tab ht).1
  have hmap : stats_map = stats_init_loop (stats_rows ++ [stats_sentinel]) stats_map_zero := by
    unfold stats_map stats_init
    rw [stats_tab_split]
  rw [hmap, stats_init_loop_eq_foldl rows _ hne, stats_init_loop_eq_foldl stats_rows _ hne']
  apply List.Perm.foldl_eq' h
  intro x hx y hy z
  by_cases hxy : x = y
  · rw [hxy]
  · have hnd : (rows.map (fun tab => tab.letter)).Nodup :=
      (List.Perm.nodup_iff (h.map _)).mpr stats_rows_nodup
    have hl : x.letter ≠ y.letter := fun heq =>
      hxy (List.inj_on_of_nodup_map hnd hx hy heq)
    have hn : x.letter.toNat ≠ y.letter.toNat := fun heq => hl (char_toNat_inj heq)
    exact List.set_comm _ _ _ hn

set_option maxRecDepth 100000 in
/-- C8: after `stats_init`, `stats_map[c]` is the row of `stats_tab` with letter
`c` for each of the 39 letters, and NULL for every other code `c < 256`, code 0
included; no letter occurs twice, so building the table from the rows in any
other order gives the same table; and every row requires no mode, `UMODE_OPER`
or `UMODE_ADMIN`. -/
theorem stats_init_table :
    (∀ tab ∈ stats_rows, stats_map.getD tab.letter.toNat none = some tab) ∧
    (∀ c < 256, (∀ tab ∈ stats_rows, tab.letter.toNat ≠ c) → stats_map.getD c none = none) ∧
    stats_map.getD 0 none = none ∧
    stats_map.length = 256 ∧
    stats_tab = stats_rows ++ [stats_sentinel] ∧
    stats_rows.length = 39 ∧
    (stats_tab.map (fun tab => tab.letter)).Nodup ∧
    (∀ rows : List StatsStruct, rows.Perm stats_rows →
      stats_init_loop (rows ++ [stats_sentinel]) stats_map_zero = stats_map) ∧
    (∀ tab ∈ stats_tab, tab.required_modes = 0 ∨ tab.required_modes = UMODE_OPER ∨
      tab.required_modes = UMODE_ADMIN) := by
  refine ⟨fun tab h => stats_map_at_registered tab h, stats_map_other, by decide,
    stats_map_length, stats_tab_split, by decide, by decide, stats_init_perm, by decide⟩

/-! ## Claims on the flood gate of `m_stats` -/

theorem rate_limited_of_paced (st : State) (hw : no_wrap st) (h : paced st) :
    rate_limited st := by
  unfold no_wrap at hw
  unfold paced at h
  unfold rate_limited uintmax_t
  rw [Nat.mod_eq_of_lt hw.1, Nat.mod_eq_of_lt hw.2]
  exact h

theorem not_rate_limited_of_not_paced (st : State) (hw : st.CurrentTime < 2 ^ 64)
    (h : ¬ paced st) : ¬ rate_limited st := by
  unfold paced at h
  unfold rate_limited uintmax_t
  have h2 : st.last_used + st.ConfigGeneral.pace_wait < 2 ^ 64 := by omega
  rw [Nat.mod_eq_of_lt hw, Nat.mod_eq_of_lt h2]
  omega

/-- What `m_stats` does when the flood gate is closed. -/
theorem m_stats_closed (st : State) (source_p : Client) (parc : Nat) (parv : List String)
    (h : rate_limited st) :
    m_stats st source_p parc parv =
      (st, [Effect.sendto_one_numeric source_p.addr Numeric.RPL_LOAD2HI false
              [Arg.str "STATS"]]) := by
  have h' : uintmax_t (st.last_used + st.ConfigGeneral.pace_wait) > uintmax_t st.CurrentTime :=
    h
  unfold m_stats
  rw [if_pos h']
  rfl

/-- What `m_stats` does once the flood gate is passed. -/
theorem m_stats_open (st : State) (source_p : Client) (parc : Nat) (parv : List String)
    (h : ¬ rate_limited st) :
    m_stats st source_p parc parv =
      ({ st with last_used := uintmax_t st.CurrentTime },
        if st.ConfigServerHide.disable_remote_commands then
          do_stats { st with last_used := uintmax_t st.CurrentTime } source_p parc parv
        else if st.ext.hunt_server source_p hunt_command 2 parc parv = Hunted.HUNTED_ISME then
          Effect.hunt_server source_p.addr hunt_command 2 parc parv ::
            do_stats { st with last_used := uintmax_t st.CurrentTime } source_p parc parv
        else [Effect.hunt_server source_p.addr hunt_command 2 parc parv]) := by
  have h' : ¬ uintmax_t (st.last_used + st.ConfigGeneral.pace_wait) >
      uintmax_t st.CurrentTime := h
  unfold m_stats
  rw [if_neg h']
  dsimp only
  cases hd : st.ConfigServerHide.disable_remote_commands
  · by_cases hh : st.ext.hunt_server source_p hunt_command 2 parc parv = Hunted.HUNTED_ISME
    · simp [hh]
    · simp [hh]
  · simp

/-- Nothing `do_stats` does is a rate-limit notice. -/
theorem do_stats_no_load2hi (st : State) (source_p : Client) (parc : Nat)
    (parv : List String) : (do_stats st source_p parc parv).filter is_load2hi = [] := by
  by_cases hr : registered (deref (parv.getD 1 ""))
  · obtain ⟨body, hall, heq⟩ := do_stats_registered st source_p parc parv hr
    rw [heq, List.filter_append, no_load2hi_reports source_p body hall]
    simp [spy_notice, end_of_stats, reply, is_load2hi]
  · by_cases h0 : deref (parv.getD 1 "") = NUL
    · rw [do_stats_empty st source_p parc parv h0]
      simp [end_of_stats, reply, is_load2hi]
    · rw [do_stats_unregistered st source_p parc parv h0 hr]
      simp [end_of_stats, reply, is_load2hi]

/-- C3: when `CurrentTime` is strictly less than `last_used + pace_wait` (the
sum not wrapping around), `m_stats` sends the requester the rate-limit notice
and does nothing else: no completion marker, no notice to the operators, no
call of `hunt_server`, no handler; and the state, `last_used` included, is
unchanged. -/
theorem m_stats_rate_limited (st : State) (source_p : Client) (parc : Nat)
    (parv : List String) (hw : no_wrap st) (h : paced st) :
    m_stats st source_p parc parv =
      (st, [Effect.sendto_one_numeric source_p.addr Numeric.RPL_LOAD2HI false
              [Arg.str "STATS"]]) ∧
    (m_stats st source_p parc parv).1.last_used = st.last_used ∧
    (m_stats st source_p parc parv).2.filter is_end_of_stats = [] ∧
    audit_notices (m_stats st source_p parc parv).2 = [] ∧
    hunt_calls (m_stats st source_p parc parv).2 = [] := by
  rw [m_stats_closed st source_p parc parv (rate_limited_of_paced st hw h)]
  exact ⟨rfl, rfl, rfl, rfl, rfl⟩

/-- C3 at a concrete input: a request 9 seconds after start-up, with a pacing
interval of 10 seconds. -/
theorem m_stats_rate_limited_witness :
    m_stats { Sample.state with CurrentTime := 9 } Sample.alice 2 ["STATS", "u"] =
      ({ Sample.state with CurrentTime := 9 },
        [Effect.sendto_one_numeric Sample.alice.addr Numeric.RPL_LOAD2HI false
          [Arg.str "STATS"]]) ∧
    (m_stats { Sample.state with CurrentTime := 9 } Sample.alice 2
      ["STATS", "u"]).1.last_used = 0 ∧
    (m_stats { Sample.state with CurrentTime := 9 } Sample.alice 2
      ["STATS", "u"]).2.filter is_end_of_stats = [] ∧
    audit_notices (m_stats { Sample.state with CurrentTime := 9 } Sample.alice 2
      ["STATS", "u"]).2 = [] ∧
    hunt_calls (m_stats { Sample.state with CurrentTime := 9 } Sample.alice 2
      ["STATS", "u"]).2 = [] :=
  m_stats_rate_limited { Sample.state with CurrentTime := 9 } Sample.alice 2 ["STATS", "u"]
    (by decide) (by decide)

/-- C4: when `CurrentTime` is at least `last_used + pace_wait`, equality
included, `m_stats` admits the request, whoever asks for whatever code: it
sends no rate-limit notice and leaves a state that differs from the old one
only in `last_used`, which is now `CurrentTime`. Hence the next call of
`m_stats`, by any requester with any arguments, in any state that kept this
`last_used` and the pacing interval, is rejected as long as its clock is
strictly below the new `last_used + pace_wait`. -/
theorem m_stats_admitted (st : State) (source_p : Client) (parc : Nat) (parv : List String)
    (hw : st.CurrentTime < 2 ^ 64)
    (h : st.last_used + st.ConfigGeneral.pace_wait ≤ st.CurrentTime) :
    (m_stats st source_p parc parv).1 = { st with last_used := st.CurrentTime } ∧
    (m_stats st source_p parc parv).2.filter is_load2hi = [] ∧
    ∀ (later : State) (source' : Client) (parc' : Nat) (parv' : List String),
      later.last_used = (m_stats st source_p parc parv).1.last_used →
      later.ConfigGeneral.pace_wait = st.ConfigGeneral.pace_wait →
      later.CurrentTime < st.CurrentTime + st.ConfigGeneral.pace_wait →
      st.CurrentTime + st.ConfigGeneral.pace_wait < 2 ^ 64 →
      m_stats later source' parc' parv' =
        (later, [Effect.sendto_one_numeric source'.addr Numeric.RPL_LOAD2HI false
                  [Arg.str "STATS"]]) := by
  have hp : ¬ paced st := by
    unfold paced
    omega
  have hu : uintmax_t st.CurrentTime = st.CurrentTime := Nat.mod_eq_of_lt hw
  have key := m_stats_open st source_p parc parv (not_rate_limited_of_not_paced st hw hp)
  rw [hu] at key
  refine ⟨by rw [key], ?_, ?_⟩
  · rw [key]
    dsimp only
    split
    · exact do_stats_no_load2hi _ _ _ _
    · split
      · rw [List.filter_cons, do_stats_no_load2hi]
        rfl
      · rfl
  · intro later source' parc' parv' hl hpw hlt hno
    rw [key] at hl
    dsimp only at hl
    have hw' : no_wrap later := by
      unfold no_wrap
      rw [hl, hpw]
      omega
    have hp' : paced later := by
      unfold paced
      rw [hl, hpw]
      exact hlt
    exact m_stats_closed later source' parc' parv' (rate_limited_of_paced later hw' hp')

/-- C4 at a concrete input: `last_used` is 990, the interval 10 and the clock
1000, the boundary case. -/
theorem m_stats_admitted_witness :
    (m_stats { Sample.state with last_used := 990 } Sample.alice 2 ["STATS", "u"]).1 =
      { Sample.state with last_used := 1000 } ∧
    (m_stats { Sample.state with last_used := 990 } Sample.alice 2
      ["STATS", "u"]).2.filter is_load2hi = [] ∧
    ∀ (later : State) (source' : Client) (parc' : Nat) (parv' : List String),
      later.last_used =
        (m_stats { Sample.state with last_used := 990 } Sample.alice 2
          ["STATS", "u"]).1.last_used →
      later.ConfigGeneral.pace_wait = 10 →
      later.CurrentTime < 1000 + 10 →
      1000 + 10 < 2 ^ 64 →
      m_stats later source' parc' parv' =
        (later, [Effect.sendto_one_numeric source'.addr Numeric.RPL_LOAD2HI false
                  [Arg.str "STATS"]]) :=
  m_stats_admitted { Sample.state with last_used := 990 } Sample.alice 2 ["STATS", "u"]
    (by decide) (by decide)

/-! ## Claims on routing and on the two command handlers -/

theorem stats_servlinks_loop_frame (st : State) (t : Nat)
    (f : Client → String → Nat → Nat → List String → Hunted) (source_p : Client)
    (list : List Client) (sendB recvB : Nat) :
    stats_servlinks_loop { st with last_used := t, ext := { st.ext with hunt_server := f } }
      source_p list sendB recvB = stats_servlinks_loop st source_p list sendB recvB := by
  induction list generalizing sendB recvB with
  | nil => rfl
  | cons target_p rest ih =>
    unfold stats_servlinks_loop
    dsimp only
    rw [ih, ih]
    rfl

/-- The handlers never look at `last_used` nor at `hunt_server`. -/
theorem call_handler_frame (h : Handler) (st : State) (t : Nat)
    (f : Client → String → Nat → Nat → List String → Hunted) (source_p : Client) (parc : Nat)
    (parv : List String) :
    call_handler h { st with last_used := t, ext := { st.ext with hunt_server := f } }
      source_p parc parv = call_handler h st source_p parc parv := by
  cases h
  case stats_servlinks =>
    unfold call_handler stats_servlinks
    dsimp only
    rw [stats_servlinks_loop_frame]
  all_goals rfl

theorem do_stats_frame (st : State) (t : Nat)
    (f : Client → String → Nat → Nat → List String → Hunted) (source_p : Client) (parc : Nat)
    (parv : List String) :
    do_stats { st with last_used := t, ext := { st.ext with hunt_server := f } }
      source_p parc parv = do_stats st source_p parc parv := by
  unfold do_stats
  simp only [call_handler_frame]

/-- C9: for a request that passed the flood gate of `m_stats` (the test of the
gate, as the code evaluates it, is false):
with `disable_remote_commands` off and a result of `hunt_server` other than
`HUNTED_ISME`, the call of `hunt_server` is all `m_stats` does (no line to the
requester, no notice to the operators); with `disable_remote_commands` on,
`hunt_server` is not called, its result has no influence, and `do_stats` runs,
whatever the arguments; with the result `HUNTED_ISME`, `do_stats` runs after
the call. -/
theorem m_stats_routing (st : State) (source_p : Client) (parc : Nat) (parv : List String)
    (h : ¬ rate_limited st) :
    (st.ConfigServerHide.disable_remote_commands = false →
      st.ext.hunt_server source_p hunt_command 2 parc parv ≠ Hunted.HUNTED_ISME →
        (m_stats st source_p parc parv).2 =
          [Effect.hunt_server source_p.addr hunt_command 2 parc parv] ∧
        sent_to source_p (m_stats st source_p parc parv).2 = [] ∧
        audit_notices (m_stats st source_p parc parv).2 = []) ∧
    (st.ConfigServerHide.disable_remote_commands = true →
        (m_stats st source_p parc parv).2 =
          do_stats { st with last_used := uintmax_t st.CurrentTime } source_p parc parv ∧
        hunt_calls (m_stats st source_p parc parv).2 = [] ∧
        ∀ f : Client → String → Nat → Nat → List String → Hunted,
          (m_stats { st with ext := { st.ext with hunt_server := f } } source_p parc parv).2 =
            (m_stats st source_p parc parv).2) ∧
    (st.ConfigServerHide.disable_remote_commands = false →
      st.ext.hunt_server source_p hunt_command 2 parc parv = Hunted.HUNTED_ISME →
        (m_stats st source_p parc parv).2 =
          Effect.hunt_server source_p.addr hunt_command 2 parc parv ::
            do_stats { st with last_used := uintmax_t st.CurrentTime } source_p parc parv) := by
  have key := m_stats_open st source_p parc parv h
  refine ⟨?_, ?_, ?_⟩
  · intro hd hh
    rw [key]
    simp [hd, hh, sent_to, audit_notices]
  · intro hd
    have hout : (m_stats st source_p parc parv).2 =
        do_stats { st with last_used := uintmax_t st.CurrentTime } source_p parc parv := by
      rw [key]
      simp [hd]
    refine ⟨hout, ?_, ?_⟩
    · rw [hout]
      by_cases hr : registered (deref (parv.getD 1 ""))
      · obtain ⟨body, hall, heq⟩ := do_stats_registered
          { st with last_used := uintmax_t st.CurrentTime } source_p parc parv hr
        rw [heq, hunt_calls_append, no_hunt_reports source_p body hall]
        rfl
      · by_cases h0 : deref (parv.getD 1 "") = NUL
        · rw [do_stats_empty _ source_p parc parv h0]
          rfl
        · rw [do_stats_unregistered _ source_p parc parv h0 hr]
          rfl
    · intro f
      have key' := m_stats_open { st with ext := { st.ext with hunt_server := f } }
        source_p parc parv h
      rw [hout, key']
      simp only [hd, if_true]
      exact (do_stats_frame st (uintmax_t st.CurrentTime) f source_p parc parv).trans
        (do_stats_frame st (uintmax_t st.CurrentTime) st.ext.hunt_server source_p parc
          parv).symm
  · intro hd hh
    rw [key]
    simp [hd, hh]

/-- C9 at a concrete input: the same request for `hub.example`, for this server,
and with remote commands disabled. -/
theorem m_stats_routing_witness :
    (m_stats Sample.state Sample.alice 3 ["STATS", "u", "hub.example"]).2 =
      [Effect.hunt_server 1 hunt_command 2 3 ["STATS", "u", "hub.example"]] ∧
    (m_stats Sample.state_local Sample.alice 3 ["STATS", "u", "hub.example"]).2 =
      do_stats Sample.state_local Sample.alice 3 ["STATS", "u", "hub.example"] ∧
    (m_stats Sample.state Sample.alice 3 ["STATS", "u", "irc.example"]).2 =
      Effect.hunt_server 1 hunt_command 2 3 ["STATS", "u", "irc.example"] ::
        do_stats Sample.state Sample.alice 3 ["STATS", "u", "irc.example"] :=
  ⟨((m_stats_routing Sample.state Sample.alice 3 ["STATS", "u", "hub.example"]
      (by decide)).1 (by decide) (by decide)).1,
   (((m_stats_routing Sample.state_local Sample.alice 3 ["STATS", "u", "hub.example"]
      (by decide)).2.1 (by decide)).1).trans (by decide),
   ((m_stats_routing Sample.state Sample.alice 3 ["STATS", "u", "irc.example"]
      (by decide)).2.2 (by decide) (by decide)).trans (by decide)⟩

/-- C6, refuted as stated: a request that `m_stats` rate-limits gets the
rate-limit notice and no completion marker. -/
theorem m_stats_rate_limited_no_marker :
    (m_stats { Sample.state with CurrentTime := 9 } Sample.alice 2 ["STATS", "u"]).2 =
      [reply Sample.alice Numeric.RPL_LOAD2HI [Arg.str "STATS"]] ∧
    (sent_to Sample.alice
      (m_stats { Sample.state with CurrentTime := 9 } Sample.alice 2
        ["STATS", "u"]).2).getLast? ≠ some (end_of_stats Sample.alice "u") ∧
    (sent_to Sample.alice
      (m_stats { Sample.state with CurrentTime := 9 } Sample.alice 2
        ["STATS", "u"]).2).filter is_end_of_stats = [] := by
  decide

/-- A call of `hunt_server` in front does not change what is guaranteed. -/
theorem guaranteed_cons_hunt (source : Nat) (command : String) (server parc : Nat)
    (parv : List String) (effects : List Effect)
    (h : guaranteed effects = some effects) :
    guaranteed (Effect.hunt_server source command server parc parv :: effects) =
      some (Effect.hunt_server source command server parc parv :: effects) := by
  unfold guaranteed at h ⊢
  have hany : effects.any is_store_past_end = false := by
    cases ha : effects.any is_store_past_end
    · rfl
    · rw [ha] at h
      cases h
  rw [List.any_cons, hany]
  rfl

/-- C6, amended: a request that `m_stats` or `ms_stats` handles on this server
(for `m_stats`: the test of the flood gate is false, and remote commands are
disabled or `hunt_server` answers `HUNTED_ISME`; for `ms_stats`: `hunt_server`
answers `HUNTED_ISME`), and that does not run the shared and cluster report
over an entry, ends its reply to the requester with exactly one completion
marker, carrying the first character of the category argument, or `*` when
that is empty. A request that is rate-limited or routed elsewhere gets no
completion marker from this server. -/
theorem stats_completion_marker_when_local (st : State) (source_p : Client) (parc : Nat)
    (parv : List String) :
    (¬ rate_limited st →
      (st.ConfigServerHide.disable_remote_commands = true ∨
        st.ext.hunt_server source_p hunt_command 2 parc parv = Hunted.HUNTED_ISME) →
      ¬ overruns_flag_buf st source_p parv →
      guaranteed (m_stats st source_p parc parv).2 = some (m_stats st source_p parc parv).2 ∧
      (sent_to source_p (m_stats st source_p parc parv).2).getLast? =
        some (end_of_stats source_p (parv.getD 1 "")) ∧
      (sent_to source_p (m_stats st source_p parc parv).2).filter is_end_of_stats =
        [end_of_stats source_p (parv.getD 1 "")]) ∧
    ((rate_limited st ∨ (st.ConfigServerHide.disable_remote_commands = false ∧
        st.ext.hunt_server source_p hunt_command 2 parc parv ≠ Hunted.HUNTED_ISME)) →
      guaranteed (m_stats st source_p parc parv).2 = some (m_stats st source_p parc parv).2 ∧
      (m_stats st source_p parc parv).2.filter is_end_of_stats = []) ∧
    (st.ext.hunt_server source_p hunt_command 2 parc parv = Hunted.HUNTED_ISME →
      ¬ overruns_flag_buf st source_p parv →
      guaranteed (ms_stats st source_p parc parv).2 = some (ms_stats st source_p parc parv).2 ∧
      (sent_to source_p (ms_stats st source_p parc parv).2).getLast? =
        some (end_of_stats source_p (parv.getD 1 "")) ∧
      (sent_to source_p (ms_stats st source_p parc parv).2).filter is_end_of_stats =
        [end_of_stats source_p (parv.getD 1 "")]) ∧
    (st.ext.hunt_server source_p hunt_command 2 parc parv ≠ Hunted.HUNTED_ISME →
      guaranteed (ms_stats st source_p parc parv).2 = some (ms_stats st source_p parc parv).2 ∧
      (ms_stats st source_p parc parv).2.filter is_end_of_stats = []) := by
  have hsent : ∀ s : State,
      sent_to source_p (Effect.hunt_server source_p.addr hunt_command 2 parc parv ::
        do_stats s source_p parc parv) = sent_to source_p (do_stats s source_p parc parv) := by
    intro s
    simp [sent_to]
  refine ⟨?_, ?_, ?_, ?_⟩
  · intro hp hloc hov
    have key := m_stats_open st source_p parc parv hp
    have hov1 : ¬ overruns_flag_buf { st with last_used := uintmax_t st.CurrentTime }
        source_p parv := hov
    have hg := (guaranteed_do_stats { st with last_used := uintmax_t st.CurrentTime } source_p
      parc parv).2 hov1
    have hout : sent_to source_p (m_stats st source_p parc parv).2 =
        sent_to source_p
          (do_stats { st with last_used := uintmax_t st.CurrentTime } source_p parc parv) := by
      rw [key]
      dsimp only
      cases hd : st.ConfigServerHide.disable_remote_commands
      · rcases hloc with hloc | hloc
        · rw [hd] at hloc
          cases hloc
        · simp only [hloc, if_true, Bool.false_eq_true, if_false]
          exact hsent _
      · simp
    refine ⟨?_, ?_⟩
    · rw [key]
      dsimp only
      cases hd : st.ConfigServerHide.disable_remote_commands
      · rcases hloc with hloc | hloc
        · rw [hd] at hloc
          cases hloc
        · simp only [hloc, if_true, Bool.false_eq_true, if_false]
          exact guaranteed_cons_hunt _ _ _ _ _ _ hg
      · simp only [if_true]
        exact hg
    · rw [hout]
      exact sent_to_do_stats_marker _ source_p parc parv
  · rintro (hp | ⟨hd, hh⟩)
    · rw [m_stats_closed st source_p parc parv hp]
      exact ⟨rfl, rfl⟩
    · by_cases hp : rate_limited st
      · rw [m_stats_closed st source_p parc parv hp]
        exact ⟨rfl, rfl⟩
      · rw [m_stats_open st source_p parc parv hp]
        simp [hd, hh, is_end_of_stats, guaranteed, is_store_past_end]
  · intro hh hov
    have hg := (guaranteed_do_stats st source_p parc parv).2 hov
    have hms : (ms_stats st source_p parc parv).2 =
        Effect.hunt_server source_p.addr hunt_command 2 parc parv ::
          do_stats st source_p parc parv := by
      unfold ms_stats
      simp only [hh, bne_self_eq_false, Bool.false_eq_true, if_false]
    rw [hms]
    refine ⟨guaranteed_cons_hunt _ _ _ _ _ _ hg, ?_⟩
    rw [hsent]
    exact sent_to_do_stats_marker _ source_p parc parv
  · intro hh
    unfold ms_stats
    simp [hh, is_end_of_stats, guaranteed, is_store_past_end]

/-- C6 amended, at a concrete input: a request handled on this server. -/
theorem stats_completion_marker_when_local_witness :
    guaranteed (m_stats Sample.state Sample.alice 2 ["STATS", "u"]).2 =
      some (m_stats Sample.state Sample.alice 2 ["STATS", "u"]).2 ∧
    (sent_to Sample.alice
      (m_stats Sample.state Sample.alice 2 ["STATS", "u"]).2).getLast? =
        some (end_of_stats Sample.alice "u") ∧
    (sent_to Sample.alice
      (m_stats Sample.state Sample.alice 2 ["STATS", "u"]).2).filter is_end_of_stats =
        [end_of_stats Sample.alice "u"] :=
  (stats_completion_marker_when_local Sample.state Sample.alice 2 ["STATS", "u"]).1
    (by decide) (by decide) (by decide)

/-- C10: `ms_stats`, which `stats_msgtab` registers for servers (and for
operators), has no flood gate: in every state, whatever `last_used`,
`pace_wait`, `CurrentTime` and `disable_remote_commands` are, it leaves the
state as it is, sends no rate-limit notice, calls `hunt_server` first, and then
runs `do_stats` if and only if the result is `HUNTED_ISME`. -/
theorem ms_stats_not_paced (st : State) (source_p : Client) (parc : Nat)
    (parv : List String) :
    (ms_stats st source_p parc parv).1 = st ∧
    (ms_stats st source_p parc parv).2.filter is_load2hi = [] ∧
    (ms_stats st source_p parc parv).2 =
      Effect.hunt_server source_p.addr hunt_command 2 parc parv ::
        (if st.ext.hunt_server source_p hunt_command 2 parc parv = Hunted.HUNTED_ISME then
          do_stats st source_p parc parv
         else []) ∧
    stats_msgtab_handlers HandlerSlot.SERVER_HANDLER = MessageHandler.ms_stats ∧
    stats_msgtab_handlers HandlerSlot.OPER_HANDLER = MessageHandler.ms_stats ∧
    stats_msgtab_handlers HandlerSlot.CLIENT_HANDLER = MessageHandler.m_stats := by
  have hout : (ms_stats st source_p parc parv).2 =
      Effect.hunt_server source_p.addr hunt_command 2 parc parv ::
        (if st.ext.hunt_server source_p hunt_command 2 parc parv = Hunted.HUNTED_ISME then
          do_stats st source_p parc parv
         else []) := by
    unfold ms_stats
    by_cases hh : st.ext.hunt_server source_p hunt_command 2 parc parv = Hunted.HUNTED_ISME
    · simp [hh]
    · simp [hh]
  refine ⟨?_, ?_, hout, rfl, rfl, rfl⟩
  · unfold ms_stats
    split <;> rfl
  · rw [hout]
    have hc : is_load2hi (Effect.hunt_server source_p.addr hunt_command 2 parc parv) = false :=
      rfl
    rw [List.filter_cons, hc, if_neg Bool.false_ne_true]
    split
    · exact do_stats_no_load2hi st source_p parc parv
    · rfl

/-- C10 at a state in which `m_stats` would rate-limit the request: `ms_stats`
answers it in full. -/
theorem ms_stats_not_paced_witness :
    rate_limited { Sample.state_local with CurrentTime := 9 } ∧
    (ms_stats { Sample.state_local with CurrentTime := 9 } Sample.remy 2 ["STATS", "u"]).1 =
      { Sample.state_local with CurrentTime := 9 } ∧
    (ms_stats { Sample.state_local with CurrentTime := 9 } Sample.remy 2 ["STATS", "u"]).2 =
      Effect.hunt_server 4 hunt_command 2 2 ["STATS", "u"] ::
        do_stats { Sample.state_local with CurrentTime := 9 } Sample.remy 2 ["STATS", "u"] :=
  ⟨by decide,
   (ms_stats_not_paced { Sample.state_local with CurrentTime := 9 } Sample.remy 2
      ["STATS", "u"]).1,
   (ms_stats_not_paced { Sample.state_local with CurrentTime := 9 } Sample.remy 2
      ["STATS", "u"]).2.2.1⟩

/-! ## Claims on the connection list -/

/-- A loop whose body sends one line for the elements that pass a test and
nothing for the others sends the lines of the elements that pass, in order. -/
theorem DLINK_FOREACH_filter_map {α : Type} (p : α → Prop) [DecidablePred p] (f : α → Effect)
    (body : α → List Effect) (h : ∀ x, body x = if p x then [f x] else []) (list : List α) :
    DLINK_FOREACH list body = (list.filter (fun x => decide (p x))).map f := by
  induction list with
  | nil => rfl
  | cons x rest ih =>
    rw [DLINK_FOREACH, ih, h x]
    by_cases hx : p x
    · simp [hx]
    · simp [hx]

/-- The first skip test of `stats_L_list` is the invisibility rule. -/
theorem hidden_by_invisibility_iff (source_p : Client) (doall wilds : Int)
    (target_p : Client) :
    (HasUMode target_p UMODE_INVISIBLE && (doall != 0 || wilds != 0) &&
      !(MyConnect source_p && HasUMode source_p UMODE_OPER) &&
      !HasUMode target_p UMODE_OPER && (target_p.addr != source_p.addr)) = true ↔
    hidden_by_invisibility source_p doall wilds target_p := by
  unfold hidden_by_invisibility
  cases HasUMode target_p UMODE_INVISIBLE <;> cases MyConnect source_p <;>
    cases HasUMode source_p UMODE_OPER <;> cases HasUMode target_p UMODE_OPER <;>
    simp

/-- The second and third skip tests of `stats_L_list` both fail iff the query
selects the connection. -/
theorem selected_by_query_iff (st : State) (name : String) (doall wilds : Int)
    (target_p : Client) :
    ((doall = 0 && wilds != 0 && st.ext.match_ name target_p.name != 0) = false ∧
      (!(doall != 0 || wilds != 0) && st.ext.irccmp name target_p.name != 0) = false) ↔
    selected_by_query st name doall wilds target_p := by
  unfold selected_by_query
  by_cases hd : doall = 0 <;> by_cases hw : wilds = 0 <;> simp [hd, hw]

/-- The three-way branch of `stats_L_list` sends the one line with the mode
`L_mode`. -/
theorem L_line_mode (st : State) (source_p : Client) (statchar : Char) (target_p : Client) :
    L_line st source_p target_p (L_mode source_p statchar target_p) =
      if MyConnect source_p && HasUMode source_p UMODE_OPER &&
          (HasUMode source_p UMODE_ADMIN ||
            (!IsServer target_p && !HasUMode target_p UMODE_ADMIN &&
              !IsHandshake target_p && !IsConnecting target_p)) then
        L_line st source_p target_p (if IsUpper statchar then ShowIP.SHOW_IP else ShowIP.HIDE_IP)
      else if IsServer target_p || IsHandshake target_p || IsConnecting target_p then
        L_line st source_p target_p ShowIP.MASK_IP
      else
        L_line st source_p target_p
          (if IsUpper statchar then ShowIP.SHOW_IP else ShowIP.HIDE_IP) := by
  unfold L_mode
  split
  · rfl
  · split <;> rfl

/-- The loop body of `stats_L_list`: one line, with the mode of the three-way
branch, iff the connection is rendered. -/
theorem stats_L_entry_eq (st : State) (source_p : Client) (name : String) (doall wilds : Int)
    (statchar : Char) (target_p : Client) :
    stats_L_entry st source_p name doall wilds statchar target_p =
      if rendered st source_p name doall wilds target_p then
        [L_line st source_p target_p (L_mode source_p statchar target_p)]
      else [] := by
  have hh := hidden_by_invisibility_iff source_p doall wilds target_p
  have hs := selected_by_query_iff st name doall wilds target_p
  unfold stats_L_entry
  dsimp only
  split
  next h1 =>
    rw [if_neg]
    exact fun hr => hr.1 (hh.mp h1)
  next h1 =>
    split
    next h2 =>
      rw [if_neg]
      intro hr
      have := (hs.mpr hr.2).1
      rw [h2] at this
      cases this
    next h2 =>
      split
      next h3 =>
        rw [if_neg]
        intro hr
        have := (hs.mpr hr.2).2
        rw [h3] at this
        cases this
      next h3 =>
        have hr : rendered st source_p name doall wilds target_p :=
          ⟨fun h => h1 (hh.mpr h), hs.mp ⟨by simpa using h2, by simpa using h3⟩⟩
        rw [if_pos hr, L_line_mode]
        split
        · rfl
        · split <;> rfl

/-- What `stats_L_list` sends for one list: the lines of its rendered
connections, in list order. -/
theorem stats_L_list_eq (st : State) (source_p : Client) (name : String) (doall wilds : Int)
    (list : List Client) (statchar : Char) :
    stats_L_list st source_p name doall wilds list statchar =
      (list.filter (fun t => decide (rendered st source_p name doall wilds t))).map
        (fun t => L_line st source_p t (L_mode source_p statchar t)) := by
  unfold stats_L_list
  exact DLINK_FOREACH_filter_map _ _ _
    (fun t => stats_L_entry_eq st source_p name doall wilds statchar t) list

/-- C11: in `stats_L_list`, a target that the invisibility rule hides (it is
invisible, the query is match-all or has a wildcard, the requester is not a
directly connected operator, the target is not the requester and not an
operator) produces no line: the loop body sends nothing for it, dropping the
hidden targets from the list does not change the output, and every line of the
output is the line of a target of the list that the rule does not hide. -/
theorem stats_L_list_invisible (st : State) (source_p : Client) (name : String)
    (doall wilds : Int) (list : List Client) (statchar : Char) :
    (∀ target_p : Client, hidden_by_invisibility source_p doall wilds target_p →
      stats_L_entry st source_p name doall wilds statchar target_p = []) ∧
    stats_L_list st source_p name doall wilds list statchar =
      stats_L_list st source_p name doall wilds
        (list.filter fun t => decide (¬ hidden_by_invisibility source_p doall wilds t))
        statchar ∧
    ∀ e ∈ stats_L_list st source_p name doall wilds list statchar,
      ∃ t ∈ list, ¬ hidden_by_invisibility source_p doall wilds t ∧
        e = L_line st source_p t (L_mode source_p statchar t) := by
  refine ⟨?_, ?_, ?_⟩
  · intro target_p hh
    rw [stats_L_entry_eq, if_neg]
    exact fun hr => hr.1 hh
  · rw [stats_L_list_eq, stats_L_list_eq, List.filter_filter]
    congr 1
    apply List.filter_congr
    intro t _
    unfold rendered
    by_cases hh : hidden_by_invisibility source_p doall wilds t <;> simp [hh]
  · intro e he
    rw [stats_L_list_eq, List.mem_map] at he
    obtain ⟨t, ht, rfl⟩ := he
    rw [List.mem_filter] at ht
    exact ⟨t, ht.1, (of_decide_eq_true ht.2).1, rfl⟩

/-- C11 at a concrete input: a requester without privileges, the match-all
query, and an invisible user without privileges. -/
theorem stats_L_list_invisible_witness :
    HasUMode Sample.remy UMODE_OPER = false ∧
    HasUMode Sample.alice UMODE_INVISIBLE = true ∧
    stats_L_entry Sample.state Sample.remy "irc.example" 2 0 'L' Sample.alice = [] ∧
    stats_L_list Sample.state Sample.remy "irc.example" 2 0 [Sample.alice, Sample.oscar] 'L' =
      [L_line Sample.state Sample.remy Sample.oscar ShowIP.SHOW_IP] :=
  ⟨by decide, by decide,
   (stats_L_list_invisible Sample.state Sample.remy "irc.example" 2 0 [] 'L').1
     Sample.alice (by decide),
   ((stats_L_list_invisible Sample.state Sample.remy "irc.example" 2 0
      [Sample.alice, Sample.oscar] 'L').2.1).trans (by decide)⟩

/-- C12: `stats_L` sends exactly one line for each rendered connection (not
hidden by the invisibility rule, and match-all, or wildcard mask matching the
name, or plain mask equal to the name up to case) and none for the others, in
list order, the unknown connections first, then the local clients, then the
local servers. -/
theorem stats_L_rendered (st : State) (source_p : Client) (name : String)
    (doall wilds : Int) (statchar : Char) :
    stats_L st source_p name doall wilds statchar =
      ((st.unknown_list ++ st.local_client_list ++ st.local_server_list).filter
        (fun t => decide (rendered st source_p name doall wilds t))).map
        (fun t => L_line st source_p t (L_mode source_p statchar t)) ∧
    (∀ target_p : Client, rendered st source_p name doall wilds target_p ↔
      ¬ hidden_by_invisibility source_p doall wilds target_p ∧
        (doall ≠ 0 ∨ (wilds ≠ 0 ∧ st.ext.match_ name target_p.name = 0) ∨
          (wilds = 0 ∧ st.ext.irccmp name target_p.name = 0))) ∧
    ∀ target_p : Client,
      stats_L_entry st source_p name doall wilds statchar target_p =
        if rendered st source_p name doall wilds target_p then
          [L_line st source_p target_p (L_mode source_p statchar target_p)]
        else [] := by
  refine ⟨?_, fun _ => Iff.rfl, fun t => stats_L_entry_eq st source_p name doall wilds statchar t⟩
  unfold stats_L
  rw [stats_L_list_eq, stats_L_list_eq, stats_L_list_eq, List.filter_append,
    List.filter_append, List.map_append, List.map_append]

/-- C13, refuted as stated: with the letter `L` a directly connected operator
who is not an administrator is shown the real address of a user, and so is an
operator on another server; with the letter `l` a directly connected
administrator gets the partially redacted form. -/
theorem stats_L_address_not_by_privilege :
    (local_oper Sample.oscar ∧ HasUMode Sample.oscar UMODE_ADMIN = false ∧
      stats_L_entry Sample.state Sample.oscar "alice" 0 0 'L' Sample.alice =
        [L_line Sample.state Sample.oscar Sample.alice ShowIP.SHOW_IP]) ∧
    (¬ local_oper Sample.olga ∧
      stats_L_entry Sample.state Sample.olga "alice" 0 0 'L' Sample.alice =
        [L_line Sample.state Sample.olga Sample.alice ShowIP.SHOW_IP]) ∧
    (local_oper Sample.adam ∧ HasUMode Sample.adam UMODE_ADMIN = true ∧
      stats_L_entry Sample.state Sample.adam "alice" 0 0 'l' Sample.alice =
        [L_line Sample.state Sample.adam Sample.alice ShowIP.HIDE_IP]) := by
  decide

/-- C13, amended: a rendered connection gets one line whose address mode is
`L_mode`. A server, handshaking or connecting peer is masked (`MASK_IP`)
unless the requester is a directly connected operator with administrator
status. Every other connection, and every connection shown to such an
administrator, gets `SHOW_IP` when the category letter is upper case and
`HIDE_IP` when it is lower case, whatever the privileges of the requester. -/
theorem stats_L_address_mode (st : State) (source_p : Client) (name : String)
    (doall wilds : Int) (statchar : Char) (target_p : Client)
    (hr : rendered st source_p name doall wilds target_p) :
    stats_L_entry st source_p name doall wilds statchar target_p =
      [L_line st source_p target_p (L_mode source_p statchar target_p)] ∧
    (is_peer target_p → ¬ (local_oper source_p ∧ HasUMode source_p UMODE_ADMIN = true) →
      L_mode source_p statchar target_p = ShowIP.MASK_IP) ∧
    (¬ is_peer target_p →
      L_mode source_p statchar target_p =
        if IsUpper statchar then ShowIP.SHOW_IP else ShowIP.HIDE_IP) ∧
    (local_oper source_p → HasUMode source_p UMODE_ADMIN = true →
      L_mode source_p statchar target_p =
        if IsUpper statchar then ShowIP.SHOW_IP else ShowIP.HIDE_IP) := by
  refine ⟨by rw [stats_L_entry_eq, if_pos hr], ?_, ?_, ?_⟩
  · unfold is_peer local_oper L_mode
    cases MyConnect source_p <;> cases HasUMode source_p UMODE_OPER <;>
      cases HasUMode source_p UMODE_ADMIN <;> cases IsServer target_p <;>
      cases IsHandshake target_p <;> cases IsConnecting target_p <;> simp
  · unfold is_peer L_mode
    cases IsServer target_p <;> cases IsHandshake target_p <;>
      cases IsConnecting target_p <;> simp
  · unfold local_oper L_mode
    intro hl ha
    simp [hl.1, hl.2, ha]

/-- C13 amended, at a concrete input: an operator on this server lists all
connections with the letter `L`; the linked server is masked for him. -/
theorem stats_L_address_mode_witness :
    stats_L_entry Sample.state Sample.oscar "*" 1 1 'L' Sample.hub =
      [L_line Sample.state Sample.oscar Sample.hub ShowIP.MASK_IP] :=
  (((stats_L_address_mode Sample.state Sample.oscar "*" 1 1 'L' Sample.hub
      (by decide)).1).trans (by decide))

/-! ## Claims on the memory report -/

/-- Every figure of `memory_figures` is a number `stats_memory` prints. -/
theorem memory_figures_printed (st : State) (source_p : Client) (parc : Nat)
    (parv : List String) :
    ∀ p ∈ memory_figures st, p.2 ∈ printed_numbers (stats_memory st source_p parc parv) := by
  intro p hp
  simp only [memory_figures, List.mem_cons, List.mem_singleton, List.not_mem_nil, or_false] at hp
  rcases hp with h | h | h | h | h | h | h | h | h | h | h | h | h | h | h | h | h | h | h | h <;>
    subst h <;> simp [printed_numbers, stats_memory, debug]

/-- The grand total is, modulo `2^64`, the sum of the figures of the counted
categories. -/
theorem total_memory_eq (st : State) :
    (stats_memory_vars st).total_memory =
      size_t (((memory_figures st).filter fun p => decide (p.1 ∈ counted_categories)).map
        Prod.snd).sum := by
  simp only [memory_figures, counted_categories, stats_memory_vars, List.filter, List.map,
    List.sum_cons, List.sum_nil, List.mem_cons, List.mem_singleton, List.not_mem_nil,
    decide_eq_true_eq, String.reduceEq, or_false, or_true, true_or, false_or, decide_True,
    decide_False]
  unfold size_t
  omega

/-- C14, refuted as stated: on the sample server the grand total is 9368 while
the printed memory figures add up to 12748; the figures for watch entries,
clients, attached confs, listeners and iphash are printed but not added. -/
theorem total_memory_not_sum_of_all_figures :
    (stats_memory_vars Sample.state).total_memory = 9368 ∧
    ((memory_figures Sample.state).map Prod.snd).sum = 12748 ∧
    (stats_memory_vars Sample.state).total_memory ≠
      ((memory_figures Sample.state).map Prod.snd).sum := by
  decide

/-- C14, amended: the figures of `memory_figures` are numbers that
`stats_memory` prints, and its grand total is, in `size_t` arithmetic, the sum
of the figures of nine categories only, each counted once: classes, channels,
bans, channel members, channel invites, whowas users, whowas array, local
clients and remote clients. -/
theorem total_memory_sum_of_counted (st : State) (source_p : Client) (parc : Nat)
    (parv : List String) :
    (∀ p ∈ memory_figures st, p.2 ∈ printed_numbers (stats_memory st source_p parc parv)) ∧
    (stats_memory_vars st).total_memory =
      size_t (((memory_figures st).filter fun p => decide (p.1 ∈ counted_categories)).map
        Prod.snd).sum ∧
    counted_categories =
      ["Classes", "Channels", "Bans", "Channel members", "Channel invites", "Whowas users",
       "Whowas array", "Local clients", "Remote clients"] ∧
    ((memory_figures st).map Prod.fst).Nodup ∧
    (stats_memory_vars st).total_memory ∈
      printed_numbers (stats_memory st source_p parc parv) := by
  refine ⟨memory_figures_printed st source_p parc parv, total_memory_eq st, rfl, ?_, ?_⟩
  · simp only [memory_figures, List.map]
    decide
  · simp [printed_numbers, stats_memory, debug]

theorem count_clients_cons (target_p : Client) (rest : List Client) (c : ClientCounts) :
    count_clients (target_p :: rest) c = count_clients rest (count_client target_p c) := by
  rw [count_clients]
  rfl

/-- One round of the loop over the global client list adds one to the local
counter for a directly connected client and one to the remote counter for any
other client. -/
theorem count_client_counts (target_p : Client) (c : ClientCounts) :
    (count_client target_p c).local_client_count =
      (if MyConnect target_p then u32 (c.local_client_count + 1)
       else c.local_client_count) ∧
    (count_client target_p c).remote_client_count =
      (if MyConnect target_p then c.remote_client_count
       else u32 (c.remote_client_count + 1)) := by
  unfold count_client
  cases MyConnect target_p <;> cases IsClient target_p <;>
    cases (deref target_p.away != NUL) <;> exact ⟨rfl, rfl⟩

/-- The loop over the global client list counts every directly connected
client as local and every other client as remote, as long as the counters do
not wrap around. -/
theorem count_clients_counts (list : List Client) (c : ClientCounts)
    (hl : c.local_client_count + (list.filter fun t => MyConnect t).length < 2 ^ 32)
    (hr : c.remote_client_count + (list.filter fun t => !MyConnect t).length < 2 ^ 32) :
    (count_clients list c).local_client_count =
      c.local_client_count + (list.filter fun t => MyConnect t).length ∧
    (count_clients list c).remote_client_count =
      c.remote_client_count + (list.filter fun t => !MyConnect t).length := by
  induction list generalizing c with
  | nil => simp [count_clients]
  | cons target_p rest ih =>
    obtain ⟨h1, h2⟩ := count_client_counts target_p c
    rw [count_clients_cons]
    cases hm : MyConnect target_p
    · simp only [hm, List.filter_cons, Bool.false_eq_true, if_false, Bool.not_false, if_true,
        List.length_cons] at hl hr h1 h2 ⊢
      have hu : u32 (c.remote_client_count + 1) = c.remote_client_count + 1 :=
        Nat.mod_eq_of_lt (by omega)
      rw [hu] at h2
      have := ih (count_client target_p c) (by omega) (by omega)
      omega
    · simp only [hm, List.filter_cons, Bool.false_eq_true, if_false, Bool.not_true, if_true,
        List.length_cons] at hl hr h1 h2 ⊢
      have hu : u32 (c.local_client_count + 1) = c.local_client_count + 1 :=
        Nat.mod_eq_of_lt (by omega)
      rw [hu] at h1
      have := ih (count_client target_p c) (by omega) (by omega)
      omega

/-- Without overflow the grand total is the plain sum. -/
theorem total_memory_raw (st : State) (h : memory_no_overflow st) :
    (stats_memory_vars st).total_memory = raw_total_memory st := by
  obtain ⟨_, hc, hraw⟩ := h
  unfold raw_total_memory at hraw ⊢
  simp only [stats_memory_vars] at hraw ⊢
  unfold size_t
  generalize count_clients st.global_client_list _ = cl at hraw ⊢
  generalize count_channels st.sizes st.channel_list _ = ch at hraw ⊢
  generalize st.whowas_count_memory.1 * st.sizes.sizeof_Client = a at hraw ⊢
  generalize dlink_list_length st.channel_list * st.sizes.sizeof_Channel = b at hraw ⊢
  generalize ch.channel_members * st.sizes.sizeof_Membership = d at hraw ⊢
  generalize ch.channel_invites * st.sizes.sizeof_dlink_node * 2 = e at hraw ⊢
  generalize dlink_list_length st.class_list * st.sizes.sizeof_ClassItem = f at hraw ⊢
  generalize cl.local_client_count * (st.sizes.sizeof_Client + st.sizes.sizeof_Connection) = g
    at hraw ⊢
  generalize cl.remote_client_count * st.sizes.sizeof_Client = k at hraw ⊢
  omega

/-- C15: when the arithmetic does not overflow, every client of the global
list is counted exactly once, as local when it is directly connected and as
remote otherwise, and the grand total of `stats_memory` is at least
`n * sizeof(struct Client) + m * sizeof(struct Channel)` for `n` clients in the
global list and `m` channels. -/
theorem total_memory_lower_bound (st : State) (h : memory_no_overflow st) :
    (stats_memory_vars st).clients.local_client_count =
      (st.global_client_list.filter fun t => MyConnect t).length ∧
    (stats_memory_vars st).clients.remote_client_count =
      (st.global_client_list.filter fun t => !MyConnect t).length ∧
    (stats_memory_vars st).clients.local_client_count +
      (stats_memory_vars st).clients.remote_client_count = st.global_client_list.length ∧
    st.global_client_list.length * st.sizes.sizeof_Client +
      st.channel_list.length * st.sizes.sizeof_Channel ≤
      (stats_memory_vars st).total_memory := by
  have hsum := List.length_eq_length_filter_add (l := st.global_client_list)
    (fun t => MyConnect t)
  have hcount := count_clients_counts st.global_client_list
    { local_client_count := 0, local_client_conf_count := 0, watch_list_entries := 0,
      remote_client_count := 0, users_counted := 0, aways_counted := 0 }
    (by have := h.1; dsimp only; omega) (by have := h.1; dsimp only; omega)
  dsimp only at hcount
  have hl : (stats_memory_vars st).clients.local_client_count =
      (st.global_client_list.filter fun t => MyConnect t).length := by
    rw [← Nat.zero_add (List.length _)]
    exact hcount.1
  have hr : (stats_memory_vars st).clients.remote_client_count =
      (st.global_client_list.filter fun t => !MyConnect t).length := by
    rw [← Nat.zero_add (List.length _)]
    exact hcount.2
  refine ⟨hl, hr, by omega, ?_⟩
  rw [total_memory_raw st h]
  unfold raw_total_memory
  dsimp only
  have hm : dlink_list_length st.channel_list = st.channel_list.length :=
    Nat.mod_eq_of_lt h.2.1
  rw [hm, hl, hr, hsum, Nat.add_mul, Nat.mul_add]
  omega

/-- C15 at a concrete input: ten end-user connections and two channels. -/
theorem total_memory_lower_bound_witness :
    Sample.state_ten.global_client_list.length = 10 ∧
    Sample.state_ten.channel_list.length = 2 ∧
    10 * Sample.state_ten.sizes.sizeof_Client + 2 * Sample.state_ten.sizes.sizeof_Channel ≤
      (stats_memory_vars Sample.state_ten).total_memory :=
  ⟨by decide, by decide,
   (total_memory_lower_bound Sample.state_ten (by decide)).2.2.2⟩

/-- C16, what the code does: the last line of `stats_memory` has the format
`z :TOTAL: %zu`, which has one conversion, and four arguments after it:
`me.name`, `RPL_STATSDEBUG`, the name of the requester and `total_memory`. The
conversion consumes the first of them, `me.name`; `total_memory` is the fourth
and is not formatted. -/
theorem stats_memory_total_line (st : State) (source_p : Client) (parc : Nat)
    (parv : List String) :
    (stats_memory st source_p parc parv).getLast? =
      some (Effect.sendto_one_numeric source_p.addr Numeric.RPL_STATSDEBUG true
        [Arg.str "z :TOTAL: %zu", Arg.str st.me.name, Arg.num RPL_STATSDEBUG_value,
         Arg.str source_p.name, Arg.num (stats_memory_vars st).total_memory]) ∧
    count_conversions "z :TOTAL: %zu".data = 1 ∧
    formatted_args (Effect.sendto_one_numeric source_p.addr Numeric.RPL_STATSDEBUG true
        [Arg.str "z :TOTAL: %zu", Arg.str st.me.name, Arg.num RPL_STATSDEBUG_value,
         Arg.str source_p.name, Arg.num (stats_memory_vars st).total_memory]) =
      [Arg.str st.me.name] ∧
    formatted_args (Effect.sendto_one_numeric source_p.addr Numeric.RPL_STATSDEBUG true
        [Arg.str "z :TOTAL: %zu", Arg.str st.me.name, Arg.num RPL_STATSDEBUG_value,
         Arg.str source_p.name, Arg.num (stats_memory_vars st).total_memory]) ≠
      [Arg.num (stats_memory_vars st).total_memory] := by
  have hc : count_conversions "z :TOTAL: %zu".data = 1 := by decide
  have hf : formatted_args (Effect.sendto_one_numeric source_p.addr Numeric.RPL_STATSDEBUG true
        [Arg.str "z :TOTAL: %zu", Arg.str st.me.name, Arg.num RPL_STATSDEBUG_value,
         Arg.str source_p.name, Arg.num (stats_memory_vars st).total_memory]) =
      [Arg.str st.me.name] := by
    show List.take (count_conversions "z :TOTAL: %zu".data) _ = _
    rw [hc]
    rfl
  refine ⟨?_, hc, hf, ?_⟩
  · unfold stats_memory
    dsimp only
    rw [List.getLast?_append]
    rfl
  · rw [hf]
    simp

/-- C16 at a concrete input: the operator `oscar` asks for category `z` on the
sample server. The grand total is 9368; the conversion of the last line is fed
the server name. -/
theorem stats_memory_total_line_witness :
    (stats_memory Sample.state Sample.oscar 2 ["STATS", "z"]).getLast? =
      some (Effect.sendto_one_numeric 2 Numeric.RPL_STATSDEBUG true
        [Arg.str "z :TOTAL: %zu", Arg.str "irc.example", Arg.num 249, Arg.str "oscar",
         Arg.num 9368]) ∧
    formatted_args (Effect.sendto_one_numeric 2 Numeric.RPL_STATSDEBUG true
        [Arg.str "z :TOTAL: %zu", Arg.str "irc.example", Arg.num 249, Arg.str "oscar",
         Arg.num 9368]) = [Arg.str "irc.example"] :=
  ⟨((stats_memory_total_line Sample.state Sample.oscar 2 ["STATS", "z"]).1).trans (by decide),
   by decide⟩

/-- The sibling lines of `stats_memory` pass exactly the arguments their
formats consume: on the sample server every line but the last has as many
arguments after the format as the format has conversions. -/
theorem stats_memory_sibling_lines :
    ∀ e ∈ (stats_memory Sample.state Sample.oscar 2 ["STATS", "z"]).dropLast,
      formatted_args e = args_after_format e := by
  decide

/-! ## Claims on the configuration reports -/

/-- A loop whose body sends one line for every element sends the lines of the
elements, in order. -/
theorem DLINK_FOREACH_map {α : Type} (f : α → Effect) (body : α → List Effect)
    (h : ∀ x, body x = [f x]) (list : List α) : DLINK_FOREACH list body = list.map f := by
  induction list with
  | nil => rfl
  | cons x rest ih =>
    rw [DLINK_FOREACH, ih, h x]
    rfl

/-- The loop over the address table visits the entries bucket after bucket. -/
theorem ATABLE_FOREACH_flatten (atable : List (List AddressRec))
    (body : AddressRec → List Effect) :
    ATABLE_FOREACH atable body = DLINK_FOREACH atable.flatten body := by
  have happ : ∀ a b : List AddressRec,
      DLINK_FOREACH (a ++ b) body = DLINK_FOREACH a body ++ DLINK_FOREACH b body := by
    intro a b
    induction a with
    | nil => rfl
    | cons x rest ih => rw [List.cons_append, DLINK_FOREACH, DLINK_FOREACH, ih, List.append_assoc]
  induction atable with
  | nil => rfl
  | cons bucket rest ih => rw [ATABLE_FOREACH, ih, List.flatten_cons, happ]

/-- What the server-link report sends: one line per entry, in list order, with
the real host for an administrator when address hiding is off and with the
placeholder otherwise. -/
theorem report_server_links (st : State) (source_p : Client) :
    report_confitem_types st source_p maskitem_type.CONF_SERVER =
      st.server_items.map fun conf =>
        server_link_line source_p conf
          (if HasUMode source_p UMODE_ADMIN = true ∧
              st.ConfigServerHide.hide_server_ips = false then conf.host
           else "*@127.0.0.1") := by
  unfold report_confitem_types
  dsimp only
  apply DLINK_FOREACH_map
  intro conf
  cases HasUMode source_p UMODE_ADMIN <;> cases st.ConfigServerHide.hide_server_ips <;> rfl

/-- C17: the server-link report (`report_confitem_types` with `CONF_SERVER`)
sends one line per entry whose host field is the real host of the entry when
the requester is an administrator and `hide_server_ips` is off, and the
placeholder `*@127.0.0.1` in every other case; in particular with
`hide_server_ips` on and a requester who is not an administrator every host
field is the placeholder. -/
theorem server_link_host_field (st : State) (source_p : Client) :
    report_confitem_types st source_p maskitem_type.CONF_SERVER =
      (st.server_items.map fun conf =>
        server_link_line source_p conf
          (if HasUMode source_p UMODE_ADMIN = true ∧
              st.ConfigServerHide.hide_server_ips = false then conf.host
           else "*@127.0.0.1")) ∧
    (∀ conf host, server_link_line source_p conf host =
      Effect.sendto_one_numeric source_p.addr Numeric.RPL_STATSCLINE false
        [Arg.chr 'C', Arg.str host, Arg.str (String.mk (server_flags_buf conf)),
         Arg.str (conf.name.getD ""), Arg.num conf.port, Arg.str conf.class_name]) ∧
    (st.ConfigServerHide.hide_server_ips = true → HasUMode source_p UMODE_ADMIN = false →
      report_confitem_types st source_p maskitem_type.CONF_SERVER =
        st.server_items.map fun conf => server_link_line source_p conf "*@127.0.0.1") := by
  refine ⟨report_server_links st source_p, fun _ _ => rfl, ?_⟩
  intro hh ha
  rw [report_server_links]
  simp [hh, ha]

/-- C17 at a concrete input: an operator who is not an administrator, then an
administrator with address hiding off. -/
theorem server_link_host_field_witness :
    report_confitem_types Sample.state Sample.oscar maskitem_type.CONF_SERVER =
      [server_link_line Sample.oscar Sample.link "*@127.0.0.1"] ∧
    report_confitem_types Sample.state_open Sample.adam maskitem_type.CONF_SERVER =
      [server_link_line Sample.adam Sample.link "198.51.100.1"] :=
  ⟨(server_link_host_field Sample.state Sample.oscar).2.2 (by decide) (by decide),
   ((server_link_host_field Sample.state_open Sample.adam).1).trans (by decide)⟩

/-- C18, refuted as stated: with `hide_server_ips` on, a directly connected
administrator is shown the placeholder, not the real host of the entry. -/
theorem server_link_hidden_from_local_admin :
    MyConnect Sample.adam = true ∧ HasUMode Sample.adam UMODE_ADMIN = true ∧
    Sample.state.ConfigServerHide.hide_server_ips = true ∧
    Sample.link.host = "198.51.100.1" ∧
    report_confitem_types Sample.state Sample.adam maskitem_type.CONF_SERVER =
      [server_link_line Sample.adam Sample.link "*@127.0.0.1"] := by
  decide

/-- C18, amended: whenever the requester is an administrator, directly
connected or not, and `hide_server_ips` is off, every entry of the server-link
report is shown with its real host; with `hide_server_ips` on every entry is
shown with the placeholder, to a directly connected administrator too. -/
theorem server_link_real_host_for_admin (st : State) (source_p : Client) :
    (HasUMode source_p UMODE_ADMIN = true → st.ConfigServerHide.hide_server_ips = false →
      report_confitem_types st source_p maskitem_type.CONF_SERVER =
        st.server_items.map fun conf => server_link_line source_p conf conf.host) ∧
    (st.ConfigServerHide.hide_server_ips = true →
      report_confitem_types st source_p maskitem_type.CONF_SERVER =
        st.server_items.map fun conf => server_link_line source_p conf "*@127.0.0.1") := by
  constructor
  · intro ha hh
    rw [report_server_links]
    simp [hh, ha]
  · intro hh
    rw [report_server_links]
    simp [hh]

/-- C18 amended, at a concrete input: a directly connected administrator with
address hiding off. -/
theorem server_link_real_host_for_admin_witness :
    report_confitem_types Sample.state_open Sample.adam maskitem_type.CONF_SERVER =
      [server_link_line Sample.adam Sample.link Sample.link.host] :=
  (server_link_real_host_for_admin Sample.state_open Sample.adam).1 (by decide) (by decide)

/-- A loop over the address table whose body sends one line for the entries
that pass a test and nothing for the others sends the lines of the entries
that pass, in table order. -/
theorem ATABLE_FOREACH_filter_map (st : State) (p : AddressRec → Prop) [DecidablePred p]
    (f : AddressRec → Effect) (body : AddressRec → List Effect)
    (h : ∀ x, body x = if p x then [f x] else []) :
    ATABLE_FOREACH st.atable body =
      ((atable_entries st).filter (fun x => decide (p x))).map f := by
  rw [ATABLE_FOREACH_flatten]
  exact DLINK_FOREACH_filter_map p f body h _

/-- What `report_Klines` sends for a non-zero `tkline`: the temporary K-lines. -/
theorem report_Klines_temporary (st : State) (source_p : Client) (tkline : Nat)
    (ht : tkline ≠ 0) :
    report_Klines st source_p tkline =
      ((atable_entries st).filter fun a =>
        decide (a.type = maskitem_type.CONF_KLINE ∧ a.conf.until_ ≠ 0)).map
        fun a => kline_line source_p 'k' a.conf := by
  unfold report_Klines
  dsimp only
  apply ATABLE_FOREACH_filter_map st
    (fun a => a.type = maskitem_type.CONF_KLINE ∧ a.conf.until_ ≠ 0)
  intro a
  by_cases hty : a.type = maskitem_type.CONF_KLINE <;> by_cases hu : a.conf.until_ = 0 <;>
    simp [hty, hu, ht, kline_line]

/-- What `report_Klines` sends for `tkline` zero: the permanent K-lines. -/
theorem report_Klines_permanent (st : State) (source_p : Client) :
    report_Klines st source_p 0 =
      ((atable_entries st).filter fun a =>
        decide (a.type = maskitem_type.CONF_KLINE ∧ a.conf.until_ = 0)).map
        fun a => kline_line source_p 'K' a.conf := by
  unfold report_Klines
  dsimp only
  apply ATABLE_FOREACH_filter_map st
    (fun a => a.type = maskitem_type.CONF_KLINE ∧ a.conf.until_ = 0)
  intro a
  by_cases hty : a.type = maskitem_type.CONF_KLINE <;> by_cases hu : a.conf.until_ = 0 <;>
    simp [hty, hu, kline_line]

/-- The entries of one type split into those with and those without an expiry
time. -/
theorem split_by_expiry (list : List AddressRec) (type : maskitem_type) :
    (list.filter fun a => decide (a.type = type)).length =
      (list.filter fun a => decide (a.type = type ∧ a.conf.until_ ≠ 0)).length +
      (list.filter fun a => decide (a.type = type ∧ a.conf.until_ = 0)).length := by
  induction list with
  | nil => rfl
  | cons a rest ih =>
    by_cases hty : a.type = type <;> by_cases hu : a.conf.until_ = 0 <;>
      simp [List.filter_cons, hty, hu, ih] <;> omega

/-- C19: for an operator, the reports `k` and `K` are `report_Klines(1)` and
`report_Klines(0)`. The first renders, with the marker `k`, exactly the
`CONF_KLINE` entries of the address table whose `until` is non-zero, the second,
with the marker `K`, exactly those whose `until` is zero; `stats_tdeny` and
`stats_deny` do the same for the `CONF_DLINE` entries with the markers `d` and
`D`. So every K-line and every D-line is in exactly one of its two reports, and
entries of other types are in none. -/
theorem temporary_permanent_split (st : State) (source_p : Client) (parc : Nat)
    (parv : List String) (hop : HasUMode source_p UMODE_OPER = true) :
    stats_tklines st source_p parc parv = report_Klines st source_p 1 ∧
    stats_klines st source_p parc parv = report_Klines st source_p 0 ∧
    report_Klines st source_p 1 =
      ((atable_entries st).filter fun a =>
        decide (a.type = maskitem_type.CONF_KLINE ∧ a.conf.until_ ≠ 0)).map
        (fun a => kline_line source_p 'k' a.conf) ∧
    report_Klines st source_p 0 =
      ((atable_entries st).filter fun a =>
        decide (a.type = maskitem_type.CONF_KLINE ∧ a.conf.until_ = 0)).map
        (fun a => kline_line source_p 'K' a.conf) ∧
    stats_tdeny st source_p parc parv =
      ((atable_entries st).filter fun a =>
        decide (a.type = maskitem_type.CONF_DLINE ∧ a.conf.until_ ≠ 0)).map
        (fun a => dline_line source_p 'd' a.conf) ∧
    stats_deny st source_p parc parv =
      ((atable_entries st).filter fun a =>
        decide (a.type = maskitem_type.CONF_DLINE ∧ a.conf.until_ = 0)).map
        (fun a => dline_line source_p 'D' a.conf) ∧
    (report_Klines st source_p 1).length + (report_Klines st source_p 0).length =
      ((atable_entries st).filter fun a =>
        decide (a.type = maskitem_type.CONF_KLINE)).length ∧
    (stats_tdeny st source_p parc parv).length + (stats_deny st source_p parc parv).length =
      ((atable_entries st).filter fun a =>
        decide (a.type = maskitem_type.CONF_DLINE)).length := by
  have hd1 : stats_tdeny st source_p parc parv =
      ((atable_entries st).filter fun a =>
        decide (a.type = maskitem_type.CONF_DLINE ∧ a.conf.until_ ≠ 0)).map
        (fun a => dline_line source_p 'd' a.conf) := by
    unfold stats_tdeny
    apply ATABLE_FOREACH_filter_map st
      (fun a => a.type = maskitem_type.CONF_DLINE ∧ a.conf.until_ ≠ 0)
    intro a
    by_cases hty : a.type = maskitem_type.CONF_DLINE <;> by_cases hu : a.conf.until_ = 0 <;>
      simp [hty, hu, dline_line]
  have hd0 : stats_deny st source_p parc parv =
      ((atable_entries st).filter fun a =>
        decide (a.type = maskitem_type.CONF_DLINE ∧ a.conf.until_ = 0)).map
        (fun a => dline_line source_p 'D' a.conf) := by
    unfold stats_deny
    apply ATABLE_FOREACH_filter_map st
      (fun a => a.type = maskitem_type.CONF_DLINE ∧ a.conf.until_ = 0)
    intro a
    by_cases hty : a.type = maskitem_type.CONF_DLINE <;> by_cases hu : a.conf.until_ = 0 <;>
      simp [hty, hu, dline_line]
  refine ⟨?_, ?_, report_Klines_temporary st source_p 1 (by decide),
    report_Klines_permanent st source_p, hd1, hd0, ?_, ?_⟩
  · unfold stats_tklines
    simp [hop]
  · unfold stats_klines
    simp [hop]
  · rw [report_Klines_temporary st source_p 1 (by decide), report_Klines_permanent,
      List.length_map, List.length_map]
    exact (split_by_expiry (atable_entries st) maskitem_type.CONF_KLINE).symm
  · rw [hd1, hd0, List.length_map, List.length_map]
    exact (split_by_expiry (atable_entries st) maskitem_type.CONF_DLINE).symm

/-- C19 at a concrete input: an operator and a table with a permanent and a
temporary K-line, a permanent and a temporary D-line, an exemption and an auth
block. -/
theorem temporary_permanent_split_witness :
    stats_tklines Sample.state_bans Sample.oscar 2 ["STATS", "k"] =
      [kline_line Sample.oscar 'k' Sample.tkline] ∧
    stats_klines Sample.state_bans Sample.oscar 2 ["STATS", "K"] =
      [kline_line Sample.oscar 'K' Sample.kline] ∧
    stats_tdeny Sample.state_bans Sample.oscar 2 ["STATS", "d"] =
      [dline_line Sample.oscar 'd' Sample.tdline] ∧
    stats_deny Sample.state_bans Sample.oscar 2 ["STATS", "D"] =
      [dline_line Sample.oscar 'D' Sample.dline] :=
  ⟨((temporary_permanent_split Sample.state_bans Sample.oscar 2 ["STATS", "k"]
      (by decide)).1).trans (by decide),
   ((temporary_permanent_split Sample.state_bans Sample.oscar 2 ["STATS", "K"]
      (by decide)).2.1).trans (by decide),
   ((temporary_permanent_split Sample.state_bans Sample.oscar 2 ["STATS", "d"]
      (by decide)).2.2.2.2.1).trans (by decide),
   ((temporary_permanent_split Sample.state_bans Sample.oscar 2 ["STATS", "D"]
      (by decide)).2.2.2.2.2.1).trans (by decide)⟩

theorem report_Klines_no_denial (st : State) (source_p : Client) (tkline : Nat) :
    (report_Klines st source_p tkline).filter is_no_privileges = [] := by
  rw [List.filter_eq_nil_iff]
  intro e he
  have hall : (report_Klines st source_p tkline).all (fun e => !is_no_privileges e) = true := by
    unfold report_Klines
    apply all_ATABLE_FOREACH
    intro x
    dsimp only
    split_ifs <;> simp [is_no_privileges, reply]
  simpa using List.all_eq_true.mp hall e he

theorem report_auth_no_denial (st : State) (source_p : Client) (parc : Nat)
    (parv : List String) :
    (report_auth st source_p parc parv).filter is_no_privileges = [] := by
  rw [List.filter_eq_nil_iff]
  intro e he
  have hall : (report_auth st source_p parc parv).all (fun e => !is_no_privileges e) =
      true := by
    unfold report_auth
    apply all_ATABLE_FOREACH
    intro x
    dsimp only
    split_ifs <;> simp [is_no_privileges, reply]
  simpa using List.all_eq_true.mp hall e he

/-- What `report_auth` sends: one line for every auth block of the address
table, in table order, except that a requester who is not an operator is not
shown the blocks with a spoof. -/
theorem report_auth_eq (st : State) (source_p : Client) (parc : Nat) (parv : List String) :
    report_auth st source_p parc parv =
      ((atable_entries st).filter fun a =>
        decide (a.type = maskitem_type.CONF_CLIENT ∧
          (HasUMode source_p UMODE_OPER = true ∨ a.conf.IsConfDoSpoofIp = false))).map
        fun a => auth_line source_p a.conf := by
  unfold report_auth
  apply ATABLE_FOREACH_filter_map st
    (fun a => a.type = maskitem_type.CONF_CLIENT ∧
      (HasUMode source_p UMODE_OPER = true ∨ a.conf.IsConfDoSpoofIp = false))
  intro a
  by_cases hty : a.type = maskitem_type.CONF_CLIENT <;>
    by_cases ho : HasUMode source_p UMODE_OPER = true <;>
    by_cases hsp : a.conf.IsConfDoSpoofIp = true <;>
    simp [hty, ho, hsp, auth_line]

/-- C20, refuted as stated: with the oper-only level 0 a requester who is not
an operator does not get the full auth report: of the two auth blocks of the
table the one with a spoof is left out, while an operator is shown both. -/
theorem stats_auth_leaves_out_spoofed_block :
    Sample.state_spoof.ConfigGeneral.stats_i_oper_only = 0 ∧
    HasUMode Sample.alice UMODE_OPER = false ∧
    ((atable_entries Sample.state_spoof).filter fun a =>
      decide (a.type = maskitem_type.CONF_CLIENT)).map (fun a => a.conf) =
      [Sample.auth, Sample.spoof_auth] ∧
    stats_auth Sample.state_spoof Sample.alice 2 ["STATS", "I"] =
      [auth_line Sample.alice Sample.auth] ∧
    stats_auth Sample.state_spoof Sample.oscar 2 ["STATS", "I"] =
      [auth_line Sample.oscar Sample.auth, auth_line Sample.oscar Sample.spoof_auth] := by
  decide

/-- C20, amended: in `stats_klines`, `stats_tklines` and `stats_auth`, for a
requester who is not an operator: with the oper-only level 2 the handler sends
exactly the no-privileges notice; with level 1 it sends at most one line, for
the entry `find_conf_by_address` returns for the requester's own host and
username (for `K` only when that entry is permanent, for `k` only when it is
temporary), and nothing when there is none; with level 0, and for an operator
at every level, it sends the report of `report_Klines` or `report_auth`, which
contains no no-privileges notice. These reports have one line for every
permanent K-line of the address table (`K`), for every temporary K-line (`k`),
and for every auth block (`I`), in table order, except that a requester who is
not an operator is not shown the auth blocks with a spoof. -/
theorem oper_only_levels (st : State) (source_p : Client) (parc : Nat) (parv : List String) :
    (HasUMode source_p UMODE_OPER = false →
      (st.ConfigGeneral.stats_k_oper_only = 2 →
        stats_klines st source_p parc parv = [reply source_p Numeric.ERR_NOPRIVILEGES []] ∧
        stats_tklines st source_p parc parv = [reply source_p Numeric.ERR_NOPRIVILEGES []]) ∧
      (st.ConfigGeneral.stats_k_oper_only = 1 →
        stats_klines st source_p parc parv =
          (((find_own_conf st source_p maskitem_type.CONF_KLINE none 0).filter
            fun conf => decide (conf.until_ = 0)).toList.map (kline_line source_p 'K')) ∧
        stats_tklines st source_p parc parv =
          (((find_own_conf st source_p maskitem_type.CONF_KLINE none 1).filter
            fun conf => decide (conf.until_ ≠ 0)).toList.map (kline_line source_p 'k'))) ∧
      (st.ConfigGeneral.stats_k_oper_only = 0 →
        stats_klines st source_p parc parv = report_Klines st source_p 0 ∧
        stats_tklines st source_p parc parv = report_Klines st source_p 1) ∧
      (st.ConfigGeneral.stats_i_oper_only = 2 →
        stats_auth st source_p parc parv = [reply source_p Numeric.ERR_NOPRIVILEGES []]) ∧
      (st.ConfigGeneral.stats_i_oper_only = 1 →
        stats_auth st source_p parc parv =
          (find_own_conf st source_p maskitem_type.CONF_CLIENT source_p.conn.password
            1).toList.map (own_auth_line source_p)) ∧
      (st.ConfigGeneral.stats_i_oper_only = 0 →
        stats_auth st source_p parc parv = report_auth st source_p 0 [])) ∧
    (HasUMode source_p UMODE_OPER = true →
      stats_klines st source_p parc parv = report_Klines st source_p 0 ∧
      stats_tklines st source_p parc parv = report_Klines st source_p 1 ∧
      stats_auth st source_p parc parv = report_auth st source_p 0 []) ∧
    (report_Klines st source_p 0).filter is_no_privileges = [] ∧
    (report_Klines st source_p 1).filter is_no_privileges = [] ∧
    (report_auth st source_p 0 []).filter is_no_privileges = [] ∧
    report_Klines st source_p 0 =
      ((atable_entries st).filter fun a =>
        decide (a.type = maskitem_type.CONF_KLINE ∧ a.conf.until_ = 0)).map
        (fun a => kline_line source_p 'K' a.conf) ∧
    report_Klines st source_p 1 =
      ((atable_entries st).filter fun a =>
        decide (a.type = maskitem_type.CONF_KLINE ∧ a.conf.until_ ≠ 0)).map
        (fun a => kline_line source_p 'k' a.conf) ∧
    report_auth st source_p 0 [] =
      ((atable_entries st).filter fun a =>
        decide (a.type = maskitem_type.CONF_CLIENT ∧
          (HasUMode source_p UMODE_OPER = true ∨ a.conf.IsConfDoSpoofIp = false))).map
        (fun a => auth_line source_p a.conf) ∧
    (HasUMode source_p UMODE_OPER = true →
      report_auth st source_p 0 [] =
        ((atable_entries st).filter fun a =>
          decide (a.type = maskitem_type.CONF_CLIENT)).map
          (fun a => auth_line source_p a.conf)) ∧
    (∀ conf : MaskItem, auth_line source_p conf =
      Effect.sendto_one_numeric source_p.addr Numeric.RPL_STATSILINE false
        [Arg.chr 'I', Arg.str (if conf.name = none then "*" else conf.name.getD ""),
         Arg.str ( show_iline_prefix source_p conf), Arg.str conf.host, Arg.num conf.port,
         Arg.str conf.class_name]) := by
  have hauth_oper : HasUMode source_p UMODE_OPER = true →
      report_auth st source_p 0 [] =
        ((atable_entries st).filter fun a =>
          decide (a.type = maskitem_type.CONF_CLIENT)).map
          (fun a => auth_line source_p a.conf) := by
    intro ho
    rw [report_auth_eq]
    congr 1
    apply List.filter_congr
    intro a _
    simp [ho]
  refine ⟨fun hno => ⟨?_, ?_, ?_, ?_, ?_, ?_⟩, fun hop => ⟨?_, ?_, ?_⟩,
    report_Klines_no_denial st source_p 0, report_Klines_no_denial st source_p 1,
    report_auth_no_denial st source_p 0 [], report_Klines_permanent st source_p,
    report_Klines_temporary st source_p 1 (by decide), report_auth_eq st source_p 0 [],
    hauth_oper, fun _ => rfl⟩
  · intro hl
    constructor
    · unfold stats_klines
      simp [hl, hno]
    · unfold stats_tklines
      simp [hl, hno]
  · intro hl
    constructor
    · unfold stats_klines find_own_conf
      simp only [hl, hno]
      cases MyConnect source_p
      · cases st.ext.find_conf_by_address source_p.host none maskitem_type.CONF_KLINE 0
          source_p.username none 0 with
        | none => simp
        | some conf => by_cases hu : conf.until_ = 0 <;> simp [hu, kline_line, Option.filter]
      · cases st.ext.find_conf_by_address source_p.host (some source_p.conn.ip)
          maskitem_type.CONF_KLINE source_p.conn.aftype source_p.username none 0 with
        | none => simp
        | some conf => by_cases hu : conf.until_ = 0 <;> simp [hu, kline_line, Option.filter]
    · unfold stats_tklines find_own_conf
      simp only [hl, hno]
      cases MyConnect source_p
      · cases st.ext.find_conf_by_address source_p.host none maskitem_type.CONF_KLINE 0
          source_p.username none 1 with
        | none => simp
        | some conf => by_cases hu : conf.until_ = 0 <;> simp [hu, kline_line, Option.filter]
      · cases st.ext.find_conf_by_address source_p.host (some source_p.conn.ip)
          maskitem_type.CONF_KLINE source_p.conn.aftype source_p.username none 1 with
        | none => simp
        | some conf => by_cases hu : conf.until_ = 0 <;> simp [hu, kline_line, Option.filter]
  · intro hl
    constructor
    · unfold stats_klines
      simp [hl]
    · unfold stats_tklines
      simp [hl]
  · intro hl
    unfold stats_auth
    simp [hl, hno]
  · intro hl
    unfold stats_auth find_own_conf
    simp only [hl, hno]
    cases MyConnect source_p
    · cases st.ext.find_conf_by_address source_p.host none maskitem_type.CONF_CLIENT 0
        source_p.username none 1 with
      | none => simp
      | some conf => simp [own_auth_line]
    · cases st.ext.find_conf_by_address source_p.host (some source_p.conn.ip)
        maskitem_type.CONF_CLIENT source_p.conn.aftype source_p.username
        source_p.conn.password 1 with
      | none => simp
      | some conf => simp [own_auth_line]
  · intro hl
    unfold stats_auth
    simp [hl]
  · unfold stats_klines
    simp [hop]
  · unfold stats_tklines
    simp [hop]
  · unfold stats_auth
    simp [hop]

/-- C20 amended, at concrete inputs: a user who is not an operator, with both
levels at 1 and a temporary K-line and an auth block that match the user; the
same user and an operator with the auth level at 0 and two auth blocks, one of
them with a spoof. -/
theorem oper_only_levels_witness :
    stats_tklines Sample.state_bans Sample.alice 2 ["STATS", "k"] =
      [kline_line Sample.alice 'k' Sample.tkline] ∧
    stats_klines Sample.state_bans Sample.alice 2 ["STATS", "K"] = [] ∧
    stats_auth Sample.state_bans Sample.alice 2 ["STATS", "i"] =
      [own_auth_line Sample.alice Sample.auth] ∧
    stats_auth Sample.state_spoof Sample.alice 2 ["STATS", "I"] =
      [auth_line Sample.alice Sample.auth] ∧
    stats_auth Sample.state_spoof Sample.oscar 2 ["STATS", "I"] =
      [auth_line Sample.oscar Sample.auth, auth_line Sample.oscar Sample.spoof_auth] :=
  ⟨((((oper_only_levels Sample.state_bans Sample.alice 2 ["STATS", "k"]).1
      (by decide)).2.1 (by decide)).2).trans (by decide),
   ((((oper_only_levels Sample.state_bans Sample.alice 2 ["STATS", "K"]).1
      (by decide)).2.1 (by decide)).1).trans (by decide),
   ((((oper_only_levels Sample.state_bans Sample.alice 2 ["STATS", "i"]).1
      (by decide)).2.2.2.2.1 (by decide))).trans (by decide),
   ((((oper_only_levels Sample.state_spoof Sample.alice 2 ["STATS", "I"]).1
      (by decide)).2.2.2.2.2 (by decide)).trans
    ((oper_only_levels Sample.state_spoof Sample.alice 2
      ["STATS", "I"]).2.2.2.2.2.2.2.1)).trans (by decide),
   (((oper_only_levels Sample.state_spoof Sample.oscar 2 ["STATS", "I"]).2.1
      (by decide)).2.2.trans
    ((oper_only_levels Sample.state_spoof Sample.oscar 2 ["STATS", "I"]).2.2.2.2.2.2.2.2.1
      (by decide))).trans (by decide)⟩

/-! ## Claims on the operator roster and the listeners -/

/-- The counter of the roster loop: started below `2^32`, it ends as the sum of
its start and the number of entries shown, as an `unsigned int`. -/
theorem stats_operedup_loop_eq (source_p : Client) (list : List Client) (opercount : Nat)
    (h : opercount < 2 ^ 32) :
    stats_operedup_loop source_p list opercount =
      (u32 (opercount + (list.filter fun t => decide (roster_shown source_p t)).length),
       (list.filter fun t => decide (roster_shown source_p t)).map
         fun t => operedup_line source_p t (operedup_idle source_p t)) := by
  induction list generalizing opercount with
  | nil =>
    simp only [stats_operedup_loop, List.filter_nil, List.length_nil, List.map_nil, u32,
      Nat.add_zero]
    rw [Nat.mod_eq_of_lt h]
  | cons target_p rest ih =>
    unfold stats_operedup_loop
    by_cases hs : roster_shown source_p target_p
    · have hc : (HasUMode target_p UMODE_HIDDEN && !HasUMode source_p UMODE_OPER) = false := by
        unfold roster_shown at hs
        rcases hs with hs | hs <;> simp [hs]
      rw [if_neg (by simp [hc])]
      dsimp only
      rw [ih (u32 (opercount + 1)) (Nat.mod_lt _ (by decide))]
      rw [List.filter_cons_of_pos (by simpa using hs)]
      refine Prod.ext ?_ ?_
      · simp only [u32, List.length_cons]
        omega
      · simp only [List.map_cons]
        congr 1
    · have hc : (HasUMode target_p UMODE_HIDDEN && !HasUMode source_p UMODE_OPER) = true := by
        unfold roster_shown at hs
        cases hh : HasUMode target_p UMODE_HIDDEN <;> cases ho : HasUMode source_p UMODE_OPER <;>
          simp [hh, ho] at hs ⊢
      rw [if_pos hc, ih opercount h, List.filter_cons_of_neg (by simpa using hs)]


/-- The last argument of a line: for a roster line, the idle field. -/
theorem operedup_idle_field (source_p target_p : Client) (idle : Arg) :
    (formatted_args (operedup_line source_p target_p idle)).getLast? = some idle := by
  unfold operedup_line
  split <;> rfl


/-- C21: `stats_operedup` renders an entry of `oper_list` iff the entry is not
flagged hidden or the requester is an operator, in list order; the idle field
of a rendered entry is `n/a` iff the requester is not an operator and the
target has the hide-idle flag, and is the idle time otherwise; the number on
the trailing `OPER(s)` line is the number of entry lines rendered (an
`unsigned int`, so for a list shorter than `2^32`), which is not the length of
`oper_list` when entries are skipped. -/
theorem stats_operedup_roster (st : State) (source_p : Client) (parc : Nat)
    (parv : List String) (hlen : st.oper_list.length < 2 ^ 32) :
    stats_operedup st source_p parc parv =
      ((st.oper_list.filter fun t => decide (roster_shown source_p t)).map
        fun t => operedup_line source_p t (operedup_idle source_p t)) ++
      [operedup_count_line source_p
        (st.oper_list.filter fun t => decide (roster_shown source_p t)).length] ∧
    (∀ t : Client, operedup_idle source_p t = Arg.str "n/a" ↔
      HasUMode source_p UMODE_OPER = false ∧ HasUMode t UMODE_HIDEIDLE = true) ∧
    (∀ t : Client, operedup_idle source_p t ≠ Arg.str "n/a" →
      operedup_idle source_p t = Arg.idle_time source_p.addr t.addr) ∧
    (∀ (t : Client) (idle : Arg),
      (formatted_args (operedup_line source_p t idle)).getLast? = some idle) ∧
    (stats_operedup st source_p parc parv).length =
      (st.oper_list.filter fun t => decide (roster_shown source_p t)).length + 1 := by
  have hle : (st.oper_list.filter fun t => decide (roster_shown source_p t)).length < 2 ^ 32 :=
    Nat.lt_of_le_of_lt (List.length_filter_le _ _) hlen
  have heq : stats_operedup st source_p parc parv =
      ((st.oper_list.filter fun t => decide (roster_shown source_p t)).map
        fun t => operedup_line source_p t (operedup_idle source_p t)) ++
      [operedup_count_line source_p
        (st.oper_list.filter fun t => decide (roster_shown source_p t)).length] := by
    unfold stats_operedup
    dsimp only
    rw [stats_operedup_loop_eq source_p st.oper_list 0 (by decide)]
    dsimp only
    rw [Nat.zero_add, u32, Nat.mod_eq_of_lt hle]
    rfl
  refine ⟨heq, ?_, ?_, operedup_idle_field source_p, ?_⟩
  · intro t
    unfold operedup_idle
    cases HasUMode source_p UMODE_OPER <;> cases HasUMode t UMODE_HIDEIDLE <;> simp
  · intro t
    unfold operedup_idle
    cases HasUMode source_p UMODE_OPER <;> cases HasUMode t UMODE_HIDEIDLE <;> simp
  · rw [heq, List.length_append, List.length_map]
    rfl

/-- C21 at a concrete input: a user without privileges asks for the roster of
four operators, one of them hidden and one hiding the idle time. -/
theorem stats_operedup_roster_witness :
    Sample.state_roster.oper_list.length = 4 ∧
    stats_operedup Sample.state_roster Sample.alice 2 ["STATS", "p"] =
      [operedup_line Sample.alice Sample.oscar (Arg.idle_time 1 2),
       operedup_line Sample.alice Sample.ida (Arg.str "n/a"),
       operedup_line Sample.alice Sample.adam (Arg.idle_time 1 3),
       operedup_count_line Sample.alice 3] :=
  ⟨by decide,
   ((stats_operedup_roster Sample.state_roster Sample.alice 2 ["STATS", "p"]
      (by decide)).1).trans (by decide)⟩


/-- What `show_ports` sends: one line for every listener that is not hidden
from the requester, in list order, with the address of its two-way branch. -/
theorem show_ports_eq (st : State) (source_p : Client) :
    show_ports st source_p =
      (st.listener_list.filter fun l => decide (port_shown source_p l)).map
        fun l => port_line source_p l (port_address st source_p l) := by
  unfold show_ports
  apply DLINK_FOREACH_filter_map (port_shown source_p)
  intro l
  unfold port_shown port_line port_address port_flags
  by_cases hh : l.flags &&& LISTENER_HIDDEN = 0 <;>
    by_cases ha : HasUMode source_p UMODE_ADMIN = true <;>
    by_cases hm : (MyConnect source_p || !st.ConfigServerHide.hide_server_ips) = true <;>
    simp [hh, ha, hm]

/-- C22, refuted as stated: with `hide_server_ips` off, a requester who is not
an administrator is shown the name of the server in place of the bound address
of the listener. -/
theorem show_ports_masked_without_hiding :
    Sample.state_ports_open.ConfigServerHide.hide_server_ips = false ∧
    HasUMode Sample.alice UMODE_ADMIN = false ∧
    Sample.plain_port.name = "192.0.2.1" ∧
    Sample.state_ports_open.me.name = "irc.example" ∧
    show_ports Sample.state_ports_open Sample.alice =
      [port_line Sample.alice Sample.plain_port "irc.example"] := by
  decide

/-- C22, amended: the listener report shows the bound address of a listener
iff the requester is an administrator and, in addition, is directly connected
or `hide_server_ips` is off; in every other case, also for a requester who is
not an administrator while `hide_server_ips` is off, it shows the name of the
server in its place. -/
theorem show_ports_address (st : State) (source_p : Client) :
    (HasUMode source_p UMODE_ADMIN = true →
      (MyConnect source_p = true ∨ st.ConfigServerHide.hide_server_ips = false) →
      show_ports st source_p =
        (st.listener_list.filter fun l => decide (port_shown source_p l)).map
          fun l => port_line source_p l l.name) ∧
    ((HasUMode source_p UMODE_ADMIN = false ∨
        (MyConnect source_p = false ∧ st.ConfigServerHide.hide_server_ips = true)) →
      show_ports st source_p =
        (st.listener_list.filter fun l => decide (port_shown source_p l)).map
          fun l => port_line source_p l st.me.name) ∧
    (∀ (l : Listener) (address : String), port_line source_p l address =
      Effect.sendto_one_numeric source_p.addr Numeric.RPL_STATSPLINE false
        [Arg.chr 'P', Arg.num l.port, Arg.str address, Arg.num l.ref_count,
         Arg.str (String.mk (port_flags l)),
         Arg.str (if l.active then "active" else "disabled")]) := by
  refine ⟨?_, ?_, fun _ _ => rfl⟩
  · intro ha hl
    rw [show_ports_eq]
    unfold port_address
    rcases hl with hl | hl <;> simp [ha, hl]
  · intro h
    rw [show_ports_eq]
    unfold port_address
    rcases h with h | ⟨h1, h2⟩
    · simp [h]
    · simp [h1, h2]

/-- C22 amended, at concrete inputs: a directly connected administrator with
address hiding on, an administrator on another server with address hiding
off, the same administrator with address hiding on, and a user without
privileges with address hiding off. -/
theorem show_ports_address_witness :
    show_ports Sample.state_ports Sample.adam =
      [port_line Sample.adam Sample.hidden_port "192.0.2.2",
       port_line Sample.adam Sample.plain_port "192.0.2.1"] ∧
    show_ports Sample.state_ports_open Sample.rada =
      [port_line Sample.rada Sample.hidden_port "192.0.2.2",
       port_line Sample.rada Sample.plain_port "192.0.2.1"] ∧
    show_ports Sample.state_ports Sample.rada =
      [port_line Sample.rada Sample.hidden_port "irc.example",
       port_line Sample.rada Sample.plain_port "irc.example"] ∧
    show_ports Sample.state_ports_open Sample.alice =
      [port_line Sample.alice Sample.plain_port "irc.example"] :=
  ⟨((show_ports_address Sample.state_ports Sample.adam).1 (by decide)
      (Or.inl (by decide))).trans (by decide),
   ((show_ports_address Sample.state_ports_open Sample.rada).1 (by decide)
      (Or.inr (by decide))).trans (by decide),
   ((show_ports_address Sample.state_ports Sample.rada).2.1
      (Or.inr ⟨by decide, by decide⟩)).trans (by decide),
   ((show_ports_address Sample.state_ports_open Sample.alice).2.1
      (Or.inl (by decide))).trans (by decide)⟩

/-- The letters of the flag string, in the order the code writes them. -/
theorem port_flags_eq (l : Listener) :
    port_flags l =
      ['H', 'S', 's'].filter fun c =>
        (c = 'H' && l.flags &&& LISTENER_HIDDEN != 0) ||
        (c = 'S' && l.flags &&& LISTENER_SERVER != 0) ||
        (c = 's' && l.flags &&& LISTENER_SSL != 0) := by
  unfold port_flags
  by_cases h1 : l.flags &&& LISTENER_HIDDEN = 0 <;>
    by_cases h2 : l.flags &&& LISTENER_SERVER = 0 <;>
    by_cases h3 : l.flags &&& LISTENER_SSL = 0 <;>
    simp [List.filter_cons, h1, h2, h3]

/-- C23: `show_ports` sends a line for a listener iff the listener is not
flagged hidden or the requester is an administrator (so a hidden listener
yields a line iff the requester is an administrator and any other listener
always does), in list order; the flag string of a rendered listener is the
subsequence of `HSs` with `H` iff hidden, `S` iff server-only and `s` iff
secure transport, of length at most 3. -/
theorem show_ports_listeners (st : State) (source_p : Client) :
    show_ports st source_p =
      ((st.listener_list.filter fun l => decide (port_shown source_p l)).map
        fun l => port_line source_p l (port_address st source_p l)) ∧
    (∀ l : Listener, l.flags &&& LISTENER_HIDDEN ≠ 0 →
      (port_shown source_p l ↔ HasUMode source_p UMODE_ADMIN = true)) ∧
    (∀ l : Listener, l.flags &&& LISTENER_HIDDEN = 0 → port_shown source_p l) ∧
    (∀ l : Listener,
      port_flags l =
        (['H', 'S', 's'].filter fun c =>
          (c = 'H' && l.flags &&& LISTENER_HIDDEN != 0) ||
          (c = 'S' && l.flags &&& LISTENER_SERVER != 0) ||
          (c = 's' && l.flags &&& LISTENER_SSL != 0)) ∧
      List.Sublist (port_flags l) "HSs".data ∧
      (port_flags l).length ≤ 3 ∧
      ('H' ∈ port_flags l ↔ l.flags &&& LISTENER_HIDDEN ≠ 0) ∧
      ('S' ∈ port_flags l ↔ l.flags &&& LISTENER_SERVER ≠ 0) ∧
      ('s' ∈ port_flags l ↔ l.flags &&& LISTENER_SSL ≠ 0)) ∧
    (∀ (l : Listener) (address : String),
      port_line source_p l address =
        reply source_p Numeric.RPL_STATSPLINE
          [Arg.chr 'P', Arg.num l.port, Arg.str address, Arg.num l.ref_count,
           Arg.str (String.mk (port_flags l)),
           Arg.str (if l.active then "active" else "disabled")]) := by
  refine ⟨show_ports_eq st source_p, ?_, ?_, ?_, fun _ _ => rfl⟩
  · intro l hh
    unfold port_shown
    simp [hh]
  · intro l hh
    exact Or.inl hh
  · intro l
    refine ⟨port_flags_eq l, ?_, ?_, ?_, ?_, ?_⟩
    · rw [port_flags_eq]
      exact List.filter_sublist _
    · rw [port_flags_eq]
      exact List.length_filter_le _ _
    all_goals
      unfold port_flags
      by_cases h1 : l.flags &&& LISTENER_HIDDEN = 0 <;>
        by_cases h2 : l.flags &&& LISTENER_SERVER = 0 <;>
        by_cases h3 : l.flags &&& LISTENER_SSL = 0 <;>
        simp [h1, h2, h3]

/-- C23 at concrete inputs: an administrator sees the hidden listener with the
flag string `HSs`, a user without privileges only sees the plain listener,
whose flag string is empty. -/
theorem show_ports_listeners_witness :
    Sample.hidden_port.flags &&& LISTENER_HIDDEN ≠ 0 ∧
    port_shown Sample.adam Sample.hidden_port ∧
    ¬ port_shown Sample.alice Sample.hidden_port ∧
    port_flags Sample.hidden_port = ['H', 'S', 's'] ∧
    port_flags Sample.plain_port = [] ∧
    show_ports Sample.state_ports Sample.adam =
      [port_line Sample.adam Sample.hidden_port "192.0.2.2",
       port_line Sample.adam Sample.plain_port "192.0.2.1"] ∧
    show_ports Sample.state_ports Sample.alice =
      [port_line Sample.alice Sample.plain_port "irc.example"] :=
  ⟨by decide,
   ((show_ports_listeners Sample.state_ports Sample.adam).2.1 Sample.hidden_port
      (by decide)).mpr (by decide),
   fun h => absurd
     (((show_ports_listeners Sample.state_ports Sample.alice).2.1 Sample.hidden_port
       (by decide)).mp h) (by decide),
   by decide, by decide,
   ((show_ports_listeners Sample.state_ports Sample.adam).1).trans (by decide),
   ((show_ports_listeners Sample.state_ports Sample.alice).1).trans (by decide)⟩

/-! ## Claims on the server links -/

/-- The loop of `stats_servlinks`: started with totals below `2^64`, it ends
with the totals plus the bytes of the peers it does not skip, as `uintmax_t`,
and sends one line for each of those peers, in list order. -/
theorem stats_servlinks_loop_eq (st : State) (source_p : Client) (list : List Client)
    (sendB recvB : Nat) (hs : sendB < 2 ^ 64) (hr : recvB < 2 ^ 64) :
    stats_servlinks_loop st source_p list sendB recvB =
      (uintmax_t (sendB + sum_send_bytes
          (list.filter fun t => decide (¬ servlink_skipped st source_p t))),
       uintmax_t (recvB + sum_recv_bytes
          (list.filter fun t => decide (¬ servlink_skipped st source_p t))),
       (list.filter fun t => decide (¬ servlink_skipped st source_p t)).map
         (servlink_line st source_p)) := by
  induction list generalizing sendB recvB with
  | nil =>
    simp only [stats_servlinks_loop, List.filter_nil, List.map_nil, sum_send_bytes,
      sum_recv_bytes, List.sum_nil, Nat.add_zero, uintmax_t]
    rw [Nat.mod_eq_of_lt hs, Nat.mod_eq_of_lt hr]
  | cons target_p rest ih =>
    unfold stats_servlinks_loop
    by_cases hk : servlink_skipped st source_p target_p
    · have hc : (target_p.service && st.ConfigServerHide.hide_services &&
          !HasUMode source_p UMODE_OPER) = true := by
        obtain ⟨h1, h2, h3⟩ := hk
        simp [h1, h2, h3]
      rw [if_pos hc, ih sendB recvB hs hr, List.filter_cons_of_neg (by simpa using hk)]
    · have hc : ¬ (target_p.service && st.ConfigServerHide.hide_services &&
          !HasUMode source_p UMODE_OPER) = true := by
        intro h
        apply hk
        simpa [servlink_skipped, and_assoc] using h
      rw [if_neg hc]
      dsimp only
      rw [ih (uintmax_t (sendB + target_p.conn.send_bytes))
          (uintmax_t (recvB + target_p.conn.recv_bytes))
          (Nat.mod_lt _ (by decide)) (Nat.mod_lt _ (by decide)),
        List.filter_cons_of_pos (by simpa using hk)]
      refine Prod.ext ?_ (Prod.ext ?_ ?_)
      · simp only [uintmax_t, sum_send_bytes, List.map_cons, List.sum_cons]
        omega
      · simp only [uintmax_t, sum_recv_bytes, List.map_cons, List.sum_cons]
        omega
      · rfl

/-- What `stats_servlinks` sends when it does not deny the request: the lines
of the peers it does not skip, then the five summary lines. -/
theorem stats_servlinks_eq (st : State) (source_p : Client) (parc : Nat) (parv : List String)
    (h : ¬ servlinks_denied st source_p) :
    stats_servlinks st source_p parc parv =
      (servlink_shown st source_p).map (servlink_line st source_p) ++
      servlinks_summary st source_p (dlink_list_length st.local_server_list)
        (uintmax_t (sum_send_bytes (servlink_shown st source_p)) >>> 10)
        (uintmax_t (sum_recv_bytes (servlink_shown st source_p)) >>> 10) := by
  have hc : ¬ (st.ConfigServerHide.flatten_links && !HasUMode source_p UMODE_OPER) = true := by
    intro hc
    apply h
    simpa [servlinks_denied] using hc
  unfold stats_servlinks
  rw [if_neg hc]
  dsimp only
  rw [stats_servlinks_loop_eq st source_p _ 0 0 (by decide) (by decide)]
  simp only [Nat.zero_add]
  rfl

/-- The lines of the peers and the summary lines are no no-privileges
notices. -/
theorem servlink_lines_no_denial (st : State) (source_p : Client) (list : List Client)
    (n sendB recvB : Nat) :
    (list.map (servlink_line st source_p) ++
      servlinks_summary st source_p n sendB recvB).filter is_no_privileges = [] := by
  rw [List.filter_append, List.append_eq_nil]
  constructor
  · rw [List.filter_eq_nil_iff]
    intro e he
    rw [List.mem_map] at he
    obtain ⟨t, _, rfl⟩ := he
    simp [servlink_line, reply, is_no_privileges]
  · rfl


/-- C24: when `flatten_links` is set and the requester is not an operator,
`stats_servlinks` sends exactly the no-privileges notice: no line of a peer and
none of the five summary lines; in every other case nothing it sends is a
no-privileges notice. -/
theorem stats_servlinks_denial (st : State) (source_p : Client) (parc : Nat)
    (parv : List String) :
    (st.ConfigServerHide.flatten_links = true → HasUMode source_p UMODE_OPER = false →
      stats_servlinks st source_p parc parv = [reply source_p Numeric.ERR_NOPRIVILEGES []] ∧
      (∀ t : Client, servlink_line st source_p t ∉ stats_servlinks st source_p parc parv) ∧
      (∀ n sendB recvB : Nat, ∀ e ∈ servlinks_summary st source_p n sendB recvB,
        e ∉ stats_servlinks st source_p parc parv)) ∧
    ((st.ConfigServerHide.flatten_links = false ∨ HasUMode source_p UMODE_OPER = true) →
      (stats_servlinks st source_p parc parv).filter is_no_privileges = [] ∧
      reply source_p Numeric.ERR_NOPRIVILEGES [] ∉ stats_servlinks st source_p parc parv) := by
  constructor
  · intro hf ho
    have heq : stats_servlinks st source_p parc parv =
        [reply source_p Numeric.ERR_NOPRIVILEGES []] := by
      unfold stats_servlinks
      simp [hf, ho]
    refine ⟨heq, ?_, ?_⟩
    · intro t
      rw [heq]
      simp [servlink_line, reply]
    · intro n sendB recvB e he
      rw [heq]
      simp only [servlinks_summary, List.mem_cons, List.mem_singleton, List.not_mem_nil,
        or_false] at he
      rcases he with rfl | rfl | rfl | rfl | rfl <;> simp [debug, reply]
  · intro h
    have hd : ¬ servlinks_denied st source_p := by
      rintro ⟨hf, ho⟩
      rcases h with h | h
      · rw [hf] at h
        cases h
      · rw [ho] at h
        cases h
    have hnil : (stats_servlinks st source_p parc parv).filter is_no_privileges = [] := by
      rw [stats_servlinks_eq st source_p parc parv hd]
      exact servlink_lines_no_denial st source_p _ _ _ _
    refine ⟨hnil, ?_⟩
    intro hmem
    have := List.filter_eq_nil_iff.mp hnil _ hmem
    simp [is_no_privileges, reply] at this

/-- C24 at concrete inputs: with `flatten_links` on, a user without privileges
is denied and an operator is not. -/
theorem stats_servlinks_denial_witness :
    stats_servlinks Sample.state_flat Sample.alice 2 ["STATS", "?"] =
      [reply Sample.alice Numeric.ERR_NOPRIVILEGES []] ∧
    (stats_servlinks Sample.state_flat Sample.oscar 2 ["STATS", "?"]).filter
      is_no_privileges = [] ∧
    (stats_servlinks Sample.state_flat Sample.oscar 2 ["STATS", "?"]).length = 6 :=
  ⟨((stats_servlinks_denial Sample.state_flat Sample.alice 2 ["STATS", "?"]).1
      (by decide) (by decide)).1,
   ((stats_servlinks_denial Sample.state_flat Sample.oscar 2 ["STATS", "?"]).2
      (Or.inr (by decide))).1,
   by decide⟩

/-- C25: when `stats_servlinks` does not deny the request, it skips a peer of
`local_server_list` iff the peer is service-flagged, `hide_services` is set and
the requester is not an operator; it sends exactly one line for every other
peer, in list order, followed by the five summary lines; the figures of the
lines `Sent total` and `Recv total` are the sums, taken as `uintmax_t`, of
`send.bytes` and `recv.bytes` over the peers that were not skipped, shifted
right by 10 bits: the plain sums whenever these are below `2^64`. -/
theorem stats_servlinks_peers (st : State) (source_p : Client) (parc : Nat)
    (parv : List String)
    (h : st.ConfigServerHide.flatten_links = false ∨ HasUMode source_p UMODE_OPER = true) :
    stats_servlinks st source_p parc parv =
      (servlink_shown st source_p).map (servlink_line st source_p) ++
      servlinks_summary st source_p (dlink_list_length st.local_server_list)
        (uintmax_t (sum_send_bytes (servlink_shown st source_p)) >>> 10)
        (uintmax_t (sum_recv_bytes (servlink_shown st source_p)) >>> 10) ∧
    servlink_shown st source_p =
      (st.local_server_list.filter fun t =>
        !(t.service && st.ConfigServerHide.hide_services && !HasUMode source_p UMODE_OPER)) ∧
    (∀ t ∈ st.local_server_list, t ∉ servlink_shown st source_p ↔
      (t.service = true ∧ st.ConfigServerHide.hide_services = true ∧
        HasUMode source_p UMODE_OPER = false)) ∧
    (sum_send_bytes (servlink_shown st source_p) < 2 ^ 64 →
      uintmax_t (sum_send_bytes (servlink_shown st source_p)) >>> 10 =
        sum_send_bytes (servlink_shown st source_p) >>> 10) ∧
    (sum_recv_bytes (servlink_shown st source_p) < 2 ^ 64 →
      uintmax_t (sum_recv_bytes (servlink_shown st source_p)) >>> 10 =
        sum_recv_bytes (servlink_shown st source_p) >>> 10) ∧
    (∀ n sendB recvB : Nat,
      (servlinks_summary st source_p n sendB recvB).get? 1 =
        some (debug source_p "? :Sent total: %7.2f %s" [Arg.GMKv sendB, Arg.GMKs sendB]) ∧
      (servlinks_summary st source_p n sendB recvB).get? 2 =
        some (debug source_p "? :Recv total: %7.2f %s" [Arg.GMKv recvB, Arg.GMKs recvB])) := by
  have hd : ¬ servlinks_denied st source_p := by
    rintro ⟨hf, ho⟩
    rcases h with h | h
    · rw [hf] at h
      cases h
    · rw [ho] at h
      cases h
  refine ⟨stats_servlinks_eq st source_p parc parv hd, ?_, ?_, ?_, ?_, fun _ _ _ => ⟨rfl, rfl⟩⟩
  · unfold servlink_shown
    apply List.filter_congr
    intro t _
    unfold servlink_skipped
    by_cases h1 : t.service = true <;> by_cases h2 : st.ConfigServerHide.hide_services = true <;>
      by_cases h3 : HasUMode source_p UMODE_OPER = true <;> simp [h1, h2, h3]
  · intro t ht
    unfold servlink_shown
    rw [List.mem_filter]
    simp [ht, servlink_skipped]
  · intro hlt
    rw [uintmax_t, Nat.mod_eq_of_lt hlt]
  · intro hlt
    rw [uintmax_t, Nat.mod_eq_of_lt hlt]

/-- C25 at a concrete input: a user without privileges, three links, one of
them to services, `hide_services` on. -/
theorem stats_servlinks_peers_witness :
    stats_servlinks Sample.state_links Sample.alice 2 ["STATS", "?"] =
      [servlink_line Sample.state_links Sample.alice Sample.hub,
       servlink_line Sample.state_links Sample.alice Sample.leaf] ++
      servlinks_summary Sample.state_links Sample.alice 3
        ((4096 + 1500) >>> 10) ((2050 + 1000) >>> 10) ∧
    uintmax_t (sum_send_bytes (servlink_shown Sample.state_links Sample.alice)) >>> 10 = 5 ∧
    uintmax_t (sum_recv_bytes (servlink_shown Sample.state_links Sample.alice)) >>> 10 = 2 :=
  ⟨((stats_servlinks_peers Sample.state_links Sample.alice 2 ["STATS", "?"]
      (Or.inl (by decide))).1).trans (by decide),
   ((stats_servlinks_peers Sample.state_links Sample.alice 2 ["STATS", "?"]
      (Or.inl (by decide))).2.2.2.1 (by decide)).trans (by decide),
   ((stats_servlinks_peers Sample.state_links Sample.alice 2 ["STATS", "?"]
      (Or.inl (by decide))).2.2.2.2.1 (by decide)).trans (by decide)⟩

/-! ## Claims on events, on the connection trace and on the operator blocks -/

/-- The cast `(int)(a - b)` is the difference itself when the difference fits
an `int`. -/
theorem int_diff_exact (a b : Nat) (hlo : -(2147483648 : Int) ≤ (a : Int) - (b : Int))
    (hhi : (a : Int) - (b : Int) < 2147483648) :
    int_diff a b = (a : Int) - (b : Int) := by
  unfold int_diff
  have h32 : (2 : Int) ^ 32 = 4294967296 := by norm_num
  have h31 : (2 : Int) ^ 31 = 2147483648 := by norm_num
  simp only [h32, h31]
  split <;> omega

/-- C26: for `n` registered events `stats_events` sends exactly `n + 2` lines:
the fixed header line, the fixed separator line, then one line per event in the
order of the event list, carrying the name of the event and the value
`(int)(next - CurrentTime)`, which is `next - CurrentTime` whenever that
difference fits an `int`. -/
theorem stats_events_lines (st : State) (source_p : Client) (parc : Nat)
    (parv : List String) :
    stats_events st source_p parc parv =
      debug source_p "E :Operation                      Next Execution" [] ::
      debug source_p "E :---------------------------------------------" [] ::
      st.event_list.map (event_line st source_p) ∧
    (stats_events st source_p parc parv).length = st.event_list.length + 2 ∧
    (∀ ev : event, event_line st source_p ev =
      debug source_p "E :%-30s %-4d seconds"
        [Arg.str ev.name, Arg.int (int_diff ev.next st.CurrentTime)]) ∧
    (∀ ev : event, -(2147483648 : Int) ≤ (ev.next : Int) - (st.CurrentTime : Int) →
      (ev.next : Int) - (st.CurrentTime : Int) < 2147483648 →
      event_line st source_p ev =
        debug source_p "E :%-30s %-4d seconds"
          [Arg.str ev.name, Arg.int ((ev.next : Int) - (st.CurrentTime : Int))]) := by
  have heq : stats_events st source_p parc parv =
      debug source_p "E :Operation                      Next Execution" [] ::
      debug source_p "E :---------------------------------------------" [] ::
      st.event_list.map (event_line st source_p) := by
    unfold stats_events
    rw [DLINK_FOREACH_map (event_line st source_p)
      (fun ev => [debug source_p "E :%-30s %-4d seconds"
        [Arg.str ev.name, Arg.int (int_diff ev.next st.CurrentTime)]]) (fun _ => rfl)]
    rfl
  refine ⟨heq, ?_, fun _ => rfl, ?_⟩
  · rw [heq]
    simp
  · intro ev hlo hhi
    unfold event_line
    rw [int_diff_exact _ _ hlo hhi]

/-- C26 at a concrete input: three events at time 1000, due in 5 seconds, due
now, and overdue by 2 seconds. -/
theorem stats_events_lines_witness :
    stats_events Sample.state_events Sample.adam 2 ["STATS", "E"] =
      [debug Sample.adam "E :Operation                      Next Execution" [],
       debug Sample.adam "E :---------------------------------------------" [],
       debug Sample.adam "E :%-30s %-4d seconds" [Arg.str "check_pings", Arg.int 5],
       debug Sample.adam "E :%-30s %-4d seconds" [Arg.str "try_connections", Arg.int 0],
       debug Sample.adam "E :%-30s %-4d seconds"
         [Arg.str "comm_checktimeouts", Arg.int (-2)]] ∧
    event_line Sample.state_events Sample.adam { name := "comm_checktimeouts", next := 998 } =
      debug Sample.adam "E :%-30s %-4d seconds"
        [Arg.str "comm_checktimeouts", Arg.int ((998 : Int) - (1000 : Int))] :=
  ⟨((stats_events_lines Sample.state_events Sample.adam 2 ["STATS", "E"]).1).trans
      (by decide),
   (stats_events_lines Sample.state_events Sample.adam 2 ["STATS", "E"]).2.2.2
      { name := "comm_checktimeouts", next := 998 } (by decide) (by decide)⟩


/-- Every line of `stats_L` is a connection line. -/
theorem stats_L_link_info (st : State) (source_p : Client) (name : String) (doall wilds : Int)
    (statchar : Char) :
    (stats_L st source_p name doall wilds statchar).all is_link_info = true := by
  have hl : ∀ list : List Client,
      (stats_L_list st source_p name doall wilds list statchar).all is_link_info = true := by
    intro list
    rw [stats_L_list_eq, List.all_eq_true]
    intro e he
    rw [List.mem_map] at he
    obtain ⟨t, _, rfl⟩ := he
    rfl
  unfold stats_L
  rw [List.all_append, List.all_append, hl, hl, hl]
  rfl

/-- C27: `stats_ltrace`, the handler of the category codes `l` and `L`, sends
exactly one need-more-parameters notice and no connection line when no target
argument is given (`parc <= 2`); when one is given it sends the connection
list for it and never that notice. `parse_stats_args` then returns the target
and leaves `doall` at 2 when `irccmp` finds the argument equal to the name or
ID of this server up to case, at 1 when it is not equal but `match` finds it a
mask that matches the name or ID, and at 0 otherwise. -/
theorem stats_ltrace_parameters (st : State) (source_p : Client) (parc : Nat)
    (parv : List String) :
    (stats_map_at 'l').map (fun tab => tab.handler) = some (some Handler.stats_ltrace) ∧
    (stats_map_at 'L').map (fun tab => tab.handler) = some (some Handler.stats_ltrace) ∧
    (parc ≤ 2 →
      stats_ltrace st source_p parc parv =
        [reply source_p Numeric.ERR_NEEDMOREPARAMS [Arg.str "STATS"]] ∧
      (stats_ltrace st source_p parc parv).filter is_need_more_params =
        [reply source_p Numeric.ERR_NEEDMOREPARAMS [Arg.str "STATS"]] ∧
      (stats_ltrace st source_p parc parv).filter is_link_info = []) ∧
    (2 < parc →
      stats_ltrace st source_p parc parv =
        stats_L st source_p (parv.getD 2 "") (parse_stats_args st source_p parc parv).2.1
          (st.ext.has_wildcards (parv.getD 2 "")) (deref (parv.getD 1 "")) ∧
      (stats_ltrace st source_p parc parv).filter is_need_more_params = [] ∧
      (parse_stats_args st source_p parc parv).1 = some (parv.getD 2 "") ∧
      (st.ext.irccmp (parv.getD 2 "") (st.ext.ID_or_name_me source_p) = 0 →
        (parse_stats_args st source_p parc parv).2.1 = 2) ∧
      (st.ext.irccmp (parv.getD 2 "") (st.ext.ID_or_name_me source_p) ≠ 0 →
        st.ext.match_ (parv.getD 2 "") (st.ext.ID_or_name_me source_p) = 0 →
        (parse_stats_args st source_p parc parv).2.1 = 1) ∧
      (st.ext.irccmp (parv.getD 2 "") (st.ext.ID_or_name_me source_p) ≠ 0 →
        st.ext.match_ (parv.getD 2 "") (st.ext.ID_or_name_me source_p) ≠ 0 →
        (parse_stats_args st source_p parc parv).2.1 = 0)) := by
  refine ⟨by decide, by decide, ?_, ?_⟩
  · intro hp
    have heq : stats_ltrace st source_p parc parv =
        [reply source_p Numeric.ERR_NEEDMOREPARAMS [Arg.str "STATS"]] := by
      unfold stats_ltrace parse_stats_args
      rw [if_neg (by omega)]
    rw [heq]
    exact ⟨rfl, rfl, rfl⟩
  · intro hp
    have hparse : parse_stats_args st source_p parc parv =
        (some (parv.getD 2 ""),
         (if st.ext.irccmp (parv.getD 2 "") (st.ext.ID_or_name_me source_p) = 0 then 2
          else if st.ext.match_ (parv.getD 2 "") (st.ext.ID_or_name_me source_p) = 0 then 1
          else 0),
         st.ext.has_wildcards (parv.getD 2 "")) := by
      unfold parse_stats_args
      rw [if_pos hp]
    have heq : stats_ltrace st source_p parc parv =
        stats_L st source_p (parv.getD 2 "") (parse_stats_args st source_p parc parv).2.1
          (st.ext.has_wildcards (parv.getD 2 "")) (deref (parv.getD 1 "")) := by
      unfold stats_ltrace
      rw [hparse]
    refine ⟨heq, ?_, ?_, ?_, ?_, ?_⟩
    · rw [heq, List.filter_eq_nil_iff]
      intro e he
      have hl := List.all_eq_true.mp (stats_L_link_info st source_p _ _ _ _) e he
      cases e with
      | sendto_one_numeric dest numeric explicit args =>
        cases numeric <;> simp [is_link_info, is_need_more_params] at hl ⊢
      | sendto_realops_flags flags fmt args => simp [is_need_more_params]
      | hunt_server source command server parc parv => simp [is_need_more_params]
      | store_past_end index capacity => simp [is_need_more_params]
    · rw [hparse]
    · intro h
      rw [hparse]
      dsimp only
      rw [if_pos h]
    · intro h1 h2
      rw [hparse]
      dsimp only
      rw [if_neg h1, if_pos h2]
    · intro h1 h2
      rw [hparse]
      dsimp only
      rw [if_neg h1, if_neg h2]

set_option maxRecDepth 100000 in
/-- C27 at concrete inputs: an operator asks for `l` without a target, with
the name of the server, with the mask `*` and with a nick. -/
theorem stats_ltrace_parameters_witness :
    stats_ltrace Sample.state Sample.oscar 2 ["STATS", "l"] =
      [reply Sample.oscar Numeric.ERR_NEEDMOREPARAMS [Arg.str "STATS"]] ∧
    (stats_ltrace Sample.state Sample.oscar 3 ["STATS", "l", "alice"]).filter
      is_need_more_params = [] ∧
    (parse_stats_args Sample.state Sample.oscar 3 ["STATS", "l", "irc.example"]).2.1 = 2 ∧
    (parse_stats_args Sample.state Sample.oscar 3 ["STATS", "l", "*"]).2.1 = 1 ∧
    (parse_stats_args Sample.state Sample.oscar 3 ["STATS", "l", "alice"]).2.1 = 0 :=
  ⟨((stats_ltrace_parameters Sample.state Sample.oscar 2 ["STATS", "l"]).2.2.1
      (by decide)).1,
   ((stats_ltrace_parameters Sample.state Sample.oscar 3 ["STATS", "l", "alice"]).2.2.2
      (by decide)).2.1,
   ((stats_ltrace_parameters Sample.state Sample.oscar 3 ["STATS", "l", "irc.example"]).2.2.2
      (by decide)).2.2.2.1 (by decide),
   ((stats_ltrace_parameters Sample.state Sample.oscar 3 ["STATS", "l", "*"]).2.2.2
      (by decide)).2.2.2.2.1 (by decide) (by decide),
   ((stats_ltrace_parameters Sample.state Sample.oscar 3 ["STATS", "l", "alice"]).2.2.2
      (by decide)).2.2.2.2.2 (by decide) (by decide)⟩

/-- What the operator-block report sends: one line per entry, in list order,
with the privilege string for an operator and the literal `0` otherwise. -/
theorem report_oper_blocks (st : State) (source_p : Client) :
    report_confitem_types st source_p maskitem_type.CONF_OPER =
      st.operator_items.map fun conf =>
        oper_block_line source_p conf
          (if HasUMode source_p UMODE_OPER then Arg.oper_privs_as_string conf.port
           else Arg.str "0") := by
  unfold report_confitem_types
  dsimp only
  apply DLINK_FOREACH_map
  intro conf
  cases HasUMode source_p UMODE_OPER <;> rfl

/-- C28: the operator-block report (`report_confitem_types` with `CONF_OPER`)
sends one line per operator entry, in list order. For a requester who is not
an operator the privilege-flags field of every line is the literal `0`; for an
operator it is `oper_privs_as_string` of the flags of the entry (`conf->port`);
so the argument passed for the field is the literal iff the requester is not an
operator. `stats_oper` sends this report unless it denies the request. -/
theorem oper_block_privileges (st : State) (source_p : Client) (parc : Nat)
    (parv : List String) :
    (report_confitem_types st source_p maskitem_type.CONF_OPER).length =
      st.operator_items.length ∧
    (HasUMode source_p UMODE_OPER = false →
      report_confitem_types st source_p maskitem_type.CONF_OPER =
        st.operator_items.map fun conf => oper_block_line source_p conf (Arg.str "0")) ∧
    (HasUMode source_p UMODE_OPER = true →
      report_confitem_types st source_p maskitem_type.CONF_OPER =
        st.operator_items.map fun conf =>
          oper_block_line source_p conf (Arg.oper_privs_as_string conf.port)) ∧
    (∀ conf ∈ st.operator_items,
      (oper_block_line source_p conf (Arg.str "0") ∈
          report_confitem_types st source_p maskitem_type.CONF_OPER ↔
        HasUMode source_p UMODE_OPER = false)) ∧
    (∀ (conf : MaskItem) (privs : Arg), oper_block_line source_p conf privs =
      Effect.sendto_one_numeric source_p.addr Numeric.RPL_STATSOLINE false
        [Arg.chr 'O', Arg.str conf.user, Arg.str conf.host, Arg.str (conf.name.getD ""),
         privs, Arg.str conf.class_name]) ∧
    ((HasUMode source_p UMODE_OPER = true ∨ st.ConfigGeneral.stats_o_oper_only = false) →
      stats_oper st source_p parc parv =
        report_confitem_types st source_p maskitem_type.CONF_OPER) := by
  refine ⟨?_, ?_, ?_, ?_, fun _ _ => rfl, ?_⟩
  · rw [report_oper_blocks, List.length_map]
  · intro ho
    rw [report_oper_blocks]
    simp [ho]
  · intro ho
    rw [report_oper_blocks]
    simp [ho]
  · intro conf hc
    rw [report_oper_blocks, List.mem_map]
    constructor
    · rintro ⟨c, _, hline⟩
      cases ho : HasUMode source_p UMODE_OPER
      · rfl
      · rw [ho] at hline
        simp [oper_block_line, reply] at hline
    · intro ho
      exact ⟨conf, hc, by simp [ho]⟩
  · intro h
    unfold stats_oper
    rcases h with h | h <;> simp [h]

/-- C28 at concrete inputs: a user without privileges and an operator ask for
the two operator blocks. -/
theorem oper_block_privileges_witness :
    stats_oper Sample.state_opers Sample.alice 2 ["STATS", "o"] =
      [oper_block_line Sample.alice Sample.oper_block (Arg.str "0"),
       oper_block_line Sample.alice Sample.admin_block (Arg.str "0")] ∧
    stats_oper Sample.state_opers Sample.oscar 2 ["STATS", "o"] =
      [oper_block_line Sample.oscar Sample.oper_block (Arg.oper_privs_as_string 255),
       oper_block_line Sample.oscar Sample.admin_block (Arg.oper_privs_as_string 4095)] :=
  ⟨((oper_block_privileges Sample.state_opers Sample.alice 2 ["STATS", "o"]).2.2.2.2.2
      (Or.inr (by decide))).trans
    (((oper_block_privileges Sample.state_opers Sample.alice 2 ["STATS", "o"]).2.1
      (by decide)).trans (by decide)),
   ((oper_block_privileges Sample.state_opers Sample.oscar 2 ["STATS", "o"]).2.2.2.2.2
      (Or.inl (by decide))).trans
    (((oper_block_privileges Sample.state_opers Sample.oscar 2 ["STATS", "o"]).2.2.1
      (by decide)).trans (by decide))⟩

/-! ## Claims on what the module writes -/

/-- The three-way branch of `stats_L_list` computes the rule. -/
theorem L_mode_eq_rule (source_p : Client) (statchar : Char) (target_p : Client) :
    L_mode source_p statchar target_p = L_mode_rule source_p statchar target_p := by
  unfold L_mode L_mode_rule is_peer local_oper
  by_cases h1 : MyConnect source_p = true <;> by_cases h2 : HasUMode source_p UMODE_OPER = true <;>
    by_cases h3 : HasUMode source_p UMODE_ADMIN = true <;>
    by_cases h4 : IsServer target_p = true <;> by_cases h5 : IsHandshake target_p = true <;>
    by_cases h6 : IsConnecting target_p = true <;>
    by_cases h7 : HasUMode target_p UMODE_ADMIN = true <;>
    by_cases h8 : IsUpper statchar = true <;>
    simp [h1, h2, h3, h4, h5, h6, h7, h8]

/-- C31: the three-way branch of `stats_L_list` that picks the address display
mode is equivalent to the rule: the mode is `MASK_IP` iff the target is a
server, handshaking or connecting peer and the requester is not a directly
connected operator with administrator status; in every other case it is
`SHOW_IP` for an upper-case category letter and `HIDE_IP` otherwise, whatever
the privileges of the requester and whether or not the target is an
administrator. So the entry of a peer is masked for every viewer who is not a
directly connected administrator, whatever the letter. -/
theorem L_mode_refines_rule (st : State) (source_p : Client) (name : String)
    (doall wilds : Int) (statchar : Char) (target_p : Client) :
    L_mode source_p statchar target_p = L_mode_rule source_p statchar target_p ∧
    stats_L_entry st source_p name doall wilds statchar target_p =
      (if rendered st source_p name doall wilds target_p then
        [L_line st source_p target_p (L_mode_rule source_p statchar target_p)]
       else []) ∧
    (L_mode source_p statchar target_p = ShowIP.MASK_IP ↔
      ((IsServer target_p = true ∨ IsHandshake target_p = true ∨
          IsConnecting target_p = true) ∧
        ¬ (MyConnect source_p = true ∧ HasUMode source_p UMODE_OPER = true ∧
            HasUMode source_p UMODE_ADMIN = true))) ∧
    (L_mode source_p statchar target_p ≠ ShowIP.MASK_IP →
      L_mode source_p statchar target_p =
        (if IsUpper statchar = true then ShowIP.SHOW_IP else ShowIP.HIDE_IP)) ∧
    (∀ (source2 target2 : Client),
      L_mode source_p statchar target_p ≠ ShowIP.MASK_IP →
      L_mode source2 statchar target2 ≠ ShowIP.MASK_IP →
      L_mode source2 statchar target2 = L_mode source_p statchar target_p) ∧
    ((IsServer target_p = true ∨ IsHandshake target_p = true ∨
        IsConnecting target_p = true) →
      ¬ (MyConnect source_p = true ∧ HasUMode source_p UMODE_OPER = true ∧
          HasUMode source_p UMODE_ADMIN = true) →
      ∀ c : Char, L_mode source_p c target_p = ShowIP.MASK_IP) := by
  have hrule : ∀ (s : Client) (c : Char) (t : Client),
      L_mode_rule s c t = ShowIP.MASK_IP ↔
        ((IsServer t = true ∨ IsHandshake t = true ∨ IsConnecting t = true) ∧
          ¬ (MyConnect s = true ∧ HasUMode s UMODE_OPER = true ∧
              HasUMode s UMODE_ADMIN = true)) := by
    intro s c t
    unfold L_mode_rule is_peer local_oper
    split
    next h => exact ⟨fun _ => ⟨h.1, fun h2 => h.2 ⟨⟨h2.1, h2.2.1⟩, h2.2.2⟩⟩, fun _ => rfl⟩
    next h =>
      constructor
      · intro hm
        split at hm <;> cases hm
      · intro h2
        exact absurd ⟨h2.1, fun h3 => h2.2 ⟨h3.1.1, h3.1.2, h3.2⟩⟩ h
  have hother : ∀ (s : Client) (c : Char) (t : Client),
      L_mode_rule s c t ≠ ShowIP.MASK_IP →
      L_mode_rule s c t = (if IsUpper c = true then ShowIP.SHOW_IP else ShowIP.HIDE_IP) := by
    intro s c t hne
    unfold L_mode_rule at hne ⊢
    split
    next h => rw [if_pos h] at hne; exact absurd rfl hne
    next h => rfl
  refine ⟨L_mode_eq_rule _ _ _, ?_, ?_, ?_, ?_, ?_⟩
  · rw [stats_L_entry_eq, L_mode_eq_rule]
  · rw [L_mode_eq_rule]
    exact hrule _ _ _
  · rw [L_mode_eq_rule]
    exact hother _ _ _
  · intro source2 target2 h1 h2
    rw [L_mode_eq_rule] at h1 h2 ⊢
    rw [L_mode_eq_rule, hother _ _ _ h1, hother _ _ _ h2]
  · intro hp hs c
    rw [L_mode_eq_rule]
    exact (hrule _ _ _).mpr ⟨hp, hs⟩

/-- C31 at concrete inputs: the link to `hub.example` is masked for an
operator who is not an administrator, with either letter, and is not masked
for a directly connected administrator; a user is shown or hidden by the letter
alone. -/
theorem L_mode_refines_rule_witness :
    (∀ c : Char, L_mode Sample.oscar c Sample.hub = ShowIP.MASK_IP) ∧
    L_mode Sample.adam 'L' Sample.hub = ShowIP.SHOW_IP ∧
    L_mode Sample.adam 'l' Sample.hub = ShowIP.HIDE_IP ∧
    L_mode Sample.remy 'L' Sample.adam = L_mode Sample.oscar 'L' Sample.alice :=
  ⟨(L_mode_refines_rule Sample.state Sample.oscar "*" 0 1 'l' Sample.hub).2.2.2.2.2
      (Or.inl (by decide)) (by decide),
   ((L_mode_refines_rule Sample.state Sample.adam "*" 0 1 'L' Sample.hub).2.2.2.1
      (by decide)).trans (by decide),
   ((L_mode_refines_rule Sample.state Sample.adam "*" 0 1 'l' Sample.hub).2.2.2.1
      (by decide)).trans (by decide),
   (L_mode_refines_rule Sample.state Sample.oscar "*" 0 1 'L' Sample.alice).2.2.2.2.1
      Sample.remy Sample.adam (by decide) (by decide)⟩


/-! ## Claims on the flag buffer -/

/-- C32, what the code does: for every shared entry and every cluster entry
the buffer has capacity 10 (the rows of `flag_table`, sentinel included), and
the code makes 11 stores to it, at the indices 0 to 10: the prefix character
at index 0, the nine letters at the indices 1 to 9, which are within the
buffer, and the terminating NUL at index 10, one past its last element. The
characters stored before the NUL are the flag string that is sent. -/
theorem flag_buf_terminator_past_capacity (type : Nat) :
    flag_buf_capacity shared_flag_table = 10 ∧
    flag_buf_capacity cluster_flag_table = 10 ∧
    (flag_stores 'c' shared_flag_table type).map Prod.fst = List.range 11 ∧
    (flag_stores 'C' cluster_flag_table type).map Prod.fst = List.range 11 ∧
    (flag_stores 'c' shared_flag_table type).getLast? = some (10, NUL) ∧
    (flag_stores 'C' cluster_flag_table type).getLast? = some (10, NUL) ∧
    (flag_stores 'c' shared_flag_table type).dropLast.map Prod.snd =
      flag_buf 'c' shared_flag_table type ∧
    (flag_stores 'C' cluster_flag_table type).dropLast.map Prod.snd =
      flag_buf 'C' cluster_flag_table type ∧
    (∀ s ∈ (flag_stores 'c' shared_flag_table type).dropLast,
      s.1 < flag_buf_capacity shared_flag_table) ∧
    (∀ s ∈ (flag_stores 'C' cluster_flag_table type).dropLast,
      s.1 < flag_buf_capacity cluster_flag_table) ∧
    ¬ (∀ s ∈ flag_stores 'c' shared_flag_table type,
      s.1 < flag_buf_capacity shared_flag_table) ∧
    ¬ (∀ s ∈ flag_stores 'C' cluster_flag_table type,
      s.1 < flag_buf_capacity cluster_flag_table) := by
  have hs : flag_stores 'c' shared_flag_table type =
      [(0, 'c'),
       (1, if SHARED_KLINE &&& type != 0 then 'K' else ToLower 'K'),
       (2, if SHARED_UNKLINE &&& type != 0 then 'U' else ToLower 'U'),
       (3, if SHARED_XLINE &&& type != 0 then 'X' else ToLower 'X'),
       (4, if SHARED_UNXLINE &&& type != 0 then 'Y' else ToLower 'Y'),
       (5, if SHARED_RESV &&& type != 0 then 'Q' else ToLower 'Q'),
       (6, if SHARED_UNRESV &&& type != 0 then 'R' else ToLower 'R'),
       (7, if SHARED_LOCOPS &&& type != 0 then 'L' else ToLower 'L'),
       (8, if SHARED_DLINE &&& type != 0 then 'D' else ToLower 'D'),
       (9, if SHARED_UNDLINE &&& type != 0 then 'E' else ToLower 'E'),
       (10, NUL)] := rfl
  have hc : flag_stores 'C' cluster_flag_table type =
      [(0, 'C'),
       (1, if CLUSTER_KLINE &&& type != 0 then 'K' else ToLower 'K'),
       (2, if CLUSTER_UNKLINE &&& type != 0 then 'U' else ToLower 'U'),
       (3, if CLUSTER_XLINE &&& type != 0 then 'X' else ToLower 'X'),
       (4, if CLUSTER_UNXLINE &&& type != 0 then 'Y' else ToLower 'Y'),
       (5, if CLUSTER_RESV &&& type != 0 then 'Q' else ToLower 'Q'),
       (6, if CLUSTER_UNRESV &&& type != 0 then 'R' else ToLower 'R'),
       (7, if CLUSTER_LOCOPS &&& type != 0 then 'L' else ToLower 'L'),
       (8, if CLUSTER_DLINE &&& type != 0 then 'D' else ToLower 'D'),
       (9, if CLUSTER_UNDLINE &&& type != 0 then 'E' else ToLower 'E'),
       (10, NUL)] := rfl
  have hcap : flag_buf_capacity shared_flag_table = 10 := rfl
  have hcap2 : flag_buf_capacity cluster_flag_table = 10 := rfl
  refine ⟨hcap, hcap2, ?_, ?_, ?_, ?_, ?_, ?_, ?_, ?_, ?_, ?_⟩
  · rw [hs]; rfl
  · rw [hc]; rfl
  · rw [hs]; rfl
  · rw [hc]; rfl
  · rw [hs]; rfl
  · rw [hc]; rfl
  · rw [hs, hcap]
    intro s h
    simp only [List.dropLast, List.mem_cons, List.not_mem_nil, or_false] at h
    rcases h with h | h | h | h | h | h | h | h | h | h <;> rw [h] <;> dsimp only <;> omega
  · rw [hc, hcap2]
    intro s h
    simp only [List.dropLast, List.mem_cons, List.not_mem_nil, or_false] at h
    rcases h with h | h | h | h | h | h | h | h | h | h <;> rw [h] <;> dsimp only <;> omega
  · rw [hs, hcap]
    intro h
    exact absurd (h (10, NUL) (by simp)) (by decide)
  · rw [hc, hcap2]
    intro h
    exact absurd (h (10, NUL) (by simp)) (by decide)

/-- C32 at a concrete input: the shared entry of the sample server, which
grants `SHARED_KLINE` only. The flag string sent is `cKuxyqrlde`; the NUL that
ends it is stored at index 10 of the buffer of 10 characters. -/
theorem flag_buf_terminator_past_capacity_witness :
    report_shared Sample.state Sample.oscar =
      [Effect.store_past_end 10 10,
       reply Sample.oscar Numeric.RPL_STATSULINE
        [Arg.str "*", Arg.str "*", Arg.str "*", Arg.str "cKuxyqrlde"]] ∧
    (flag_stores 'c' shared_flag_table SHARED_KLINE).getLast? = some (10, NUL) ∧
    flag_buf_capacity shared_flag_table = 10 :=
  ⟨by decide, (flag_buf_terminator_past_capacity SHARED_KLINE).2.2.2.2.1,
   (flag_buf_terminator_past_capacity SHARED_KLINE).1⟩

/-! ## Claims on the formula of the grand total -/

/-- The grand total is the formula, as a `size_t`. -/
theorem total_memory_eq_formula (st : State) :
    (stats_memory_vars st).total_memory = size_t (memory_formula st) := by
  unfold memory_formula
  simp only [stats_memory_vars]
  unfold size_t
  generalize count_clients st.global_client_list _ = cl
  generalize count_channels st.sizes st.channel_list _ = ch
  generalize st.whowas_count_memory.1 * st.sizes.sizeof_Client = a
  generalize dlink_list_length st.channel_list * st.sizes.sizeof_Channel = b
  generalize ch.channel_members * st.sizes.sizeof_Membership = d
  have he : ch.channel_invites * st.sizes.sizeof_dlink_node * 2 =
      ch.channel_invites * 2 * st.sizes.sizeof_dlink_node := by
    rw [Nat.mul_assoc, Nat.mul_comm st.sizes.sizeof_dlink_node 2, ← Nat.mul_assoc]
  rw [he]
  generalize ch.channel_invites * 2 * st.sizes.sizeof_dlink_node = e
  generalize dlink_list_length st.class_list * st.sizes.sizeof_ClassItem = f
  generalize cl.local_client_count * (st.sizes.sizeof_Client + st.sizes.sizeof_Connection) = g
  generalize cl.remote_client_count * st.sizes.sizeof_Client = k
  omega

/-- The counters of the channel loop that the grand total reads do not depend
on the exception and invite-exception lists. -/
theorem count_channels_counted (sz : Sizes) (except invex : Channel → Nat)
    (list : List Channel) (c c2 : ChannelCounts)
    (hm : c2.channel_members = c.channel_members)
    (hi : c2.channel_invites = c.channel_invites)
    (hb : c2.channel_ban_memory = c.channel_ban_memory) :
    (count_channels sz
      (list.map fun ch => { ch with exceptlist := except ch, invexlist := invex ch })
      c2).channel_members = (count_channels sz list c).channel_members ∧
    (count_channels sz
      (list.map fun ch => { ch with exceptlist := except ch, invexlist := invex ch })
      c2).channel_invites = (count_channels sz list c).channel_invites ∧
    (count_channels sz
      (list.map fun ch => { ch with exceptlist := except ch, invexlist := invex ch })
      c2).channel_ban_memory = (count_channels sz list c).channel_ban_memory := by
  induction list generalizing c c2 with
  | nil => exact ⟨hm, hi, hb⟩
  | cons ch rest ih =>
    rw [List.map_cons, count_channels, count_channels]
    apply ih
    · dsimp only
      rw [hm]
    · dsimp only
      rw [hi]
    · dsimp only
      rw [hb]

/-- The two client counters that the grand total reads do not depend on the
watch lists and attached confs of the connections. -/
theorem count_clients_counted (watches confs : Client → Nat) (list : List Client)
    (c c2 : ClientCounts) (hl : c2.local_client_count = c.local_client_count)
    (hr : c2.remote_client_count = c.remote_client_count) :
    (count_clients
      (list.map fun t =>
        { t with connection := t.connection.map fun k =>
            { k with watches := watches t, confs := confs t } })
      c2).local_client_count = (count_clients list c).local_client_count ∧
    (count_clients
      (list.map fun t =>
        { t with connection := t.connection.map fun k =>
            { k with watches := watches t, confs := confs t } })
      c2).remote_client_count = (count_clients list c).remote_client_count := by
  induction list generalizing c c2 with
  | nil => exact ⟨hl, hr⟩
  | cons t rest ih =>
    rw [List.map_cons, count_clients_cons, count_clients_cons]
    have hmy : MyConnect { t with connection := t.connection.map fun k =>
        { k with watches := watches t, confs := confs t } } = MyConnect t := by
      unfold MyConnect
      cases t.connection <;> rfl
    apply ih
    · rw [(count_client_counts _ c2).1, (count_client_counts t c).1, hmy, hl]
    · rw [(count_client_counts _ c2).2, (count_client_counts t c).2, hmy, hr]


/-- The formula is the sum `stats_memory` computes, term by term. -/
theorem memory_formula_raw (st : State) : memory_formula st = raw_total_memory st := by
  unfold memory_formula raw_total_memory
  simp only [stats_memory_vars]
  generalize count_clients st.global_client_list _ = cl
  generalize count_channels st.sizes st.channel_list _ = ch
  have he : ch.channel_invites * st.sizes.sizeof_dlink_node * 2 =
      ch.channel_invites * 2 * st.sizes.sizeof_dlink_node := by
    rw [Nat.mul_assoc, Nat.mul_comm st.sizes.sizeof_dlink_node 2, ← Nat.mul_assoc]
  rw [he]
  omega

/-- The formula does not read what `with_uncounted` replaces. -/
theorem memory_formula_with_uncounted (st : State) (except invex : Channel → Nat)
    (watches confs : Client → Nat) (watch listener ipcache : Nat × Nat)
    (listing : List Client) (resv_chan resv_nick : List ResvItem) :
    memory_formula (with_uncounted st except invex watches confs watch listener ipcache
      listing resv_chan resv_nick) = memory_formula st := by
  have hch := count_channels_counted st.sizes except invex st.channel_list
    { channel_members := 0, channel_invites := 0, channel_topics := 0, channel_bans := 0,
      channel_ban_memory := 0, channel_except := 0, channel_except_memory := 0,
      channel_invex := 0, channel_invex_memory := 0 }
    { channel_members := 0, channel_invites := 0, channel_topics := 0, channel_bans := 0,
      channel_ban_memory := 0, channel_except := 0, channel_except_memory := 0,
      channel_invex := 0, channel_invex_memory := 0 } rfl rfl rfl
  have hcl := count_clients_counted watches confs st.global_client_list
    { local_client_count := 0, local_client_conf_count := 0, watch_list_entries := 0,
      remote_client_count := 0, users_counted := 0, aways_counted := 0 }
    { local_client_count := 0, local_client_conf_count := 0, watch_list_entries := 0,
      remote_client_count := 0, users_counted := 0, aways_counted := 0 } rfl rfl
  unfold memory_formula
  simp only [stats_memory_vars, with_uncounted]
  rw [hch.1, hch.2.1, hch.2.2, hcl.1, hcl.2]
  simp only [dlink_list_length, List.length_map]

/-- C33: the grand total `stats_memory` computes is, as a `size_t`, exactly
`whowas_users * sizeof(Client) + whowas_array_memory + channels * sizeof(Channel)
+ ban_memory + channel_members * sizeof(Membership) + channel_invites * 2 *
sizeof(dlink_node) + classes * sizeof(ClassItem) + local_clients *
(sizeof(Client) + sizeof(Connection)) + remote_clients * sizeof(Client)`, the
plain sum when nothing overflows. The `conf` figure of the line `Total:` is 0
for every state. The exception and invite-exception lists, the watch lists,
the reservations, the listeners, the safelist and the address cache do not
contribute: replacing them leaves the grand total unchanged. -/
theorem total_memory_formula (st : State) (source_p : Client) (parc : Nat)
    (parv : List String) :
    (stats_memory_vars st).total_memory = size_t (memory_formula st) ∧
    memory_formula st =
      st.whowas_count_memory.1 * st.sizes.sizeof_Client + st.whowas_count_memory.2 +
        dlink_list_length st.channel_list * st.sizes.sizeof_Channel +
        (stats_memory_vars st).channels.channel_ban_memory +
        (stats_memory_vars st).channels.channel_members * st.sizes.sizeof_Membership +
        (stats_memory_vars st).channels.channel_invites * 2 * st.sizes.sizeof_dlink_node +
        dlink_list_length st.class_list * st.sizes.sizeof_ClassItem +
        (stats_memory_vars st).clients.local_client_count *
          (st.sizes.sizeof_Client + st.sizes.sizeof_Connection) +
        (stats_memory_vars st).clients.remote_client_count * st.sizes.sizeof_Client ∧
    (memory_no_overflow st → (stats_memory_vars st).total_memory = memory_formula st) ∧
    (stats_memory_vars st).conf_memory = 0 ∧
    debug source_p "z :Total: whowas %zu channel %zu conf %zu"
        [Arg.num (stats_memory_vars st).totww,
         Arg.num (stats_memory_vars st).total_channel_memory, Arg.num 0] ∈
      stats_memory st source_p parc parv ∧
    (∀ (except invex : Channel → Nat) (watches confs : Client → Nat)
      (watch listener ipcache : Nat × Nat) (listing : List Client)
      (resv_chan resv_nick : List ResvItem),
      (stats_memory_vars (with_uncounted st except invex watches confs watch listener
        ipcache listing resv_chan resv_nick)).total_memory =
        (stats_memory_vars st).total_memory) := by
  refine ⟨total_memory_eq_formula st, rfl, ?_, rfl, ?_, ?_⟩
  · intro h
    rw [total_memory_raw st h, memory_formula_raw]
  · unfold stats_memory
    dsimp only
    apply List.mem_append_right
    exact List.mem_cons_of_mem _ (List.mem_cons_self _ _)
  · intro except invex watches confs watch listener ipcache listing resv_chan resv_nick
    rw [total_memory_eq_formula, total_memory_eq_formula, memory_formula_with_uncounted]

/-- C33 at a concrete input: the server with ten local users and two channels,
one with two exceptions, the other with one invite-exception. The grand total
is the formula, 18708, and stays the same without the exceptions. -/
theorem total_memory_formula_witness :
    (stats_memory_vars Sample.state_ten).total_memory = 18708 ∧
    memory_formula Sample.state_ten = 18708 ∧
    (stats_memory_vars (with_uncounted Sample.state_ten (fun _ => 0) (fun _ => 0)
      (fun _ => 0) (fun _ => 0) (0, 0) (0, 0) (0, 0) [] [] [])).total_memory = 18708 :=
  ⟨((total_memory_formula Sample.state_ten Sample.oscar 2 ["STATS", "z"]).2.2.1
      (by decide)).trans (by decide),
   by decide,
   ((total_memory_formula Sample.state_ten Sample.oscar 2 ["STATS", "z"]).2.2.2.2.2
      (fun _ => 0) (fun _ => 0) (fun _ => 0) (fun _ => 0) (0, 0) (0, 0) (0, 0) [] []
      []).trans (by decide)⟩


/-! ## Claims on the kilobyte figures and on the count of the server links -/

/-- Shifting after the sum loses less than one unit per summand: the sum of
the shifted values, times 1024, is at most the sum, which exceeds it by at most
1023 per summand. -/
theorem kilobyte_sums (f : Client → Nat) (list : List Client) :
    1024 * (list.map fun t => f t >>> 10).sum ≤ (list.map f).sum ∧
    (list.map f).sum ≤ 1024 * (list.map fun t => f t >>> 10).sum + 1023 * list.length := by
  induction list with
  | nil => simp
  | cons t rest ih =>
    simp only [List.map_cons, List.sum_cons, List.length_cons, Nat.shiftRight_eq_div_pow]
    simp only [Nat.shiftRight_eq_div_pow] at ih
    have h10 : 2 ^ 10 = 1024 := by norm_num
    rw [h10] at ih ⊢
    omega

/-- The total after the shift lies between the sum of the shifted values and
that sum plus the number of summands. -/
theorem kilobyte_total (f : Client → Nat) (list : List Client) :
    (list.map fun t => f t >>> 10).sum ≤ (list.map f).sum >>> 10 ∧
    (list ≠ [] →
      (list.map f).sum >>> 10 < (list.map fun t => f t >>> 10).sum + list.length) ∧
    (list = [] → (list.map f).sum >>> 10 = 0) := by
  obtain ⟨h1, h2⟩ := kilobyte_sums f list
  have h10 : 2 ^ 10 = 1024 := by norm_num
  refine ⟨?_, ?_, ?_⟩
  · rw [Nat.shiftRight_eq_div_pow (List.sum _), h10]
    omega
  · intro hne
    have hpos : 0 < list.length := List.length_pos.mpr hne
    rw [Nat.shiftRight_eq_div_pow (List.sum _), h10]
    omega
  · intro he
    rw [he]
    simp

/-- C34: in `stats_servlinks` the bytes are summed before the shift. When the
request is not denied and the sums do not overflow, the kilobyte value `T` of
the line `Sent total` and the kilobyte fields `k_1 .. k_n` of the `n` peer
lines satisfy `k_1 + ... + k_n <= T`, and `T < k_1 + ... + k_n + n` for
`n >= 1`, while `T = 0` for `n = 0`; the same holds for the line `Recv total`
and the receive fields. -/
theorem stats_servlinks_kilobytes (st : State) (source_p : Client) (parc : Nat)
    (parv : List String)
    (h : st.ConfigServerHide.flatten_links = false ∨ HasUMode source_p UMODE_OPER = true)
    (hs : sum_send_bytes (servlink_shown st source_p) < 2 ^ 64)
    (hr : sum_recv_bytes (servlink_shown st source_p) < 2 ^ 64) :
    stats_servlinks st source_p parc parv =
      (servlink_shown st source_p).map (servlink_line st source_p) ++
      servlinks_summary st source_p (dlink_list_length st.local_server_list)
        (sum_send_bytes (servlink_shown st source_p) >>> 10)
        (sum_recv_bytes (servlink_shown st source_p) >>> 10) ∧
    (∀ t : Client,
      (reply_args (servlink_line st source_p t)).get? 3 =
        some (Arg.num (t.conn.send_bytes >>> 10)) ∧
      (reply_args (servlink_line st source_p t)).get? 5 =
        some (Arg.num (t.conn.recv_bytes >>> 10))) ∧
    sum_send_kilobytes (servlink_shown st source_p) ≤
      sum_send_bytes (servlink_shown st source_p) >>> 10 ∧
    (servlink_shown st source_p ≠ [] →
      sum_send_bytes (servlink_shown st source_p) >>> 10 <
        sum_send_kilobytes (servlink_shown st source_p) +
          (servlink_shown st source_p).length) ∧
    (servlink_shown st source_p = [] →
      sum_send_bytes (servlink_shown st source_p) >>> 10 = 0) ∧
    sum_recv_kilobytes (servlink_shown st source_p) ≤
      sum_recv_bytes (servlink_shown st source_p) >>> 10 ∧
    (servlink_shown st source_p ≠ [] →
      sum_recv_bytes (servlink_shown st source_p) >>> 10 <
        sum_recv_kilobytes (servlink_shown st source_p) +
          (servlink_shown st source_p).length) ∧
    (servlink_shown st source_p = [] →
      sum_recv_bytes (servlink_shown st source_p) >>> 10 = 0) := by
  have hd : ¬ servlinks_denied st source_p := by
    rintro ⟨hf, ho⟩
    rcases h with h | h
    · rw [hf] at h
      cases h
    · rw [ho] at h
      cases h
  have hks := kilobyte_total (fun t => t.conn.send_bytes) (servlink_shown st source_p)
  have hkr := kilobyte_total (fun t => t.conn.recv_bytes) (servlink_shown st source_p)
  refine ⟨?_, fun _ => ⟨rfl, rfl⟩, hks.1, hks.2.1, hks.2.2, hkr.1, hkr.2.1, hkr.2.2⟩
  rw [stats_servlinks_eq st source_p parc parv hd, uintmax_t, uintmax_t,
    Nat.mod_eq_of_lt hs, Nat.mod_eq_of_lt hr]

/-- C34 at a concrete input: the two rendered links sent 4096 and 1500 bytes
and received 2050 and 1000 bytes: the fields are 4 and 1, and 2 and 0, the
totals 5 and 2. -/
theorem stats_servlinks_kilobytes_witness :
    sum_send_kilobytes (servlink_shown Sample.state_links Sample.alice) = 4 + 1 ∧
    sum_send_bytes (servlink_shown Sample.state_links Sample.alice) >>> 10 = 5 ∧
    sum_recv_kilobytes (servlink_shown Sample.state_links Sample.alice) = 2 + 0 ∧
    sum_recv_bytes (servlink_shown Sample.state_links Sample.alice) >>> 10 = 2 ∧
    sum_send_bytes (servlink_shown Sample.state_links Sample.alice) >>> 10 <
      sum_send_kilobytes (servlink_shown Sample.state_links Sample.alice) +
        (servlink_shown Sample.state_links Sample.alice).length ∧
    stats_servlinks Sample.state_links Sample.alice 2 ["STATS", "?"] =
      [servlink_line Sample.state_links Sample.alice Sample.hub,
       servlink_line Sample.state_links Sample.alice Sample.leaf] ++
      servlinks_summary Sample.state_links Sample.alice 3 5 2 :=
  ⟨by decide, by decide, by decide, by decide,
   (stats_servlinks_kilobytes Sample.state_links Sample.alice 2 ["STATS", "?"]
      (Or.inl (by decide)) (by decide) (by decide)).2.2.2.1 (by decide),
   ((stats_servlinks_kilobytes Sample.state_links Sample.alice 2 ["STATS", "?"]
      (Or.inl (by decide)) (by decide) (by decide)).1).trans (by decide)⟩

/-- C35: when `stats_servlinks` does not deny the request, the number on the
line `total server(s)` is the length of `local_server_list` (for a list shorter
than `2^32`): the number of peer lines rendered plus the number of service
peers the hidden-services rule skipped. For a requester who is not an operator,
with `hide_services` set, it so exceeds the number of rendered lines by the
number of service peers; for any other requester nothing is skipped. The
trailing number of `stats_operedup`, in contrast, is the number of entries it
rendered. -/
theorem stats_servlinks_total_servers (st : State) (source_p : Client) (parc : Nat)
    (parv : List String)
    (h : st.ConfigServerHide.flatten_links = false ∨ HasUMode source_p UMODE_OPER = true)
    (hlen : st.local_server_list.length < 2 ^ 32) :
    (stats_servlinks st source_p parc parv).get? (servlink_shown st source_p).length =
      some (debug source_p "? :%u total server(s)" [Arg.num st.local_server_list.length]) ∧
    ((stats_servlinks st source_p parc parv).filter is_link_info).length =
      (servlink_shown st source_p).length ∧
    st.local_server_list.length =
      (servlink_shown st source_p).length + (servlink_hidden st source_p).length ∧
    (HasUMode source_p UMODE_OPER = false → st.ConfigServerHide.hide_services = true →
      servlink_hidden st source_p = st.local_server_list.filter fun t => t.service) ∧
    ((HasUMode source_p UMODE_OPER = true ∨ st.ConfigServerHide.hide_services = false) →
      servlink_hidden st source_p = [] ∧ servlink_shown st source_p = st.local_server_list) ∧
    (st.oper_list.length < 2 ^ 32 →
      (stats_operedup st source_p parc parv).getLast? =
        some (operedup_count_line source_p
          ((stats_operedup st source_p parc parv).length - 1))) := by
  have hd : ¬ servlinks_denied st source_p := by
    rintro ⟨hf, ho⟩
    rcases h with h | h
    · rw [hf] at h
      cases h
    · rw [ho] at h
      cases h
  have heq := stats_servlinks_eq st source_p parc parv hd
  refine ⟨?_, ?_, ?_, ?_, ?_, ?_⟩
  · rw [heq, List.get?_eq_getElem?, List.getElem?_append_right (by simp)]
    simp only [List.length_map, Nat.sub_self, dlink_list_length, u32, Nat.mod_eq_of_lt hlen]
    rfl
  · rw [heq, List.filter_append]
    have h1 : ((servlink_shown st source_p).map (servlink_line st source_p)).filter
        is_link_info = (servlink_shown st source_p).map (servlink_line st source_p) := by
      rw [List.filter_eq_self]
      intro e he
      rw [List.mem_map] at he
      obtain ⟨t, _, rfl⟩ := he
      rfl
    have h2 : (servlinks_summary st source_p (dlink_list_length st.local_server_list)
        (uintmax_t (sum_send_bytes (servlink_shown st source_p)) >>> 10)
        (uintmax_t (sum_recv_bytes (servlink_shown st source_p)) >>> 10)).filter
        is_link_info = [] := rfl
    rw [h1, h2, List.append_nil, List.length_map]
  · unfold servlink_shown servlink_hidden
    have := List.length_eq_length_filter_add (l := st.local_server_list)
      (fun t => decide (servlink_skipped st source_p t))
    simp only [decide_not]
    omega
  · intro ho hh
    unfold servlink_hidden
    apply List.filter_congr
    intro t _
    unfold servlink_skipped
    by_cases hsv : t.service = true <;> simp [hsv, ho, hh]
  · intro hc
    have hnone : ∀ t, ¬ servlink_skipped st source_p t := by
      rintro t ⟨_, hh, ho⟩
      rcases hc with hc | hc
      · rw [ho] at hc
        cases hc
      · rw [hh] at hc
        cases hc
    unfold servlink_hidden servlink_shown
    constructor
    · rw [List.filter_eq_nil_iff]
      intro t _
      simpa using hnone t
    · rw [List.filter_eq_self]
      intro t _
      simpa using hnone t
  · intro hol
    have hle : (st.oper_list.filter fun t => decide (roster_shown source_p t)).length <
        2 ^ 32 := Nat.lt_of_le_of_lt (List.length_filter_le _ _) hol
    unfold stats_operedup
    dsimp only
    rw [stats_operedup_loop_eq source_p st.oper_list 0 (by decide)]
    dsimp only
    rw [List.getLast?_append, Nat.zero_add, u32, Nat.mod_eq_of_lt hle, List.length_append,
      List.length_map]
    rfl

/-- C35 at a concrete input: a user without privileges, three links, one of
them to services, `hide_services` on: two lines are rendered and the count
says 3. On the same server the roster of operators counts what it renders. -/
theorem stats_servlinks_total_servers_witness :
    (stats_servlinks Sample.state_links Sample.alice 2 ["STATS", "?"]).get? 2 =
      some (debug Sample.alice "? :%u total server(s)" [Arg.num 3]) ∧
    ((stats_servlinks Sample.state_links Sample.alice 2 ["STATS", "?"]).filter
      is_link_info).length = 2 ∧
    servlink_hidden Sample.state_links Sample.alice = [Sample.services] ∧
    (stats_operedup Sample.state_roster Sample.alice 2 ["STATS", "p"]).getLast? =
      some (operedup_count_line Sample.alice 3) :=
  ⟨((stats_servlinks_total_servers Sample.state_links Sample.alice 2 ["STATS", "?"]
      (Or.inl (by decide)) (by decide)).1),
   ((stats_servlinks_total_servers Sample.state_links Sample.alice 2 ["STATS", "?"]
      (Or.inl (by decide)) (by decide)).2.1).trans (by decide),
   ((stats_servlinks_total_servers Sample.state_links Sample.alice 2 ["STATS", "?"]
      (Or.inl (by decide)) (by decide)).2.2.2.1 (by decide) (by decide)).trans (by decide),
   ((stats_servlinks_total_servers Sample.state_roster Sample.alice 2 ["STATS", "p"]
      (Or.inl (by decide)) (by decide)).2.2.2.2.2 (by decide)).trans (by decide)⟩

end MStats
